import Mathlib

/-!
# gpsd: TSIP packet decoder and NTP shared-memory time export

A shallow embedding of `src/tsip.c` and `src/timeexport.c`.

Conventions of the embedding:

* The build modelled is the one with `TSIP_ENABLE`, `NTPSHM_ENABLE`, `TIMESERVICE_ENABLE`,
  `PPS_ENABLE` and `CHRONY_ENABLE` defined.
* A `struct gps_context_t *` shared by several sessions is passed and returned explicitly;
  the shared-memory segments it points to are held by value (`Option shmTime`, `none` for a
  null pointer).  Distinct units are distinct segments.
* C arrays are total maps from the index; array capacities are not modelled.
* `int` counters that the code increments wrap modulo 2^32 (`wrap32`).
* Floating point is not interpreted: `FloatOps` lists the operations the code uses over an
  abstract carrier, and every theorem holds for all interpretations.
* `gpsd.h`, `gps.h` and `bits.h` are not among the sources; what the code takes from them is
  the parameter `gpsd_h`, or a definition whose comment says so.
* Logging (`gpsd_report`, the `snprintf` into local buffers) has no effect on the state and
  is left out.
-/

namespace Gpsd

/-! ## Floating point and the missing headers -/

/-- The C floating-point operations used by the two files, over an abstract carrier `D` of
`double` values; a `float` is carried as the `double` it promotes to. -/
structure FloatOps (D : Type) where
  /-- The decimal literal `m * 10^(-e)`, e.g. `lit 75 3` for `0.075`. -/
  lit : Nat → Nat → D
  /-- Conversion of an `int` to `double`. -/
  ofInt : Int → D
  add : D → D → D
  sub : D → D → D
  mul : D → D → D
  /-- The comparison `x >= y`. -/
  ge : D → D → Bool
  /-- The comparison `x > y`. -/
  gt : D → D → Bool
  /-- The comparison `x < y`. -/
  lt : D → D → Bool
  sqrt : D → D
  pow : D → D → D
  atan2 : D → D → D
  roundf : D → D
  round : D → D
  /-- The library call `modf(x, &ip)`: the pair (returned fractional part, `ip`). -/
  modf : D → D × D
  /-- The cast `(int) x`. -/
  toInt : D → Int
  /-- The cast `(time_t) x`. -/
  toTimeT : D → Int

/-- What `tsip.c` takes from `gpsd.h`, `gps.h` and `bits.h`: constants, the field-extraction
macros and `gpstime_to_unix`.  A decode buffer is the map from offset to byte. -/
structure gpsd_h (D : Type) where
  TSIP_PACKET : Int
  LEAP_SECOND_VALID : Int
  TIME_SET : Nat
  LATLON_SET : Nat
  ALTITUDE_SET : Nat
  SPEED_SET : Nat
  TRACK_SET : Nat
  CLIMB_SET : Nat
  SATELLITE_SET : Nat
  HDOP_SET : Nat
  VDOP_SET : Nat
  PDOP_SET : Nat
  MODE_SET : Nat
  MODE_NO_FIX : Int
  MODE_2D : Int
  MODE_3D : Int
  STATUS_FIX : Int
  STATUS_DGPS_FIX : Int
  RAD_2_DEG : D
  /-- The macro `getub(buf, off)`: an unsigned 8-bit field. -/
  getub : (Nat → Nat) → Nat → Nat
  /-- The macro `getsw(buf, off)`: a signed 16-bit field. -/
  getsw : (Nat → Nat) → Nat → Int
  /-- The macro `getf(buf, off)`: a single-precision field. -/
  getf : (Nat → Nat) → Nat → D
  /-- The macro `getd(buf, off)`: a double-precision field. -/
  getd : (Nat → Nat) → Nat → D
  /-- The macro `putbyte(buf, off, val)`. -/
  putbyte : (Nat → Nat) → Nat → Nat → (Nat → Nat)
  /-- The function `gpstime_to_unix(week, tow)`. -/
  gpstime_to_unix : Int → D → D

/-- Modelled from the spec: `NTPSHMSEGS` is defined in `gpsd.h`, which is not among the
sources; the store pool is "an ordered fixed-size array of N (N=4 in the reference
behavior)" records, units 0..3. -/
def NTPSHMSEGS : Nat := 4

/-- Two's-complement wrap of an integer to the range of a 32-bit `int`. -/
def wrap32 (x : Int) : Int := (x + 2147483648) % 4294967296 - 2147483648

/-! ## Data model -/

/-- The record `struct shmTime` of one shared-memory segment. -/
structure shmTime where
  mode : Int
  count : Int
  clockTimeStampSec : Int
  clockTimeStampUSec : Int
  receiveTimeStampSec : Int
  receiveTimeStampUSec : Int
  leap : Int
  precision : Int
  nsamples : Int
  valid : Int
  pad : List Int
deriving DecidableEq, Repr

/-- The record `struct timeval`. -/
structure timeval where
  tv_sec : Int
  tv_usec : Int
deriving DecidableEq, Repr

/-- The record `struct timespec`. -/
structure timespec where
  tv_sec : Int
  tv_nsec : Int
deriving DecidableEq, Repr

/-- The fields of `struct gps_context_t` the two files use. -/
structure gps_context_t where
  /-- The segment pointers `shmTime[NTPSHMSEGS]`, each with the segment it points to. -/
  shmTime : Nat → Option shmTime
  shmTimeInuse : Nat → Bool
  enable_ntpshm : Bool
  leap_notify : Int
  leap_seconds : Int
  valid : Int

/-- The fields of `struct gps_fix_t` that `tsip.c` uses. -/
structure gps_fix_t (D : Type) where
  time : D
  latitude : D
  longitude : D
  altitude : D
  speed : D
  track : D
  climb : D
  mode : Int

/-- The fields of `struct gps_data_t` that `tsip.c` uses. -/
structure gps_data_t (D : Type) where
  tag : String
  sentence_time : D
  fix : gps_fix_t D
  status : Int
  satellites : Int
  satellites_used : Int
  PRN : Nat → Int
  ss : Nat → Int
  elevation : Nat → Int
  azimuth : Nat → Int
  used : Nat → Int
  pdop : D
  hdop : D
  vdop : D
  tdop : D
  gdop : D

/-- The fields of `struct gps_device_t` the two files use.  `pps_thread` records whether
`pps_thread_activate` has been called without a later `pps_thread_deactivate`, and
`thread_hooks` whether the four `thread_*_hook` pointers have been installed. -/
structure gps_device_t (D : Type) where
  gpsdata : gps_data_t D
  packet_type : Int
  outbuffer : Nat → Nat
  outbuflen : Nat
  gps_week : Int
  last_request : Int
  shmindex : Int
  shmTimeP : Int
  ship_to_ntpd : Bool
  fixcnt : Int
  chronyfd : Int
  pps_thread : Bool
  thread_hooks : Bool

/-! ## timeexport.c -/

/-- What the operating system answers to `getShmTime`: the effective user id, and for each
unit the segment that `shmget` and `shmat` deliver (`none` when either fails). -/
structure os_t where
  uid : Nat
  shm : Nat → Option shmTime

/-- The function `getShmTime(context, unit)`: the attached segment of the unit, or null. -/
def getShmTime (os : os_t) (unit : Nat) : Option shmTime := os.shm unit

/-- The loop of `ntpshm_init` over the units `i, i+1, ..`, with `n` units left. -/
def ntpshm_init_loop (os : os_t) : Nat → Nat → (Nat → Option shmTime) → (Nat → Option shmTime)
  | 0, _, tbl => tbl
  | n + 1, i, tbl =>
    if 2 ≤ i ∨ os.uid = 0 then
      ntpshm_init_loop os n (i + 1) (Function.update tbl i (getShmTime os i))
    else
      ntpshm_init_loop os n (i + 1) tbl

/-- The function `ntpshm_init`: attach the segments, clear the in-use table. -/
def ntpshm_init (os : os_t) (context : gps_context_t) : gps_context_t :=
  { context with
    shmTime := ntpshm_init_loop os NTPSHMSEGS 0 context.shmTime
    shmTimeInuse := fun i => if i < NTPSHMSEGS then false else context.shmTimeInuse i
    enable_ntpshm := true }

/-- The segment contents `ntpshm_alloc` leaves: `memset` to zero, then `mode`, `leap`,
`precision` and `nsamples`. -/
def alloc_reset (LEAP_NOTINSYNC : Int) : shmTime :=
  { mode := 1, count := 0, clockTimeStampSec := 0, clockTimeStampUSec := 0,
    receiveTimeStampSec := 0, receiveTimeStampUSec := 0, leap := LEAP_NOTINSYNC,
    precision := -1, nsamples := 3, valid := 0, pad := List.replicate 10 0 }

/-- The loop of `ntpshm_alloc` over the units `i, i+1, ..`, with `n` units left. -/
def ntpshm_alloc_loop (LEAP_NOTINSYNC : Int) (context : gps_context_t) :
    Nat → Nat → gps_context_t × Int
  | 0, _ => (context, -1)
  | n + 1, i =>
    if context.shmTime i ≠ none ∧ context.shmTimeInuse i = false then
      ({ context with
          shmTimeInuse := Function.update context.shmTimeInuse i true
          shmTime := Function.update context.shmTime i (some (alloc_reset LEAP_NOTINSYNC)) },
        (i : Int))
    else
      ntpshm_alloc_loop LEAP_NOTINSYNC context n (i + 1)

/-- The function `ntpshm_alloc`: the context afterwards and the segment number, or -1. -/
def ntpshm_alloc (LEAP_NOTINSYNC : Int) (context : gps_context_t) : gps_context_t × Int :=
  ntpshm_alloc_loop LEAP_NOTINSYNC context NTPSHMSEGS 0

/-- The function `ntpshm_free`: the context afterwards and the boolean returned. -/
def ntpshm_free (context : gps_context_t) (segment : Int) : gps_context_t × Bool :=
  if segment < 0 ∨ segment ≥ (NTPSHMSEGS : Int) then (context, false)
  else
    ({ context with shmTimeInuse := Function.update context.shmTimeInuse segment.toNat false },
      true)

/-- One store to a field of a segment, as the write sequences of `ntpshm_put` and
`ntpshm_pps` perform them. -/
inductive Store where
  | valid (v : Int)
  | count_inc
  | clockTimeStampSec (v : Int)
  | clockTimeStampUSec (v : Int)
  | receiveTimeStampSec (v : Int)
  | receiveTimeStampUSec (v : Int)
  | leap (v : Int)
  | precision (v : Int)
deriving DecidableEq, Repr

/-- The effect of one store on the segment. -/
def Store.apply (shm : shmTime) : Store → shmTime
  | .valid v => { shm with valid := v }
  | .count_inc => { shm with count := wrap32 (shm.count + 1) }
  | .clockTimeStampSec v => { shm with clockTimeStampSec := v }
  | .clockTimeStampUSec v => { shm with clockTimeStampUSec := v }
  | .receiveTimeStampSec v => { shm with receiveTimeStampSec := v }
  | .receiveTimeStampUSec v => { shm with receiveTimeStampUSec := v }
  | .leap v => { shm with leap := v }
  | .precision v => { shm with precision := v }

/-- A store to one of the data fields (neither `valid` nor `count`). -/
def Store.isData : Store → Bool
  | .valid _ => false
  | .count_inc => false
  | _ => true

/-- The segment after a sequence of stores in program order. -/
def run_stores (shm : shmTime) (stores : List Store) : shmTime :=
  stores.foldl Store.apply shm

/-- The stores of `ntpshm_put` (lines 253-270), in program order. -/
def put_stores (seconds microseconds : Int) (tv : timeval) (leap_notify : Int) : List Store :=
  [ .valid 0,
    .count_inc,
    .clockTimeStampSec seconds,
    .clockTimeStampUSec microseconds,
    .receiveTimeStampSec tv.tv_sec,
    .receiveTimeStampUSec (wrap32 tv.tv_usec),
    .leap leap_notify,
    .count_inc,
    .valid 1 ]

/-- The stores of `ntpshm_pps` (lines 322-333), in program order. -/
def pps_stores (actual_tv tv : timeval) (leap_notify : Int) : List Store :=
  [ .valid 0,
    .count_inc,
    .clockTimeStampSec actual_tv.tv_sec,
    .clockTimeStampUSec (wrap32 actual_tv.tv_usec),
    .receiveTimeStampSec tv.tv_sec,
    .receiveTimeStampUSec (wrap32 tv.tv_usec),
    .leap leap_notify,
    .precision (-16),
    .count_inc,
    .valid 1 ]

/-- The function `ntpshm_put`: the context afterwards and the `int` returned.  `tv` is what
`gettimeofday` delivers in this call. -/
def ntpshm_put {D : Type} (F : FloatOps D) (context : gps_context_t) (session : gps_device_t D)
    (tv : timeval) (fixtime fudge : D) : gps_context_t × Int :=
  if session.shmindex < 0 then (context, 0)
  else
    match context.shmTime session.shmindex.toNat with
    | none => (context, 0)
    | some shm =>
      let fixtime := F.add fixtime fudge
      let seconds := (F.modf fixtime).2
      let microseconds := F.mul (F.lit 1000000 0) (F.modf fixtime).1
      if shm.clockTimeStampSec = F.toTimeT seconds then (context, 0)
      else
        ({ context with
            shmTime := Function.update context.shmTime session.shmindex.toNat
              (some (run_stores shm
                (put_stores (F.toTimeT seconds) (F.toInt microseconds) tv
                  context.leap_notify))) },
          1)

/-- The function `ntpshm_pps`: the context afterwards and the `int` returned.  `TSTOTV` is
the conversion macro of that name, which the sources do not define. -/
def ntpshm_pps {D : Type} (TSTOTV : timespec → timeval) (context : gps_context_t)
    (session : gps_device_t D) (actual_tv : timeval) (ts : timespec) : gps_context_t × Int :=
  if 0 > session.shmindex ∨ 0 > session.shmTimeP then (context, 0)
  else
    match context.shmTime session.shmindex.toNat, context.shmTime session.shmTimeP.toNat with
    | none, _ => (context, 0)
    | some _, none => (context, 0)
    | some _, some shmTimeP =>
      let tv := TSTOTV ts
      ({ context with
          shmTime := Function.update context.shmTime session.shmTimeP.toNat
            (some (run_stores shmTimeP (pps_stores actual_tv tv context.leap_notify))) },
        1)

/-- The function `error_hook`: free the PPS segment of the session. -/
def error_hook {D : Type} (context : gps_context_t) (session : gps_device_t D) :
    gps_context_t :=
  (ntpshm_free context session.shmTimeP).1

/-- The function `ntpd_link_deactivate`: release the segments of a session. -/
def ntpd_link_deactivate {D : Type} (context : gps_context_t) (session : gps_device_t D) :
    gps_context_t × gps_device_t D :=
  let context := (ntpshm_free context session.shmindex).1
  if session.shmTimeP ≠ -1 then
    ((ntpshm_free context session.shmTimeP).1, { session with pps_thread := false })
  else
    (context, session)

/-- The function `ntpd_link_activate`: set up the segments of a session. -/
def ntpd_link_activate {D : Type} (LEAP_NOTINSYNC : Int) (context : gps_context_t)
    (session : gps_device_t D) : gps_context_t × gps_device_t D :=
  let a := if context.enable_ntpshm then ntpshm_alloc LEAP_NOTINSYNC context
           else (context, session.shmindex)
  let context := a.1
  let session := { session with shmindex := a.2 }
  if 0 > session.shmindex then (context, session)
  else
    let b := ntpshm_alloc LEAP_NOTINSYNC context
    let context := b.1
    let session := { session with shmTimeP := b.2 }
    if session.shmTimeP < 0 then (context, session)
    else (context, { session with thread_hooks := true, pps_thread := true })

/-- The constant `PPS_MIN_FIXES` (line 34). -/
def PPS_MIN_FIXES : Int := 3

/-- The constant `SOCK_MAGIC` (line 351). -/
def SOCK_MAGIC : Int := 0x534f434b

/-- The record `struct sock_sample`.  The member `_pad` is never assigned by the code and is
left out. -/
structure sock_sample (D : Type) where
  tv : timeval
  offset : D
  pulse : Int
  leap : Int
  magic : Int

/-- The function `chrony_send`: the descriptor and the record it hands to `send`.  The result
of `send` is discarded by the code. -/
def chrony_send {D : Type} (context : gps_context_t) (session : gps_device_t D)
    (actual_tv : timeval) (_ts : timespec) (offset : D) : Int × sock_sample D :=
  (session.chronyfd,
    { pulse := 0
      leap := context.leap_notify
      magic := SOCK_MAGIC
      tv := actual_tv
      offset := offset })

/-- The function `report_hook`: the context afterwards, the datagrams sent, in order, and the
string returned. -/
def report_hook {D : Type} (TSTOTV : timespec → timeval) (context : gps_context_t)
    (session : gps_device_t D) (actual_tv : timeval) (ts : timespec) (edge_offset : D) :
    gps_context_t × List (Int × sock_sample D) × String :=
  if session.ship_to_ntpd = false then (context, [], "skipped ship_to_ntp=0")
  else if session.fixcnt ≤ PPS_MIN_FIXES then (context, [], "no fix")
  else if 0 ≤ session.chronyfd then
    ((ntpshm_pps TSTOTV context session actual_tv ts).1,
      [chrony_send context session actual_tv ts edge_offset],
      "accepted chrony sock")
  else
    ((ntpshm_pps TSTOTV context session actual_tv ts).1, [], "accepted")

/-! ## tsip.c -/

/-- The file descriptor a driver writes to: the bytes written so far, and the number of
further `write` calls that deliver their full count.  A `write` that does not is taken to
write nothing. -/
structure fd_t where
  out : List Nat
  budget : Nat
deriving DecidableEq, Repr

/-- The system call `write(fd, bytes, n)` compared with `n`: the descriptor afterwards and
whether the full count was written. -/
def sys_write (fd : fd_t) (bytes : List Nat) : fd_t × Bool :=
  if fd.budget = 0 then (fd, false)
  else ({ out := fd.out ++ bytes, budget := fd.budget - 1 }, true)

/-- The loop `while (len-- > 0)` of `tsip_write` (lines 34-41), with `buf` advanced to
index `i` and `len` bytes left: the descriptor afterwards and whether every `write`
delivered. -/
def tsip_write_loop (buf : Nat → Nat) : Nat → Nat → fd_t → fd_t × Bool
  | 0, _, fd => (fd, true)
  | len + 1, i, fd =>
    if buf i = 0x10 then
      if (sys_write fd [0x10]).2 = false then ((sys_write fd [0x10]).1, false)
      else if (sys_write (sys_write fd [0x10]).1 [buf i]).2 = false then
        ((sys_write (sys_write fd [0x10]).1 [buf i]).1, false)
      else tsip_write_loop buf len (i + 1) (sys_write (sys_write fd [0x10]).1 [buf i]).1
    else
      if (sys_write fd [buf i]).2 = false then ((sys_write fd [buf i]).1, false)
      else tsip_write_loop buf len (i + 1) (sys_write fd [buf i]).1

/-- The function `tsip_write(fd, id, buf, len)`: the descriptor afterwards and the `int`
returned. -/
def tsip_write (fd : fd_t) (id : Nat) (buf : Nat → Nat) (len : Nat) : fd_t × Int :=
  if (sys_write fd [0x10, id % 256]).2 = false then ((sys_write fd [0x10, id % 256]).1, -1)
  else if (tsip_write_loop buf len 0 (sys_write fd [0x10, id % 256]).1).2 = false then
    ((tsip_write_loop buf len 0 (sys_write fd [0x10, id % 256]).1).1, -1)
  else if (sys_write (tsip_write_loop buf len 0 (sys_write fd [0x10, id % 256]).1).1
      [0x10, 0x03]).2 = false then
    ((sys_write (tsip_write_loop buf len 0 (sys_write fd [0x10, id % 256]).1).1
      [0x10, 0x03]).1, -1)
  else
    ((sys_write (tsip_write_loop buf len 0 (sys_write fd [0x10, id % 256]).1).1
      [0x10, 0x03]).1, 0)

/-- The destuffing loop of `tsip_analyze` (lines 122-130) from index `i` on, with `len` bytes
already in `buf`; `fuel` bounds the number of iterations. -/
def destuff_loop (outbuffer : Nat → Nat) (outbuflen : Nat) :
    Nat → Nat → Nat → (Nat → Nat) → Nat × (Nat → Nat)
  | 0, _, len, buf => (len, buf)
  | fuel + 1, i, len, buf =>
    if i < outbuflen then
      if outbuffer i = 0x10 then
        if outbuffer (i + 1) = 0x03 then (len, buf)
        else
          destuff_loop outbuffer outbuflen fuel (i + 2) (len + 1)
            (Function.update buf len (outbuffer (i + 1)))
      else
        destuff_loop outbuffer outbuflen fuel (i + 1) (len + 1)
          (Function.update buf len (outbuffer i))
    else (len, buf)

/-- The payload length `len` and the decode buffer `buf` after the destuffing loop, which
starts at index 2 with the buffer zeroed; every iteration advances `i`, so `outbuflen`
iterations are enough. -/
def destuff (outbuffer : Nat → Nat) (outbuflen : Nat) : Nat × (Nat → Nat) :=
  destuff_loop outbuffer outbuflen outbuflen 2 0 (fun _ => 0)

/-- The text `printf` writes for the conversion `%02x`. -/
def hex02 (n : Nat) : String :=
  String.mk (List.replicate (2 - (Nat.toDigits 16 n).length) '0' ++ Nat.toDigits 16 n)

/-- What one call of `tsip_analyze` leaves: the session, the context it points to, the
returned mask, the arguments of its calls to `ntpshm_put` (the time handed over) and of its
calls to `tsip_write` (packet id and payload), both in call order. -/
structure tsip_result (D : Type) where
  session : gps_device_t D
  context : gps_context_t
  mask : Nat
  ntpshm_put_calls : List D
  tsip_write_calls : List (Nat × List Nat)

/-- The loop of case 0x47 (lines 199-207) over the satellites `0 .. count-1`. -/
def tsip_signal_levels {D : Type} (F : FloatOps D) (E : gpsd_h D) (buf : Nat → Nat)
    (count : Nat) (g : gps_data_t D) : gps_data_t D :=
  (List.range count).foldl
    (fun g i =>
      { g with
        PRN := Function.update g.PRN i ((E.getub buf (5 * i + 1) % 256 : Nat) : Int)
        ss := Function.update g.ss i (F.toInt (E.getf buf (5 * i + 2))) })
    g

/-- The loop of case 0x6d (lines 327-329) over the used satellites. -/
def tsip_used_loop {D : Type} (E : gpsd_h D) (buf : Nat → Nat) (n : Nat)
    (used : Nat → Int) : Nat → Int :=
  (List.range n).foldl
    (fun u i => Function.update u i ((E.getub buf (17 + i) : Nat) : Int)) used

/-- The `switch (id)` of `tsip_analyze` (lines 138-405), entered with `mask = 0`: the result
for the session state, and the decode buffer afterwards. -/
def tsip_switch {D : Type} (F : FloatOps D) (E : gpsd_h D) (id len : Nat) (buf : Nat → Nat)
    (session : gps_device_t D) (context : gps_context_t) : tsip_result D × (Nat → Nat) :=
  let unchanged : tsip_result D × (Nat → Nat) := (⟨session, context, 0, [], []⟩, buf)
  if id = 0x41 then
    if len ≠ 10 then unchanged
    else
      let f1 := E.getf buf 0
      let s1 := E.getsw buf 4
      let f2 := E.getf buf 6
      if F.ge f1 (F.lit 0 1) && F.gt f2 (F.lit 100 1) then
        let sentence_time := F.sub (E.gpstime_to_unix s1 f1) f2
        (⟨{ session with
              gps_week := s1
              gpsdata := { session.gpsdata with sentence_time := sentence_time } },
            { context with
              leap_seconds := F.toInt (F.roundf f2)
              valid := E.LEAP_SECOND_VALID },
            0 ||| E.TIME_SET,
            [F.add sentence_time (F.lit 75 3)],
            []⟩, buf)
      else unchanged
  else if id = 0x47 then
    let count := E.getub buf 0
    if len ≠ 5 * count + 1 then unchanged
    else
      (⟨{ session with
            gpsdata := tsip_signal_levels F E buf count
              { session.gpsdata with satellites := (count : Int) } },
          context, 0 ||| E.SATELLITE_SET, [], []⟩, buf)
  else if id = 0x48 then
    (⟨session, context, 0, [], []⟩, Function.update buf len 0)
  else if id = 0x4a then
    if len ≠ 20 then unchanged
    else
      let f2 := E.getf buf 16
      let fix1 := { session.gpsdata.fix with
        latitude := F.mul (E.getf buf 0) E.RAD_2_DEG
        longitude := F.mul (E.getf buf 4) E.RAD_2_DEG
        altitude := E.getf buf 8 }
      let t := F.sub (E.gpstime_to_unix session.gps_week f2) (F.ofInt context.leap_seconds)
      let g1 := { session.gpsdata with fix := fix1 }
      let g2 := if session.gps_week ≠ 0 then
          { g1 with fix := { fix1 with time := t }, sentence_time := t }
        else g1
      (⟨{ session with gpsdata := { g2 with status := E.STATUS_FIX } },
          context, 0 ||| (E.LATLON_SET ||| E.ALTITUDE_SET), [], []⟩, buf)
  else if id = 0x56 then
    if len ≠ 20 then unchanged
    else
      let f1 := E.getf buf 0
      let f2 := E.getf buf 4
      let f3 := E.getf buf 8
      let track := F.mul (F.atan2 f1 f2) E.RAD_2_DEG
      let fix1 := { session.gpsdata.fix with
        climb := f3
        speed := F.sqrt (F.add (F.pow f2 (F.ofInt 2)) (F.pow f1 (F.ofInt 2)))
        track := if F.lt track (F.ofInt 0) then F.add track (F.lit 3600 1) else track }
      (⟨{ session with gpsdata := { session.gpsdata with fix := fix1 } },
          context, 0 ||| (E.SPEED_SET ||| E.TRACK_SET ||| E.CLIMB_SET), [], []⟩, buf)
  else if id = 0x57 then
    if len ≠ 8 then unchanged
    else
      let s1 := E.getsw buf 6
      if E.getub buf 0 = 0x01 then
        (⟨{ session with gps_week := s1 }, context, 0, [], []⟩, buf)
      else unchanged
  else if id = 0x5c then
    if len ≠ 24 then unchanged
    else
      let u1 := E.getub buf 0 % 256
      let u2 := E.getub buf 1 % 256
      let f1 := E.getf buf 4
      let d1 := F.mul (E.getf buf 12) E.RAD_2_DEG
      let d2 := F.mul (E.getf buf 16) E.RAD_2_DEG
      let id := u2 >>> 3
      (⟨{ session with
            gpsdata := { session.gpsdata with
              PRN := Function.update session.gpsdata.PRN id (u1 : Int)
              ss := Function.update session.gpsdata.ss id (F.toInt (F.roundf f1))
              elevation := Function.update session.gpsdata.elevation id (F.toInt (F.round d1))
              azimuth := Function.update session.gpsdata.azimuth id (F.toInt (F.round d2)) } },
          context, 0, [], []⟩, buf)
  else if id = 0x6d then
    let u1 := E.getub buf 0 % 256
    let mode :=
      if u1 &&& 7 = 3 then E.MODE_2D
      else if u1 &&& 7 = 4 then E.MODE_3D
      else E.MODE_NO_FIX
    let satellites_used := (u1 >>> 4) &&& 0x0f
    let pdop := E.getf buf 1
    let tdop := E.getf buf 13
    (⟨{ session with
          gpsdata := { session.gpsdata with
            fix := { session.gpsdata.fix with mode := mode }
            satellites_used := (satellites_used : Int)
            pdop := pdop
            hdop := E.getf buf 5
            vdop := E.getf buf 9
            tdop := tdop
            gdop := F.sqrt (F.add (F.pow pdop (F.ofInt 2)) (F.pow tdop (F.ofInt 2)))
            used := tsip_used_loop E buf satellites_used (fun _ => 0) } },
        context, 0 ||| (E.HDOP_SET ||| E.VDOP_SET ||| E.PDOP_SET ||| E.MODE_SET), [], []⟩, buf)
  else if id = 0x82 then
    if len ≠ 1 then unchanged
    else if session.gpsdata.status = E.STATUS_FIX ∧ E.getub buf 0 &&& 0x01 ≠ 0 then
      (⟨{ session with gpsdata := { session.gpsdata with status := E.STATUS_DGPS_FIX } },
          context, 0, [], []⟩, buf)
    else unchanged
  else if id = 0x84 then
    if len ≠ 36 then unchanged
    else
      let f1 := E.getf buf 32
      let fix1 := { session.gpsdata.fix with
        latitude := F.mul (E.getd buf 0) E.RAD_2_DEG
        longitude := F.mul (E.getd buf 8) E.RAD_2_DEG
        altitude := E.getd buf 16 }
      let t := F.sub (E.gpstime_to_unix session.gps_week f1) (F.ofInt context.leap_seconds)
      let g1 := { session.gpsdata with fix := fix1 }
      let g2 := if session.gps_week ≠ 0 then
          { g1 with fix := { fix1 with time := t }, sentence_time := t }
        else g1
      (⟨{ session with gpsdata := { g2 with status := E.STATUS_FIX } },
          context, 0 ||| (E.LATLON_SET ||| E.ALTITUDE_SET), [], []⟩, buf)
  else
    -- 0x13, 0x42, 0x43, 0x45, 0x46, 0x4b, 0x55, 0x58, 0x59, 0x5a, 0x6e, 0x6f, 0x70, 0x7a,
    -- 0x83, 0x8f and the default case only read the buffer and log
    unchanged

/-- The function `tsip_analyze`.  `now` is what `time(&t)` delivers in this call. -/
def tsip_analyze {D : Type} (F : FloatOps D) (E : gpsd_h D) (now : Int)
    (session : gps_device_t D) (context : gps_context_t) : tsip_result D :=
  if session.packet_type ≠ E.TSIP_PACKET then ⟨session, context, 0, [], []⟩
  else if session.outbuflen < 4 ∨ session.outbuffer 0 ≠ 0x10 then
    ⟨session, context, 0, [], []⟩
  else
    let len := (destuff session.outbuffer session.outbuflen).1
    let buf := (destuff session.outbuffer session.outbuflen).2
    let id := session.outbuffer 1
    let session := { session with gpsdata := { session.gpsdata with tag := "ID" ++ hex02 id } }
    let r := tsip_switch F E id len buf session context
    if now - r.1.session.last_request ≥ 5 then
      { r.1 with
        session := { r.1.session with last_request := now }
        tsip_write_calls :=
          [(0x24, []), (0x27, []), (0x3c, [(E.putbyte r.2 0 0x00) 0])] }
    else r.1

/-! ## A concrete interpretation

Used to evaluate the definitions on concrete inputs: fixed-point arithmetic with one unit per
microsecond, big-endian fields, and sample values for the constants. -/

/-- Fixed-point interpretation of the floating-point operations: the integer `x` stands for
`x` microseconds.  `atan2` is not computed in this interpretation. -/
def microOps : FloatOps Int where
  lit m e := (m : Int) * 1000000 / (10 : Int) ^ e
  ofInt n := n * 1000000
  add x y := x + y
  sub x y := x - y
  mul x y := Int.tdiv (x * y) 1000000
  ge x y := decide (y ≤ x)
  gt x y := decide (y < x)
  lt x y := decide (x < y)
  sqrt x := ((x * 1000000).toNat.sqrt : Int)
  pow x y := Int.tdiv (x ^ (Int.tdiv y 1000000).toNat * 1000000)
    (1000000 ^ (Int.tdiv y 1000000).toNat)
  atan2 _ _ := 0
  roundf x := Int.sign x * ((x.natAbs + 500000) / 1000000 : Nat) * 1000000
  round x := Int.sign x * ((x.natAbs + 500000) / 1000000 : Nat) * 1000000
  modf x := (Int.tmod x 1000000, x - Int.tmod x 1000000)
  toInt x := wrap32 (Int.tdiv x 1000000)
  toTimeT x := Int.tdiv x 1000000

/-- The unsigned big-endian integer in the `n` bytes of `buf` from `off`. -/
def be_field (buf : Nat → Nat) (off : Nat) : Nat → Nat
  | 0 => 0
  | n + 1 => be_field buf off n * 256 + buf (off + n) % 256

/-- The value of an `n`-byte field read as a two's-complement integer. -/
def signed_field (bytes : Nat) (v : Nat) : Int :=
  if v < 256 ^ bytes / 2 then (v : Int) else (v : Int) - (256 ^ bytes : Nat)

/-- Concrete header: distinct one-bit masks and small enumeration values for the constants,
big-endian fields, single precision fields in milliseconds and double precision fields in
microseconds, and `gpstime_to_unix` counting weeks of 604800 seconds from the GPS epoch
315964800.  It is one interpretation of the header parameters, at which the parametric
theorems are instantiated; `getf` and `getd` of the program read IEEE-754 bit patterns, so a
value obtained through `getf` or `getd` here is the value of this interpretation and not the
one the program computes from the same bytes.  `getub` reads one byte and `getsw` a
big-endian signed 16-bit word. -/
def microHeader : gpsd_h Int where
  TSIP_PACKET := 3
  LEAP_SECOND_VALID := 1
  TIME_SET := 0x2
  LATLON_SET := 0x8
  ALTITUDE_SET := 0x10
  SPEED_SET := 0x20
  TRACK_SET := 0x40
  CLIMB_SET := 0x80
  SATELLITE_SET := 0x10000
  HDOP_SET := 0x2000
  VDOP_SET := 0x4000
  PDOP_SET := 0x8000
  MODE_SET := 0x200
  MODE_NO_FIX := 1
  MODE_2D := 2
  MODE_3D := 3
  STATUS_FIX := 1
  STATUS_DGPS_FIX := 2
  RAD_2_DEG := 57295780
  getub buf off := buf off % 256
  getsw buf off := signed_field 2 (be_field buf off 2)
  getf buf off := signed_field 4 (be_field buf off 4) * 1000
  getd buf off := signed_field 8 (be_field buf off 8)
  putbyte buf off val := Function.update buf off (val % 256)
  gpstime_to_unix week tow := (315964800 + week * 604800) * 1000000 + tow

/-- A context with no segment attached. -/
def context0 : gps_context_t :=
  { shmTime := fun _ => none, shmTimeInuse := fun _ => false, enable_ntpshm := false,
    leap_notify := 0, leap_seconds := 0, valid := 0 }

/-- A session as `gpsd_init` leaves it, with the packet bytes `pkt` in its buffer. -/
def session0 (pkt : List Nat) : gps_device_t Int :=
  { gpsdata :=
      { tag := "", sentence_time := 0,
        fix := { time := 0, latitude := 0, longitude := 0, altitude := 0, speed := 0,
                 track := 0, climb := 0, mode := 0 },
        status := 0, satellites := 0, satellites_used := 0,
        PRN := fun _ => 0, ss := fun _ => 0, elevation := fun _ => 0, azimuth := fun _ => 0,
        used := fun _ => 0, pdop := 0, hdop := 0, vdop := 0, tdop := 0, gdop := 0 },
    packet_type := 3, outbuffer := fun i => pkt.getD i 0, outbuflen := pkt.length,
    gps_week := 0, last_request := 0, shmindex := -1, shmTimeP := -1,
    ship_to_ntpd := false, fixcnt := 0, chronyfd := -1, pps_thread := false,
    thread_hooks := false }

/-- The operating system of a process running as root, every segment attachable and
holding the given contents. -/
def os_root (shm : shmTime) : os_t := { uid := 0, shm := fun _ => some shm }

/-- The GPS Time packet of the end-to-end scenario: fix time 123456.5 s, week 2190, leap
count 18.0 s. -/
def pkt_time : List Nat :=
  [0x10, 0x41, 0x07, 0x5b, 0xcb, 0xf4, 0x08, 0x8e, 0x00, 0x00, 0x46, 0x50, 0x10, 0x03]

/-- A segment with contents left over from an earlier use. -/
def shm_stale : shmTime :=
  { mode := 0, count := 7, clockTimeStampSec := 1700000000, clockTimeStampUSec := 250000,
    receiveTimeStampSec := 1700000000, receiveTimeStampUSec := 260000, leap := 0,
    precision := -16, nsamples := 9, valid := 1, pad := List.replicate 10 5 }

/-- A context in which every unit is attached with the contents `shm` and has the in-use
flag `inuse`. -/
def context_all (shm : shmTime) (inuse : Bool) : gps_context_t :=
  { shmTime := fun _ => some shm, shmTimeInuse := fun _ => inuse, enable_ntpshm := true,
    leap_notify := 0, leap_seconds := 0, valid := 0 }

/-- The contexts in which unit `i` has been obtained from `ntpshm_alloc` and its segment has
since been written only by `ntpshm_put` and `ntpshm_pps` (`frame`: anything else that leaves
the segment of unit `i` alone). -/
inductive alloc_then_written {D : Type} (F : FloatOps D) (TSTOTV : timespec → timeval)
    (L : Int) : gps_context_t → Nat → Prop
  | alloc (context : gps_context_t) (i : Nat) :
      (ntpshm_alloc L context).2 = (i : Int) →
      alloc_then_written F TSTOTV L (ntpshm_alloc L context).1 i
  | put (context : gps_context_t) (i : Nat) (session : gps_device_t D) (tv : timeval)
      (fixtime fudge : D) :
      alloc_then_written F TSTOTV L context i →
      alloc_then_written F TSTOTV L (ntpshm_put F context session tv fixtime fudge).1 i
  | pps (context : gps_context_t) (i : Nat) (session : gps_device_t D) (actual_tv : timeval)
      (ts : timespec) :
      alloc_then_written F TSTOTV L context i →
      alloc_then_written F TSTOTV L (ntpshm_pps TSTOTV context session actual_tv ts).1 i
  | frame (context other : gps_context_t) (i : Nat) :
      alloc_then_written F TSTOTV L context i →
      other.shmTime i = context.shmTime i →
      alloc_then_written F TSTOTV L other i

/-- Two segments agree on the clock timestamp, the receive timestamp and the leap field. -/
def same_sample (a b : shmTime) : Prop :=
  a.clockTimeStampSec = b.clockTimeStampSec ∧ a.clockTimeStampUSec = b.clockTimeStampUSec ∧
  a.receiveTimeStampSec = b.receiveTimeStampSec ∧
  a.receiveTimeStampUSec = b.receiveTimeStampUSec ∧ a.leap = b.leap

/-- The macro `TSTOTV` as used for evaluation: nanoseconds divided by 1000. -/
def tstotv_usec (ts : timespec) : timeval :=
  { tv_sec := ts.tv_sec, tv_usec := Int.tdiv ts.tv_nsec 1000 }

/-- A call of one of the session lifecycle functions on the session numbered `s`. -/
inductive link_call where
  | activate (s : Nat)
  | error (s : Nat)
  | deactivate (s : Nat)
deriving DecidableEq, Repr

/-- Sessions sharing one context.  `active s` records that session `s` has been activated and
not yet deactivated. -/
structure link_state (D : Type) where
  context : gps_context_t
  sessions : Nat → gps_device_t D
  active : Nat → Bool

/-- One lifecycle call: `ntpd_link_activate`, `error_hook` or `ntpd_link_deactivate` on the
session named. -/
def link_step {D : Type} (L : Int) (w : link_state D) : link_call → link_state D
  | .activate s =>
    { context := (ntpd_link_activate L w.context (w.sessions s)).1
      sessions := Function.update w.sessions s (ntpd_link_activate L w.context (w.sessions s)).2
      active := Function.update w.active s true }
  | .error s =>
    { w with context := error_hook w.context (w.sessions s) }
  | .deactivate s =>
    { context := (ntpd_link_deactivate w.context (w.sessions s)).1
      sessions := Function.update w.sessions s (ntpd_link_deactivate w.context (w.sessions s)).2
      active := Function.update w.active s false }

/-- A sequence of lifecycle calls, in order. -/
def link_run {D : Type} (L : Int) (w : link_state D) (calls : List link_call) : link_state D :=
  calls.foldl (link_step L) w

/-- The state after `ntpshm_init` as root with every segment attachable; no session has been
activated and every session has `shmindex = shmTimeP = -1`. -/
def link_start : link_state Int :=
  { context := ntpshm_init (os_root shm_stale) context0
    sessions := fun _ => session0 []
    active := fun _ => false }

/-- The case labels of the `switch (id)` in `tsip_analyze`; every other tag goes to
`default`. -/
def tsip_case_labels : List Nat :=
  [0x13, 0x41, 0x42, 0x43, 0x45, 0x46, 0x47, 0x48, 0x4a, 0x4b, 0x55, 0x56, 0x57, 0x58, 0x59,
    0x5a, 0x5c, 0x6d, 0x6e, 0x6f, 0x70, 0x7a, 0x82, 0x83, 0x84, 0x8f]

/-- A Differential Position Fix Mode packet with the differential bit set. -/
def pkt_dgps : List Nat := [0x10, 0x82, 0x01, 0x10, 0x03]

/-- An All-In-View Satellite Selection packet cut after its first payload byte: dimension
code 4, three satellites used, so 20 payload bytes are announced and 1 is present. -/
def pkt_selection_short : List Nat := [0x10, 0x6d, 0x34, 0x10, 0x03]

/-- A Satellite Tracking Status packet of 24 payload bytes: first payload byte 5 (the PRN),
second payload byte 0x08 (channel 1). -/
def pkt_tracking : List Nat :=
  [0x10, 0x5c, 0x05, 0x08, 0x01, 0x01, 0x00, 0x00, 0x9c, 0x40, 0x00, 0x00, 0x00, 0x00,
    0x00, 0x00, 0x03, 0xe8, 0x00, 0x00, 0x07, 0xd0, 0x00, 0x00, 0x00, 0x00, 0x10, 0x03]

/-- A Single-Precision Position LLA packet of 20 payload bytes: latitude 0.5 rad, longitude
1.0 rad, altitude 100.0, clock bias 0, time of fix 123456.5. -/
def pkt_lla : List Nat :=
  [0x10, 0x4a, 0x00, 0x00, 0x01, 0xf4, 0x00, 0x00, 0x03, 0xe8, 0x00, 0x01, 0x86, 0xa0,
    0x00, 0x00, 0x00, 0x00, 0x07, 0x5b, 0xcb, 0xf4, 0x10, 0x03]

/-- A Double-Precision LLA packet of 36 payload bytes: latitude 0.5 rad, longitude 1.0 rad,
altitude 100.0, clock bias 0, time of fix 123456.5. -/
def pkt_lla_double : List Nat :=
  [0x10, 0x84, 0x00, 0x00, 0x00, 0x00, 0x00, 0x07, 0xa1, 0x20,
    0x00, 0x00, 0x00, 0x00, 0x00, 0x0f, 0x42, 0x40,
    0x00, 0x00, 0x00, 0x00, 0x05, 0xf5, 0xe1, 0x00,
    0x00, 0x00, 0x00, 0x00, 0x00, 0x00, 0x00, 0x00,
    0x07, 0x5b, 0xcb, 0xf4, 0x10, 0x03]

/-- An All-In-View Satellite Selection packet of 20 payload bytes: dimension code 4, three
satellites used (PRN 3, 7, 9), PDOP 2.0, HDOP 1.5, VDOP 1.2, TDOP 1.0. -/
def pkt_selection : List Nat :=
  [0x10, 0x6d, 0x34, 0x00, 0x00, 0x07, 0xd0, 0x00, 0x00, 0x05, 0xdc, 0x00, 0x00, 0x04, 0xb0,
    0x00, 0x00, 0x03, 0xe8, 0x03, 0x07, 0x09, 0x10, 0x03]

/-- A session that ships PPS to ntpd, holds units 0 and 1 and has seen `fixcnt` fixes. -/
def session_pps (fixcnt : Int) (chronyfd : Int) : gps_device_t Int :=
  { session0 [] with
    shmindex := 0, shmTimeP := 1, ship_to_ntpd := true, fixcnt := fixcnt,
    chronyfd := chronyfd }

/-- A Single-Precision Position LLA packet with 4 payload bytes instead of 20. -/
def pkt_lla_short : List Nat := [0x10, 0x4a, 0x00, 0x00, 0x01, 0xf4, 0x10, 0x03]

/-- The payload bytes with every 0x10 doubled. -/
def dle_stuffed : List Nat → List Nat
  | [] => []
  | b :: rest => if b = 0x10 then 0x10 :: 0x10 :: dle_stuffed rest else b :: dle_stuffed rest

/-- A payload that contains 0x10 immediately followed by 0x03, and ends in 0x10. -/
def payload_dle : List Nat := [0x01, 0x10, 0x03, 0x7f, 0x10]

/-- A session as `gpsd_init` leaves it whose buffer holds what `tsip_write` emits for the
tag 0x3c and the payload `payload_dle`. -/
def session_echo : gps_device_t Int :=
  session0 (tsip_write ⟨[], 100⟩ 0x3c (fun i => payload_dle.getD i 0) payload_dle.length).1.out

/-- One write to a segment: the arguments of the store sequence of an `ntpshm_put` or of an
`ntpshm_pps`. -/
inductive seg_write where
  | put (seconds microseconds : Int) (tv : timeval) (leap_notify : Int)
  | pps (actual_tv tv : timeval) (leap_notify : Int)
deriving DecidableEq, Repr

/-- The stores of one write, in program order. -/
def seg_write.stores : seg_write → List Store
  | .put seconds microseconds tv leap_notify => put_stores seconds microseconds tv leap_notify
  | .pps actual_tv tv leap_notify => pps_stores actual_tv tv leap_notify

/-- The segment after the first `k` writes of the writer `w`, starting from the state
`ntpshm_alloc` leaves. -/
def slot_after (L : Int) (w : Nat → seg_write) : Nat → shmTime
  | 0 => alloc_reset L
  | k + 1 => run_stores (slot_after L w k) (w k).stores

/-- The segment at the point of the writer's execution where `k` writes are complete and `j`
stores of the next write have been performed. -/
def slot_at (L : Int) (w : Nat → seg_write) (k j : Nat) : shmTime :=
  run_stores (slot_after L w k) ((w k).stores.take j)

/-- The point `(k, j)` of the writer's execution is not later than the point `(k2, j2)`. -/
def point_le (k j k2 j2 : Nat) : Prop := k < k2 ∨ (k = k2 ∧ j ≤ j2)

/-- A writer that publishes second `k + 1`, received at second `k + 7`, in its write number
`k`. -/
def writer_seconds (k : Nat) : seg_write :=
  .put ((k : Int) + 1) 0 ⟨(k : Int) + 7, 0⟩ 0

/-- The number of counter increments among the first `j` stores of a write of `n` stores:
none before the second store, one up to the store before the last two, two from there on. -/
def write_phase (n j : Nat) : Nat :=
  if j ≤ 1 then 0 else if j + 2 ≤ n then 1 else 2

/-- The number of counter increments the writer `w` has performed at the point `(k, j)`. -/
def point_gen (w : Nat → seg_write) (k j : Nat) : Nat :=
  2 * k + write_phase (w k).stores.length j

/-! ## Segment allocator -/

/-- The allocation loop either stops at the first attached, unused unit of its range, which it
marks and resets, or finds none in the range and leaves the context as it is. -/
theorem ntpshm_alloc_loop_spec (L : Int) (context : gps_context_t) (n i : Nat) :
    (∃ k, i ≤ k ∧ k < i + n ∧
        (context.shmTime k ≠ none ∧ context.shmTimeInuse k = false) ∧
        (∀ j, i ≤ j → j < k → ¬ (context.shmTime j ≠ none ∧ context.shmTimeInuse j = false)) ∧
        ntpshm_alloc_loop L context n i =
          ({ context with
              shmTimeInuse := Function.update context.shmTimeInuse k true
              shmTime := Function.update context.shmTime k (some (alloc_reset L)) },
            (k : Int))) ∨
      ((∀ j, i ≤ j → j < i + n →
          ¬ (context.shmTime j ≠ none ∧ context.shmTimeInuse j = false)) ∧
        ntpshm_alloc_loop L context n i = (context, -1)) := by
  induction n generalizing i with
  | zero =>
    right
    refine ⟨fun j h1 h2 => by omega, rfl⟩
  | succ n ih =>
    by_cases h : context.shmTime i ≠ none ∧ context.shmTimeInuse i = false
    · left
      refine ⟨i, le_refl i, by omega, h, fun j h1 h2 => by omega, ?_⟩
      simp only [ntpshm_alloc_loop, if_pos h]
    · rcases ih (i + 1) with ⟨k, hk1, hk2, hk3, hk4, hk5⟩ | ⟨hn, he⟩
      · left
        refine ⟨k, by omega, by omega, hk3, ?_, ?_⟩
        · intro j h1 h2
          by_cases hji : j = i
          · subst hji; exact h
          · exact hk4 j (by omega) h2
        · simp only [ntpshm_alloc_loop, if_neg h]
          exact hk5
      · right
        refine ⟨?_, ?_⟩
        · intro j h1 h2
          by_cases hji : j = i
          · subst hji; exact h
          · exact hn j (by omega) (by omega)
        · simp only [ntpshm_alloc_loop, if_neg h]
          exact he

/-- The allocator fails exactly when no unit below `NTPSHMSEGS` is attached and unused. -/
theorem ntpshm_alloc_fails_iff (L : Int) (context : gps_context_t) :
    (ntpshm_alloc L context).2 = -1 ↔
      ∀ i, i < NTPSHMSEGS → ¬ (context.shmTime i ≠ none ∧ context.shmTimeInuse i = false) := by
  unfold ntpshm_alloc
  rcases ntpshm_alloc_loop_spec L context NTPSHMSEGS 0 with
    ⟨k, _, hk2, hk3, _, hk5⟩ | ⟨hn, he⟩
  · rw [hk5]
    constructor
    · intro h
      simp only at h
      omega
    · intro h
      exact absurd hk3 (h k (by omega))
  · rw [he]
    constructor
    · intro _ i hi
      exact hn i (Nat.zero_le i) (by omega)
    · intro _
      rfl

/-- C6: `ntpshm_alloc` returns the smallest index below `NTPSHMSEGS` whose segment is attached
and whose in-use flag is false, sets that in-use flag and leaves every other in-use flag and
every other segment as it was; it returns -1 exactly when there is no such index, and then
the context is unchanged. -/
theorem C6_ntpshm_alloc_first_free (L : Int) (context : gps_context_t) :
    (∀ i : Nat, i < NTPSHMSEGS →
      (context.shmTime i ≠ none ∧ context.shmTimeInuse i = false) →
      (∀ j, j < i → ¬ (context.shmTime j ≠ none ∧ context.shmTimeInuse j = false)) →
        (ntpshm_alloc L context).2 = (i : Int) ∧
        (ntpshm_alloc L context).1.shmTimeInuse i = true ∧
        (∀ j, j ≠ i →
          (ntpshm_alloc L context).1.shmTimeInuse j = context.shmTimeInuse j ∧
          (ntpshm_alloc L context).1.shmTime j = context.shmTime j)) ∧
    ((ntpshm_alloc L context).2 = -1 ↔
      ∀ i, i < NTPSHMSEGS → ¬ (context.shmTime i ≠ none ∧ context.shmTimeInuse i = false)) ∧
    ((ntpshm_alloc L context).2 = -1 → (ntpshm_alloc L context).1 = context) := by
  unfold ntpshm_alloc
  rcases ntpshm_alloc_loop_spec L context NTPSHMSEGS 0 with
    ⟨k, _, hk2, hk3, hk4, hk5⟩ | ⟨hn, he⟩
  · rw [hk5]
    refine ⟨?_, ?_, ?_⟩
    · intro i _ hav hmin
      have hik : i = k := by
        rcases Nat.lt_trichotomy i k with h | h | h
        · exact absurd hav (hk4 i (Nat.zero_le i) h)
        · exact h
        · exact absurd hk3 (hmin k h)
      subst hik
      refine ⟨rfl, ?_, ?_⟩
      · simp
      · intro j hj
        simp [Function.update_noteq hj]
    · constructor
      · intro h
        simp only at h
        omega
      · intro h
        exact absurd hk3 (h k (by omega))
    · intro h
      simp only at h
      omega
  · rw [he]
    refine ⟨?_, ?_, ?_⟩
    · intro i hi hav _
      exact absurd hav (hn i (Nat.zero_le i) (by omega))
    · constructor
      · intro _ i hi
        exact hn i (Nat.zero_le i) (by omega)
      · intro _
        rfl
    · intro _
      rfl

/-- C7: whenever `ntpshm_alloc` returns an index `i >= 0`, segment `i` is in the reset state
whatever it held before: `valid = 0`, `count = 0`, the four timestamp fields 0,
`leap = LEAP_NOTINSYNC`, `precision = -1`, `nsamples = 3` and `mode = 1`. -/
theorem C7_ntpshm_alloc_resets (L : Int) (context : gps_context_t)
    (h : 0 ≤ (ntpshm_alloc L context).2) :
    ∃ shm, (ntpshm_alloc L context).1.shmTime (ntpshm_alloc L context).2.toNat = some shm ∧
      shm.valid = 0 ∧ shm.count = 0 ∧
      shm.clockTimeStampSec = 0 ∧ shm.clockTimeStampUSec = 0 ∧
      shm.receiveTimeStampSec = 0 ∧ shm.receiveTimeStampUSec = 0 ∧
      shm.leap = L ∧ shm.precision = -1 ∧ shm.nsamples = 3 ∧ shm.mode = 1 := by
  unfold ntpshm_alloc at h ⊢
  rcases ntpshm_alloc_loop_spec L context NTPSHMSEGS 0 with
    ⟨k, _, _, _, _, hk5⟩ | ⟨_, he⟩
  · rw [hk5]
    refine ⟨alloc_reset L, ?_, rfl, rfl, rfl, rfl, rfl, rfl, rfl, rfl, rfl, rfl⟩
    simp
  · rw [he] at h
    simp at h

/-- Witness of C7: allocation from a pool of segments holding stale, valid-marked data. -/
theorem C7_ntpshm_alloc_resets_witness :
    ∃ shm, (ntpshm_alloc 3 (context_all shm_stale false)).1.shmTime
        (ntpshm_alloc 3 (context_all shm_stale false)).2.toNat = some shm ∧
      shm.valid = 0 ∧ shm.count = 0 ∧
      shm.clockTimeStampSec = 0 ∧ shm.clockTimeStampUSec = 0 ∧
      shm.receiveTimeStampSec = 0 ∧ shm.receiveTimeStampUSec = 0 ∧
      shm.leap = 3 ∧ shm.precision = -1 ∧ shm.nsamples = 3 ∧ shm.mode = 1 :=
  C7_ntpshm_alloc_resets 3 (context_all shm_stale false) (by decide)

/-- C8: `ntpshm_free` returns false and leaves the context unchanged for a segment index
below 0 or at least `NTPSHMSEGS`; for an index in range it returns true, clears only that
in-use flag and changes neither the segment pointers nor any segment. -/
theorem C8_ntpshm_free (context : gps_context_t) (segment : Int) :
    ((segment < 0 ∨ segment ≥ (NTPSHMSEGS : Int)) →
      ntpshm_free context segment = (context, false)) ∧
    ((0 ≤ segment ∧ segment < (NTPSHMSEGS : Int)) →
      (ntpshm_free context segment).2 = true ∧
      (ntpshm_free context segment).1.shmTimeInuse segment.toNat = false ∧
      (∀ j, j ≠ segment.toNat →
        (ntpshm_free context segment).1.shmTimeInuse j = context.shmTimeInuse j) ∧
      (ntpshm_free context segment).1.shmTime = context.shmTime ∧
      (ntpshm_free context segment).1.enable_ntpshm = context.enable_ntpshm ∧
      (ntpshm_free context segment).1.leap_notify = context.leap_notify ∧
      (ntpshm_free context segment).1.leap_seconds = context.leap_seconds ∧
      (ntpshm_free context segment).1.valid = context.valid) := by
  constructor
  · intro h
    simp only [ntpshm_free, if_pos h]
  · intro h
    have hn : ¬ (segment < 0 ∨ segment ≥ (NTPSHMSEGS : Int)) := by omega
    have hfree : ntpshm_free context segment =
        ({ context with
            shmTimeInuse := Function.update context.shmTimeInuse segment.toNat false },
          true) := by
      simp only [ntpshm_free, if_neg hn]
    rw [hfree]
    refine ⟨rfl, by simp, ?_, rfl, rfl, rfl, rfl, rfl⟩
    intro j hj
    simp [Function.update_noteq hj]

/-- C9: with all `NTPSHMSEGS` segments attached and in use `ntpshm_alloc` returns -1, and for
every index `k` in range `ntpshm_free k` followed by `ntpshm_alloc` returns exactly `k`, with
segment `k` in the reset state (`leap = LEAP_NOTINSYNC`, `precision = -1`, `valid = 0`). -/
theorem C9_exhaustion_and_reuse (L : Int) (context : gps_context_t)
    (hattached : ∀ i, i < NTPSHMSEGS → context.shmTime i ≠ none)
    (hinuse : ∀ i, i < NTPSHMSEGS → context.shmTimeInuse i = true) :
    (ntpshm_alloc L context).2 = -1 ∧
    ∀ k : Nat, k < NTPSHMSEGS →
      (ntpshm_free context (k : Int)).2 = true ∧
      (ntpshm_alloc L (ntpshm_free context (k : Int)).1).2 = (k : Int) ∧
      ∃ shm, (ntpshm_alloc L (ntpshm_free context (k : Int)).1).1.shmTime k = some shm ∧
        shm.leap = L ∧ shm.precision = -1 ∧ shm.valid = 0 := by
  constructor
  · rw [(ntpshm_alloc_fails_iff L context)]
    intro i hi h
    rw [hinuse i hi] at h
    exact absurd h.2 (by simp)
  · intro k hk
    have hn : ¬ ((k : Int) < 0 ∨ (k : Int) ≥ (NTPSHMSEGS : Int)) := by omega
    have hfree : ntpshm_free context (k : Int) =
        ({ context with shmTimeInuse := Function.update context.shmTimeInuse k false },
          true) := by
      simp only [ntpshm_free, if_neg hn, Int.toNat_ofNat]
    rw [hfree]
    refine ⟨rfl, ?_⟩
    unfold ntpshm_alloc
    rcases ntpshm_alloc_loop_spec L
        { context with shmTimeInuse := Function.update context.shmTimeInuse k false }
        NTPSHMSEGS 0 with ⟨m, _, hm2, hm3, _, hm5⟩ | ⟨hnone, _⟩
    · have hmk : m = k := by
        by_contra hne
        have h2 := hm3.2
        simp only [Function.update_noteq hne] at h2
        rw [hinuse m (by omega)] at h2
        exact absurd h2 (by simp)
      subst hmk
      rw [hm5]
      exact ⟨rfl, alloc_reset L, by simp, rfl, rfl, rfl⟩
    · exfalso
      apply hnone k (Nat.zero_le k) (by omega)
      exact ⟨hattached k hk, by simp⟩

/-- Witness of C9: a pool of four attached segments, all in use. -/
theorem C9_exhaustion_and_reuse_witness :
    (ntpshm_alloc 3 (context_all shm_stale true)).2 = -1 ∧
    ∀ k : Nat, k < NTPSHMSEGS →
      (ntpshm_free (context_all shm_stale true) (k : Int)).2 = true ∧
      (ntpshm_alloc 3 (ntpshm_free (context_all shm_stale true) (k : Int)).1).2 = (k : Int) ∧
      ∃ shm, (ntpshm_alloc 3 (ntpshm_free (context_all shm_stale true) (k : Int)).1).1.shmTime k
          = some shm ∧
        shm.leap = 3 ∧ shm.precision = -1 ∧ shm.valid = 0 :=
  C9_exhaustion_and_reuse 3 (context_all shm_stale true)
    (fun _ _ => by simp [context_all]) (fun _ _ => rfl)

/-- A successful allocation leaves the returned unit with exactly the reset contents. -/
theorem ntpshm_alloc_reset_contents (L : Int) (context : gps_context_t) (h : 0 ≤ (ntpshm_alloc L context).2) :
    (ntpshm_alloc L context).1.shmTime (ntpshm_alloc L context).2.toNat =
      some (alloc_reset L) := by
  unfold ntpshm_alloc at h ⊢
  rcases ntpshm_alloc_loop_spec L context NTPSHMSEGS 0 with
    ⟨k, _, _, _, _, hk5⟩ | ⟨_, he⟩
  · rw [hk5]
    simp
  · rw [he] at h
    simp at h

/-! ## Fix-time publisher -/

/-- The fields of a segment after the stores of `ntpshm_put`. -/
theorem run_put_stores (shm : shmTime) (seconds microseconds : Int) (tv : timeval)
    (leap : Int) :
    run_stores shm (put_stores seconds microseconds tv leap) =
      { shm with
        valid := 1
        count := wrap32 (wrap32 (shm.count + 1) + 1)
        clockTimeStampSec := seconds
        clockTimeStampUSec := microseconds
        receiveTimeStampSec := tv.tv_sec
        receiveTimeStampUSec := wrap32 tv.tv_usec
        leap := leap } := rfl

/-- The fields of a segment after the stores of `ntpshm_pps`. -/
theorem run_pps_stores (shm : shmTime) (actual_tv tv : timeval) (leap : Int) :
    run_stores shm (pps_stores actual_tv tv leap) =
      { shm with
        valid := 1
        count := wrap32 (wrap32 (shm.count + 1) + 1)
        clockTimeStampSec := actual_tv.tv_sec
        clockTimeStampUSec := wrap32 actual_tv.tv_usec
        receiveTimeStampSec := tv.tv_sec
        receiveTimeStampUSec := wrap32 tv.tv_usec
        leap := leap
        precision := -16 } := rfl

/-- Two increments of the counter add 2 modulo 2^32 and keep its parity. -/
theorem wrap32_twice (c : Int) :
    wrap32 (wrap32 (c + 1) + 1) = wrap32 (c + 2) ∧
    (wrap32 (c + 2) - (c + 2)) % 4294967296 = 0 ∧
    (c % 2 = 0 → wrap32 (c + 2) % 2 = 0) := by
  unfold wrap32
  refine ⟨by omega, by omega, fun h => by omega⟩

/-- `ntpshm_put` on an attached segment whose stored second differs: the segment written. -/
theorem ntpshm_put_new {D : Type} (F : FloatOps D) (context : gps_context_t)
    (session : gps_device_t D) (tv : timeval) (fixtime fudge : D) (shm : shmTime)
    (hidx : 0 ≤ session.shmindex)
    (hshm : context.shmTime session.shmindex.toNat = some shm)
    (hnew : shm.clockTimeStampSec ≠ F.toTimeT (F.modf (F.add fixtime fudge)).2) :
    ntpshm_put F context session tv fixtime fudge =
      ({ context with
          shmTime := Function.update context.shmTime session.shmindex.toNat
            (some (run_stores shm
              (put_stores (F.toTimeT (F.modf (F.add fixtime fudge)).2)
                (F.toInt (F.mul (F.lit 1000000 0) (F.modf (F.add fixtime fudge)).1)) tv
                context.leap_notify))) },
        1) := by
  have h0 : ¬ session.shmindex < 0 := by omega
  simp only [ntpshm_put, if_neg h0, hshm, if_neg hnew]

/-- `ntpshm_put` on an attached segment that already holds the second: nothing is written. -/
theorem ntpshm_put_dup {D : Type} (F : FloatOps D) (context : gps_context_t)
    (session : gps_device_t D) (tv : timeval) (fixtime fudge : D) (shm : shmTime)
    (hshm : context.shmTime session.shmindex.toNat = some shm)
    (hdup : shm.clockTimeStampSec = F.toTimeT (F.modf (F.add fixtime fudge)).2) :
    ntpshm_put F context session tv fixtime fudge = (context, 0) := by
  unfold ntpshm_put
  split
  · rfl
  · simp only [hshm, if_pos hdup]

/-- `ntpshm_put` changes at most the segment of the unit `session.shmindex`, and leaves that
one with an even counter if it had one. -/
theorem ntpshm_put_slot {D : Type} (F : FloatOps D) (context : gps_context_t)
    (session : gps_device_t D) (tv : timeval) (fixtime fudge : D) (i : Nat) (shm : shmTime)
    (hshm : context.shmTime i = some shm) (heven : shm.count % 2 = 0) :
    ∃ shm2, (ntpshm_put F context session tv fixtime fudge).1.shmTime i = some shm2 ∧
      shm2.count % 2 = 0 := by
  by_cases h0 : session.shmindex < 0
  · refine ⟨shm, ?_, heven⟩
    simp only [ntpshm_put, if_pos h0, hshm]
  · cases hs : context.shmTime session.shmindex.toNat with
    | none =>
      refine ⟨shm, ?_, heven⟩
      simp only [ntpshm_put, if_neg h0, hs, hshm]
    | some shm1 =>
      by_cases hd : shm1.clockTimeStampSec = F.toTimeT (F.modf (F.add fixtime fudge)).2
      · rw [ntpshm_put_dup F context session tv fixtime fudge shm1 hs hd]
        exact ⟨shm, hshm, heven⟩
      · rw [ntpshm_put_new F context session tv fixtime fudge shm1 (by omega) hs hd]
        by_cases hi : i = session.shmindex.toNat
        · subst hi
          rw [hshm] at hs
          cases hs
          refine ⟨run_stores shm
            (put_stores (F.toTimeT (F.modf (F.add fixtime fudge)).2)
              (F.toInt (F.mul (F.lit 1000000 0) (F.modf (F.add fixtime fudge)).1)) tv
              context.leap_notify), by simp, ?_⟩
          rw [run_put_stores]
          have h := wrap32_twice shm.count
          simp only
          rw [h.1]
          exact h.2.2 heven
        · refine ⟨shm, ?_, heven⟩
          simp [Function.update_noteq hi, hshm]

/-- `ntpshm_pps` with both units attached writes the segment of `session.shmTimeP`. -/
theorem ntpshm_pps_write {D : Type} (TSTOTV : timespec → timeval) (context : gps_context_t)
    (session : gps_device_t D) (actual_tv : timeval) (ts : timespec) (shm0 shm1 : shmTime)
    (hidx : 0 ≤ session.shmindex) (hidxP : 0 ≤ session.shmTimeP)
    (hshm0 : context.shmTime session.shmindex.toNat = some shm0)
    (hshm1 : context.shmTime session.shmTimeP.toNat = some shm1) :
    ntpshm_pps TSTOTV context session actual_tv ts =
      ({ context with
          shmTime := Function.update context.shmTime session.shmTimeP.toNat
            (some (run_stores shm1 (pps_stores actual_tv (TSTOTV ts) context.leap_notify))) },
        1) := by
  have h0 : ¬ (0 > session.shmindex ∨ 0 > session.shmTimeP) := by omega
  simp only [ntpshm_pps, if_neg h0, hshm0, hshm1]

/-- `ntpshm_pps` changes at most the segment of the unit `session.shmTimeP`, and leaves that
one with an even counter if it had one. -/
theorem ntpshm_pps_slot {D : Type} (TSTOTV : timespec → timeval) (context : gps_context_t)
    (session : gps_device_t D) (actual_tv : timeval) (ts : timespec) (i : Nat)
    (shm : shmTime) (hshm : context.shmTime i = some shm) (heven : shm.count % 2 = 0) :
    ∃ shm2, (ntpshm_pps TSTOTV context session actual_tv ts).1.shmTime i = some shm2 ∧
      shm2.count % 2 = 0 := by
  by_cases h0 : 0 > session.shmindex ∨ 0 > session.shmTimeP
  · refine ⟨shm, ?_, heven⟩
    simp only [ntpshm_pps, if_pos h0, hshm]
  · cases hs0 : context.shmTime session.shmindex.toNat with
    | none =>
      refine ⟨shm, ?_, heven⟩
      simp only [ntpshm_pps, if_neg h0, hs0, hshm]
    | some shm0 =>
      cases hs1 : context.shmTime session.shmTimeP.toNat with
      | none =>
        refine ⟨shm, ?_, heven⟩
        simp only [ntpshm_pps, if_neg h0, hs0, hs1, hshm]
      | some shm1 =>
        rw [ntpshm_pps_write TSTOTV context session actual_tv ts shm0 shm1 (by omega)
          (by omega) hs0 hs1]
        by_cases hi : i = session.shmTimeP.toNat
        · subst hi
          rw [hshm] at hs1
          cases hs1
          refine ⟨run_stores shm (pps_stores actual_tv (TSTOTV ts) context.leap_notify),
            by simp, ?_⟩
          rw [run_pps_stores]
          have h := wrap32_twice shm.count
          simp only
          rw [h.1]
          exact h.2.2 heven
        · refine ⟨shm, ?_, heven⟩
          simp [Function.update_noteq hi, hshm]

/-- A unit obtained from `ntpshm_alloc` and written only by `ntpshm_put` and `ntpshm_pps` is
attached and its counter is even. -/
theorem alloc_then_written_even {D : Type} (F : FloatOps D) (TSTOTV : timespec → timeval)
    (L : Int) (context : gps_context_t) (i : Nat)
    (h : alloc_then_written F TSTOTV L context i) :
    ∃ shm, context.shmTime i = some shm ∧ shm.count % 2 = 0 := by
  induction h with
  | alloc context i hi =>
    have h7 := ntpshm_alloc_reset_contents L context (by omega)
    rw [hi] at h7
    exact ⟨alloc_reset L, by simpa using h7, rfl⟩
  | put context i session tv fixtime fudge _ ih =>
    obtain ⟨shm, hshm, heven⟩ := ih
    exact ntpshm_put_slot F context session tv fixtime fudge i shm hshm heven
  | pps context i session actual_tv ts _ ih =>
    obtain ⟨shm, hshm, heven⟩ := ih
    exact ntpshm_pps_slot TSTOTV context session actual_tv ts i shm hshm heven
  | frame context other i _ hsame ih =>
    obtain ⟨shm, hshm, heven⟩ := ih
    exact ⟨shm, by rw [hsame, hshm], heven⟩

/-- C3: duplicate-second idempotence.  For two fix times whose `fixtime + fudge` have the same
integer second, `ntpshm_put` with the first and then with the second returns 0 from the
second call and leaves the context, hence the segment (count, valid, both timestamps, leap),
exactly as the first call left it. -/
theorem C3_duplicate_second_idempotent {D : Type} (F : FloatOps D) (context : gps_context_t)
    (session : gps_device_t D) (tv1 tv2 : timeval) (fixtime1 fudge1 fixtime2 fudge2 : D)
    (hsame : F.toTimeT (F.modf (F.add fixtime1 fudge1)).2 =
      F.toTimeT (F.modf (F.add fixtime2 fudge2)).2) :
    ntpshm_put F (ntpshm_put F context session tv1 fixtime1 fudge1).1 session tv2
        fixtime2 fudge2 =
      ((ntpshm_put F context session tv1 fixtime1 fudge1).1, 0) := by
  by_cases h0 : session.shmindex < 0
  · simp only [ntpshm_put, if_pos h0]
  · cases hs : context.shmTime session.shmindex.toNat with
    | none => simp only [ntpshm_put, if_neg h0, hs]
    | some shm =>
      by_cases hd : shm.clockTimeStampSec = F.toTimeT (F.modf (F.add fixtime1 fudge1)).2
      · rw [ntpshm_put_dup F context session tv1 fixtime1 fudge1 shm hs hd]
        exact ntpshm_put_dup F context session tv2 fixtime2 fudge2 shm hs (hd.trans hsame)
      · rw [ntpshm_put_new F context session tv1 fixtime1 fudge1 shm (by omega) hs hd]
        refine ntpshm_put_dup F _ session tv2 fixtime2 fudge2
          (run_stores shm
            (put_stores (F.toTimeT (F.modf (F.add fixtime1 fudge1)).2)
              (F.toInt (F.mul (F.lit 1000000 0) (F.modf (F.add fixtime1 fudge1)).1)) tv1
              context.leap_notify)) (by simp) ?_
        rw [run_put_stores]
        exact hsame

/-- Witness of C3: 1700000001.2 s and then 1700000001.9 s on an attached segment. -/
theorem C3_duplicate_second_idempotent_witness :
    ntpshm_put microOps
        (ntpshm_put microOps (context_all shm_stale true)
          { session0 [] with shmindex := 0 } ⟨1700000002, 5⟩ 1700000001200000 0).1
        { session0 [] with shmindex := 0 } ⟨1700000002, 800000⟩ 1700000001900000 0 =
      ((ntpshm_put microOps (context_all shm_stale true)
          { session0 [] with shmindex := 0 } ⟨1700000002, 5⟩ 1700000001200000 0).1, 0) :=
  C3_duplicate_second_idempotent microOps (context_all shm_stale true)
    { session0 [] with shmindex := 0 } ⟨1700000002, 5⟩ ⟨1700000002, 800000⟩
    1700000001200000 0 1700000001900000 0 (by decide)

/-- C4: for a unit obtained from `ntpshm_alloc` and since written only by `ntpshm_put` and
`ntpshm_pps`, an `ntpshm_put` whose integer second differs from the stored
`clockTimeStampSec` returns 1, leaves `count` at its previous value plus 2 modulo 2^32,
leaves `count` even and leaves `valid = 1`. -/
theorem C4_put_new_second {D : Type} (F : FloatOps D) (TSTOTV : timespec → timeval) (L : Int)
    (context : gps_context_t) (i : Nat) (shm : shmTime) (session : gps_device_t D)
    (tv : timeval) (fixtime fudge : D)
    (hown : alloc_then_written F TSTOTV L context i)
    (hidx : session.shmindex = (i : Int))
    (hshm : context.shmTime i = some shm)
    (hnew : shm.clockTimeStampSec ≠ F.toTimeT (F.modf (F.add fixtime fudge)).2) :
    (ntpshm_put F context session tv fixtime fudge).2 = 1 ∧
    ∃ shm2, (ntpshm_put F context session tv fixtime fudge).1.shmTime i = some shm2 ∧
      shm2.count = wrap32 (shm.count + 2) ∧
      (shm2.count - (shm.count + 2)) % 4294967296 = 0 ∧
      shm2.count % 2 = 0 ∧
      shm2.valid = 1 := by
  obtain ⟨shm1, hshm1, heven⟩ := alloc_then_written_even F TSTOTV L context i hown
  rw [hshm] at hshm1
  cases hshm1
  have hi : session.shmindex.toNat = i := by omega
  rw [ntpshm_put_new F context session tv fixtime fudge shm (by omega) (by rw [hi]; exact hshm)
    hnew, hi]
  refine ⟨rfl, run_stores shm
    (put_stores (F.toTimeT (F.modf (F.add fixtime fudge)).2)
      (F.toInt (F.mul (F.lit 1000000 0) (F.modf (F.add fixtime fudge)).1)) tv
      context.leap_notify), by simp, ?_⟩
  rw [run_put_stores]
  have h := wrap32_twice shm.count
  refine ⟨h.1, ?_, ?_, rfl⟩
  · show (wrap32 (wrap32 (shm.count + 1) + 1) - (shm.count + 2)) % 4294967296 = 0
    rw [h.1]
    exact h.2.1
  · show wrap32 (wrap32 (shm.count + 1) + 1) % 2 = 0
    rw [h.1]
    exact h.2.2 heven

/-- Witness of C4: the first publish on a freshly allocated unit 0. -/
theorem C4_put_new_second_witness :
    (ntpshm_put microOps (ntpshm_alloc 3 (context_all shm_stale false)).1
        { session0 [] with shmindex := 0 } ⟨1700000002, 5⟩ 1700000001200000 75000).2 = 1 ∧
    ∃ shm2, (ntpshm_put microOps (ntpshm_alloc 3 (context_all shm_stale false)).1
        { session0 [] with shmindex := 0 } ⟨1700000002, 5⟩ 1700000001200000 75000).1.shmTime 0
          = some shm2 ∧
      shm2.count = wrap32 ((alloc_reset 3).count + 2) ∧
      (shm2.count - ((alloc_reset 3).count + 2)) % 4294967296 = 0 ∧
      shm2.count % 2 = 0 ∧
      shm2.valid = 1 :=
  C4_put_new_second microOps tstotv_usec 3 (ntpshm_alloc 3 (context_all shm_stale false)).1 0
    (alloc_reset 3) { session0 [] with shmindex := 0 } ⟨1700000002, 5⟩ 1700000001200000 75000
    (alloc_then_written.alloc (context_all shm_stale false) 0 (by decide)) rfl (by decide)
    (by decide)

/-- C5: tear-protection bracketing.  The write of `ntpshm_put`, and that of `ntpshm_pps`, is
its sequence of stores in program order: `valid` is cleared first, `count` is incremented once
before the first data store and once after the last one, and `valid` is set to 1 last.  For a
unit obtained from `ntpshm_alloc` and written only by these two functions, every intermediate
state of the sequence in which `count` is even has the clock timestamp, the receive timestamp
and the leap field either all as before the write or all as after it. -/
theorem C5_tear_protection {D : Type} (F : FloatOps D) (TSTOTV : timespec → timeval) (L : Int)
    (context : gps_context_t) (i : Nat) (shm : shmTime) (session : gps_device_t D)
    (tv : timeval) (fixtime fudge : D) (actual_tv : timeval) (ts : timespec)
    (hown : alloc_then_written F TSTOTV L context i)
    (hshm : context.shmTime i = some shm) :
    let put := put_stores (F.toTimeT (F.modf (F.add fixtime fudge)).2)
      (F.toInt (F.mul (F.lit 1000000 0) (F.modf (F.add fixtime fudge)).1)) tv
      context.leap_notify
    let pps := pps_stores actual_tv (TSTOTV ts) context.leap_notify
    (session.shmindex = (i : Int) →
      shm.clockTimeStampSec ≠ F.toTimeT (F.modf (F.add fixtime fudge)).2 →
      (ntpshm_put F context session tv fixtime fudge).1.shmTime i =
        some (run_stores shm put)) ∧
    (session.shmTimeP = (i : Int) → 0 ≤ session.shmindex →
      context.shmTime session.shmindex.toNat ≠ none →
      (ntpshm_pps TSTOTV context session actual_tv ts).1.shmTime i =
        some (run_stores shm pps)) ∧
    (∃ mid, put = [Store.valid 0, Store.count_inc] ++ mid ++ [Store.count_inc, Store.valid 1] ∧
      ∀ st, st ∈ mid → st.isData = true) ∧
    (∃ mid, pps = [Store.valid 0, Store.count_inc] ++ mid ++ [Store.count_inc, Store.valid 1] ∧
      ∀ st, st ∈ mid → st.isData = true) ∧
    (∀ k, k ≤ put.length → (run_stores shm (put.take k)).count % 2 = 0 →
      same_sample (run_stores shm (put.take k)) shm ∨
      same_sample (run_stores shm (put.take k)) (run_stores shm put)) ∧
    (∀ k, k ≤ pps.length → (run_stores shm (pps.take k)).count % 2 = 0 →
      same_sample (run_stores shm (pps.take k)) shm ∨
      same_sample (run_stores shm (pps.take k)) (run_stores shm pps)) := by
  intro put pps
  obtain ⟨shm1, hshm1, heven⟩ := alloc_then_written_even F TSTOTV L context i hown
  rw [hshm] at hshm1
  cases hshm1
  refine ⟨?_, ?_, ?_, ?_, ?_, ?_⟩
  · intro hidx hnew
    have hi : session.shmindex.toNat = i := by omega
    rw [ntpshm_put_new F context session tv fixtime fudge shm (by omega)
      (by rw [hi]; exact hshm) hnew, hi]
    simp [put]
  · intro hidx h0 hatt
    have hi : session.shmTimeP.toNat = i := by omega
    obtain ⟨shm0, hshm0⟩ := Option.ne_none_iff_exists'.mp hatt
    rw [ntpshm_pps_write TSTOTV context session actual_tv ts shm0 shm h0 (by omega) hshm0
      (by rw [hi]; exact hshm), hi]
    simp [pps]
  · refine ⟨[Store.clockTimeStampSec (F.toTimeT (F.modf (F.add fixtime fudge)).2),
        Store.clockTimeStampUSec
          (F.toInt (F.mul (F.lit 1000000 0) (F.modf (F.add fixtime fudge)).1)),
        Store.receiveTimeStampSec tv.tv_sec, Store.receiveTimeStampUSec (wrap32 tv.tv_usec),
        Store.leap context.leap_notify], rfl, ?_⟩
    intro st hst
    simp only [List.mem_cons, List.mem_singleton, List.not_mem_nil, or_false] at hst
    rcases hst with h | h | h | h | h <;> subst h <;> rfl
  · refine ⟨[Store.clockTimeStampSec actual_tv.tv_sec,
        Store.clockTimeStampUSec (wrap32 actual_tv.tv_usec),
        Store.receiveTimeStampSec (TSTOTV ts).tv_sec,
        Store.receiveTimeStampUSec (wrap32 (TSTOTV ts).tv_usec),
        Store.leap context.leap_notify, Store.precision (-16)], rfl, ?_⟩
    intro st hst
    simp only [List.mem_cons, List.mem_singleton, List.not_mem_nil, or_false] at hst
    rcases hst with h | h | h | h | h | h <;> subst h <;> rfl
  · intro k hk hev
    have hk9 : k ≤ 9 := hk
    have hodd : ¬ wrap32 (shm.count + 1) % 2 = 0 := by
      unfold wrap32
      omega
    interval_cases k
    · left; exact ⟨rfl, rfl, rfl, rfl, rfl⟩
    · left; exact ⟨rfl, rfl, rfl, rfl, rfl⟩
    · exact absurd hev hodd
    · exact absurd hev hodd
    · exact absurd hev hodd
    · exact absurd hev hodd
    · exact absurd hev hodd
    · exact absurd hev hodd
    · right; exact ⟨rfl, rfl, rfl, rfl, rfl⟩
    · right; exact ⟨rfl, rfl, rfl, rfl, rfl⟩
  · intro k hk hev
    have hk10 : k ≤ 10 := hk
    have hodd : ¬ wrap32 (shm.count + 1) % 2 = 0 := by
      unfold wrap32
      omega
    interval_cases k
    · left; exact ⟨rfl, rfl, rfl, rfl, rfl⟩
    · left; exact ⟨rfl, rfl, rfl, rfl, rfl⟩
    · exact absurd hev hodd
    · exact absurd hev hodd
    · exact absurd hev hodd
    · exact absurd hev hodd
    · exact absurd hev hodd
    · exact absurd hev hodd
    · exact absurd hev hodd
    · right; exact ⟨rfl, rfl, rfl, rfl, rfl⟩
    · right; exact ⟨rfl, rfl, rfl, rfl, rfl⟩

/-! ## Packet decoder -/

/-- Fuel beyond the distance to the end of the packet does not change what the destuffing
loop computes: the fuel of `destuff` never runs out before the loop ends. -/
theorem destuff_loop_fuel (outbuffer : Nat → Nat) (outbuflen : Nat) (fuel : Nat) :
    ∀ (i len : Nat) (buf : Nat → Nat), outbuflen - i ≤ fuel →
      destuff_loop outbuffer outbuflen (fuel + 1) i len buf =
        destuff_loop outbuffer outbuflen fuel i len buf := by
  induction fuel with
  | zero =>
    intro i len buf h
    have hi : ¬ i < outbuflen := by omega
    simp only [destuff_loop, if_neg hi]
  | succ n ih =>
    intro i len buf h
    rw [destuff_loop]
    conv_rhs => rw [destuff_loop]
    by_cases hi : i < outbuflen
    · simp only [if_pos hi]
      by_cases h10 : outbuffer i = 0x10
      · simp only [if_pos h10]
        by_cases h03 : outbuffer (i + 1) = 0x03
        · simp only [if_pos h03]
        · simp only [if_neg h03]
          exact ih (i + 2) (len + 1) _ (by omega)
      · simp only [if_neg h10]
        exact ih (i + 1) (len + 1) _ (by omega)
    · simp only [if_neg hi]

/-- With any amount of extra fuel the destuffing loop computes what `destuff` computes. -/
theorem destuff_fuel_enough (outbuffer : Nat → Nat) (outbuflen : Nat) (extra : Nat) :
    destuff_loop outbuffer outbuflen (outbuflen + extra) 2 0 (fun _ => 0) =
      destuff outbuffer outbuflen := by
  induction extra with
  | zero => rfl
  | succ k ih =>
    rw [← ih]
    exact destuff_loop_fuel outbuffer outbuflen (outbuflen + k) 2 0 _ (by omega)

/-- After the frame checks, `tsip_analyze` returns what the switch leaves, except for
`last_request` and the request packets written. -/
theorem tsip_analyze_switch {D : Type} (F : FloatOps D) (E : gpsd_h D) (now : Int)
    (session : gps_device_t D) (context : gps_context_t)
    (htype : session.packet_type = E.TSIP_PACKET) (hlen : 4 ≤ session.outbuflen)
    (hlead : session.outbuffer 0 = 0x10) :
    let sw := tsip_switch F E (session.outbuffer 1)
      (destuff session.outbuffer session.outbuflen).1
      (destuff session.outbuffer session.outbuflen).2
      { session with
        gpsdata := { session.gpsdata with tag := "ID" ++ hex02 (session.outbuffer 1) } }
      context
    let r := tsip_analyze F E now session context
    r.session.gpsdata = sw.1.session.gpsdata ∧ r.session.gps_week = sw.1.session.gps_week ∧
    r.context = sw.1.context ∧ r.mask = sw.1.mask ∧
    r.ntpshm_put_calls = sw.1.ntpshm_put_calls := by
  intro sw r
  have h1 : ¬ session.packet_type ≠ E.TSIP_PACKET := by simp [htype]
  have h2 : ¬ (session.outbuflen < 4 ∨ session.outbuffer 0 ≠ 0x10) := by
    simp [hlead]
    omega
  have hr : r = if now - sw.1.session.last_request ≥ 5 then
      { sw.1 with
        session := { sw.1.session with last_request := now }
        tsip_write_calls :=
          [(0x24, []), (0x27, []), (0x3c, [(E.putbyte sw.2 0 0x00) 0])] }
      else sw.1 := by
    simp only [r, sw, tsip_analyze, if_neg h1, if_neg h2]
  rw [hr]
  split <;> exact ⟨rfl, rfl, rfl, rfl, rfl⟩

/-- Case 0x41 of the switch when the record is accepted. -/
theorem tsip_switch_time_accept {D : Type} (F : FloatOps D) (E : gpsd_h D) (buf : Nat → Nat)
    (session : gps_device_t D) (context : gps_context_t)
    (h1 : F.ge (E.getf buf 0) (F.lit 0 1) = true)
    (h2 : F.gt (E.getf buf 6) (F.lit 100 1) = true) :
    (tsip_switch F E 0x41 10 buf session context).1 =
      ⟨{ session with
          gps_week := E.getsw buf 4
          gpsdata := { session.gpsdata with
            sentence_time := F.sub (E.gpstime_to_unix (E.getsw buf 4) (E.getf buf 0))
              (E.getf buf 6) } },
        { context with
          leap_seconds := F.toInt (F.roundf (E.getf buf 6))
          valid := E.LEAP_SECOND_VALID },
        E.TIME_SET,
        [F.add (F.sub (E.gpstime_to_unix (E.getsw buf 4) (E.getf buf 0)) (E.getf buf 6))
          (F.lit 75 3)],
        []⟩ := by
  simp [tsip_switch, h1, h2]

/-- Case 0x41 of the switch when the record is rejected. -/
theorem tsip_switch_time_reject {D : Type} (F : FloatOps D) (E : gpsd_h D) (len : Nat)
    (buf : Nat → Nat) (session : gps_device_t D) (context : gps_context_t)
    (h : ¬ (len = 10 ∧ F.ge (E.getf buf 0) (F.lit 0 1) = true ∧
      F.gt (E.getf buf 6) (F.lit 100 1) = true)) :
    (tsip_switch F E 0x41 len buf session context).1 = ⟨session, context, 0, [], []⟩ := by
  by_cases hl : len = 10
  · have h3 : ¬ (F.ge (E.getf buf 0) (F.lit 0 1) = true ∧
        F.gt (E.getf buf 6) (F.lit 100 1) = true) := fun hh => h ⟨hl, hh⟩
    simp only [tsip_switch, hl]
    simp [h3]
  · simp [tsip_switch, hl]

/-- C1: for a GPS Time packet (tag 0x41) `tsip_analyze` accepts the record if and only if the
destuffed payload length is 10, the fix time is `>= 0` and the leap-second count is `> 10`.
On acceptance `gps_week` is the payload week, `leap_seconds` the rounded leap count, the leap
validity `LEAP_SECOND_VALID`, and the mask is `TIME_SET`; on rejection `gps_week`,
`leap_seconds`, the leap validity and `sentence_time` are unchanged, nothing is handed to
`ntpshm_put` and the mask is 0. -/
theorem C1_gps_time_accept_iff {D : Type} (F : FloatOps D) (E : gpsd_h D) (now : Int)
    (session : gps_device_t D) (context : gps_context_t)
    (htype : session.packet_type = E.TSIP_PACKET) (hlen : 4 ≤ session.outbuflen)
    (hlead : session.outbuffer 0 = 0x10) (htag : session.outbuffer 1 = 0x41) :
    let len := (destuff session.outbuffer session.outbuflen).1
    let buf := (destuff session.outbuffer session.outbuflen).2
    let r := tsip_analyze F E now session context
    ((len = 10 ∧ F.ge (E.getf buf 0) (F.lit 0 1) = true ∧
        F.gt (E.getf buf 6) (F.lit 100 1) = true) →
      r.session.gps_week = E.getsw buf 4 ∧
      r.context.leap_seconds = F.toInt (F.roundf (E.getf buf 6)) ∧
      r.context.valid = E.LEAP_SECOND_VALID ∧
      r.mask = E.TIME_SET ∧
      r.ntpshm_put_calls.length = 1) ∧
    (¬ (len = 10 ∧ F.ge (E.getf buf 0) (F.lit 0 1) = true ∧
        F.gt (E.getf buf 6) (F.lit 100 1) = true) →
      r.session.gps_week = session.gps_week ∧
      r.context.leap_seconds = context.leap_seconds ∧
      r.context.valid = context.valid ∧
      r.session.gpsdata.sentence_time = session.gpsdata.sentence_time ∧
      r.ntpshm_put_calls = [] ∧
      r.mask = 0) := by
  intro len buf r
  obtain ⟨hg, hw, hc, hm, hp⟩ := tsip_analyze_switch F E now session context htype hlen hlead
  rw [htag] at hg hw hc hm hp
  constructor
  · rintro ⟨hl, h1, h2⟩
    have hl2 : (destuff session.outbuffer session.outbuflen).1 = 10 := hl
    rw [hl2, tsip_switch_time_accept F E (destuff session.outbuffer session.outbuflen).2 _
      context h1 h2] at hg hw hc hm hp
    refine ⟨hw, ?_, ?_, hm, ?_⟩
    · show r.context.leap_seconds = _
      rw [hc]
    · show r.context.valid = _
      rw [hc]
    · show r.ntpshm_put_calls.length = 1
      rw [hp]
      rfl
  · intro hrej
    rw [tsip_switch_time_reject F E (destuff session.outbuffer session.outbuflen).1
      (destuff session.outbuffer session.outbuflen).2 _ context hrej] at hg hw hc hm hp
    refine ⟨hw, ?_, ?_, ?_, hp, hm⟩
    · show r.context.leap_seconds = _
      rw [hc]
    · show r.context.valid = _
      rw [hc]
    · show r.session.gpsdata.sentence_time = _
      rw [hg]

/-- Witness of C1: the time packet with fix time 123456.5, week 2190 and leap count 18.0. -/
theorem C1_gps_time_accept_iff_witness :
    let len := (destuff (session0 pkt_time).outbuffer (session0 pkt_time).outbuflen).1
    let buf := (destuff (session0 pkt_time).outbuffer (session0 pkt_time).outbuflen).2
    let r := tsip_analyze microOps microHeader 100 (session0 pkt_time) context0
    ((len = 10 ∧ microOps.ge (microHeader.getf buf 0) (microOps.lit 0 1) = true ∧
        microOps.gt (microHeader.getf buf 6) (microOps.lit 100 1) = true) →
      r.session.gps_week = microHeader.getsw buf 4 ∧
      r.context.leap_seconds = microOps.toInt (microOps.roundf (microHeader.getf buf 6)) ∧
      r.context.valid = microHeader.LEAP_SECOND_VALID ∧
      r.mask = microHeader.TIME_SET ∧
      r.ntpshm_put_calls.length = 1) ∧
    (¬ (len = 10 ∧ microOps.ge (microHeader.getf buf 0) (microOps.lit 0 1) = true ∧
        microOps.gt (microHeader.getf buf 6) (microOps.lit 100 1) = true) →
      r.session.gps_week = (session0 pkt_time).gps_week ∧
      r.context.leap_seconds = context0.leap_seconds ∧
      r.context.valid = context0.valid ∧
      r.session.gpsdata.sentence_time = (session0 pkt_time).gpsdata.sentence_time ∧
      r.ntpshm_put_calls = [] ∧
      r.mask = 0) :=
  C1_gps_time_accept_iff microOps microHeader 100 (session0 pkt_time) context0
    (by decide) (by decide) (by decide) (by decide)

/-- C2: for every accepted GPS Time packet (week `w`, fix time `f`, leap count `l`)
`tsip_analyze` stores `sentence_time = gpstime_to_unix(w, f) - l`, with the unrounded leap
count, and hands exactly `sentence_time + 0.075` to `ntpshm_put`. -/
theorem C2_gps_time_published {D : Type} (F : FloatOps D) (E : gpsd_h D) (now : Int)
    (session : gps_device_t D) (context : gps_context_t)
    (htype : session.packet_type = E.TSIP_PACKET) (hlen : 4 ≤ session.outbuflen)
    (hlead : session.outbuffer 0 = 0x10) (htag : session.outbuffer 1 = 0x41)
    (hacc : (destuff session.outbuffer session.outbuflen).1 = 10 ∧
      F.ge (E.getf (destuff session.outbuffer session.outbuflen).2 0) (F.lit 0 1) = true ∧
      F.gt (E.getf (destuff session.outbuffer session.outbuflen).2 6) (F.lit 100 1) = true) :
    let buf := (destuff session.outbuffer session.outbuflen).2
    let r := tsip_analyze F E now session context
    r.session.gpsdata.sentence_time =
      F.sub (E.gpstime_to_unix (E.getsw buf 4) (E.getf buf 0)) (E.getf buf 6) ∧
    r.ntpshm_put_calls = [F.add r.session.gpsdata.sentence_time (F.lit 75 3)] := by
  intro buf r
  obtain ⟨hg, _, _, _, hp⟩ := tsip_analyze_switch F E now session context htype hlen hlead
  rw [htag, hacc.1, tsip_switch_time_accept F E _ _ context hacc.2.1 hacc.2.2] at hg hp
  have hst : r.session.gpsdata.sentence_time =
      F.sub (E.gpstime_to_unix (E.getsw buf 4) (E.getf buf 0)) (E.getf buf 6) := by
    show r.session.gpsdata.sentence_time = _
    rw [hg]
  refine ⟨hst, ?_⟩
  rw [hst]
  exact hp

/-- Witness of C2: the time packet of the end-to-end scenario is accepted. -/
theorem C2_gps_time_published_witness :
    let buf := (destuff (session0 pkt_time).outbuffer (session0 pkt_time).outbuflen).2
    let r := tsip_analyze microOps microHeader 100 (session0 pkt_time) context0
    r.session.gpsdata.sentence_time =
      microOps.sub (microHeader.gpstime_to_unix (microHeader.getsw buf 4)
        (microHeader.getf buf 0)) (microHeader.getf buf 6) ∧
    r.ntpshm_put_calls = [microOps.add r.session.gpsdata.sentence_time (microOps.lit 75 3)] :=
  C2_gps_time_published microOps microHeader 100 (session0 pkt_time) context0
    (by decide) (by decide) (by decide) (by decide) (by decide)

/-- Witness of C5: the first writes to a freshly allocated unit 0. -/
theorem C5_tear_protection_witness :
    let shm := alloc_reset 3
    let context := (ntpshm_alloc 3 (context_all shm_stale false)).1
    let session : gps_device_t Int := { session0 [] with shmindex := 0, shmTimeP := 0 }
    let put := put_stores
      (microOps.toTimeT (microOps.modf (microOps.add 1700000001200000 75000)).2)
      (microOps.toInt (microOps.mul (microOps.lit 1000000 0)
        (microOps.modf (microOps.add 1700000001200000 75000)).1)) ⟨1700000002, 5⟩
      context.leap_notify
    let pps := pps_stores ⟨1700000002, 0⟩ (tstotv_usec ⟨1700000002, 1500⟩) context.leap_notify
    (session.shmindex = ((0 : Nat) : Int) →
      shm.clockTimeStampSec ≠
        microOps.toTimeT (microOps.modf (microOps.add 1700000001200000 75000)).2 →
      (ntpshm_put microOps context session ⟨1700000002, 5⟩ 1700000001200000 75000).1.shmTime 0 =
        some (run_stores shm put)) ∧
    (session.shmTimeP = ((0 : Nat) : Int) → 0 ≤ session.shmindex →
      context.shmTime session.shmindex.toNat ≠ none →
      (ntpshm_pps tstotv_usec context session ⟨1700000002, 0⟩ ⟨1700000002, 1500⟩).1.shmTime 0 =
        some (run_stores shm pps)) ∧
    (∃ mid, put = [Store.valid 0, Store.count_inc] ++ mid ++ [Store.count_inc, Store.valid 1] ∧
      ∀ st, st ∈ mid → st.isData = true) ∧
    (∃ mid, pps = [Store.valid 0, Store.count_inc] ++ mid ++ [Store.count_inc, Store.valid 1] ∧
      ∀ st, st ∈ mid → st.isData = true) ∧
    (∀ k, k ≤ put.length → (run_stores shm (put.take k)).count % 2 = 0 →
      same_sample (run_stores shm (put.take k)) shm ∨
      same_sample (run_stores shm (put.take k)) (run_stores shm put)) ∧
    (∀ k, k ≤ pps.length → (run_stores shm (pps.take k)).count % 2 = 0 →
      same_sample (run_stores shm (pps.take k)) shm ∨
      same_sample (run_stores shm (pps.take k)) (run_stores shm pps)) :=
  C5_tear_protection microOps tstotv_usec 3 (ntpshm_alloc 3 (context_all shm_stale false)).1 0
    (alloc_reset 3) { session0 [] with shmindex := 0, shmTimeP := 0 } ⟨1700000002, 5⟩
    1700000001200000 75000 ⟨1700000002, 0⟩ ⟨1700000002, 1500⟩
    (alloc_then_written.alloc (context_all shm_stale false) 0 (by decide)) (by decide)

/-! ## Session lifecycle -/

/-- C10 fails on the code.  After `ntpshm_init`, activate session 0 (it takes units 0 and 1),
let its PPS thread call `error_hook` (unit 1 is freed, `shmTimeP` stays 1): the next
`ntpshm_alloc` returns 1, which the still active session 0 holds as `shmTimeP`.  Activating
session 1, deactivating session 0 (which frees unit 1 a second time) and activating session 2
leaves the active sessions 1 and 2 both holding unit 1. -/
theorem C10_slot_with_two_owners :
    ((link_run 3 link_start [.activate 0]).sessions 0).thread_hooks = true ∧
    (link_run 3 link_start [.activate 0, .error 0]).active 0 = true ∧
    ((link_run 3 link_start [.activate 0, .error 0]).sessions 0).shmindex = 0 ∧
    ((link_run 3 link_start [.activate 0, .error 0]).sessions 0).shmTimeP = 1 ∧
    (ntpshm_alloc 3 (link_run 3 link_start [.activate 0, .error 0]).context).2 = 1 ∧
    (link_run 3 link_start
      [.activate 0, .error 0, .activate 1, .deactivate 0, .activate 2]).active 1 = true ∧
    (link_run 3 link_start
      [.activate 0, .error 0, .activate 1, .deactivate 0, .activate 2]).active 2 = true ∧
    ((link_run 3 link_start
      [.activate 0, .error 0, .activate 1, .deactivate 0, .activate 2]).sessions 1).shmindex
        = 1 ∧
    ((link_run 3 link_start
      [.activate 0, .error 0, .activate 1, .deactivate 0, .activate 2]).sessions 2).shmTimeP
        = 1 := by
  decide

/-! ## Publishers: results and written fields -/

/-- The cast to `int` keeps a value that is in the range of `int`. -/
theorem wrap32_of_int_range (x : Int) (h1 : -2147483648 ≤ x) (h2 : x < 2147483648) :
    wrap32 x = x := by
  unfold wrap32
  omega

/-- C11: `ntpshm_put` returns 0 and leaves the context, with every segment, unchanged whenever
`session->shmindex` is negative or the segment pointer at `shmindex` is null; and it returns
nothing but 0 or 1. -/
theorem C11_ntpshm_put_unavailable {D : Type} (F : FloatOps D) (context : gps_context_t)
    (session : gps_device_t D) (tv : timeval) (fixtime fudge : D) :
    ((session.shmindex < 0 ∨ context.shmTime session.shmindex.toNat = none) →
      ntpshm_put F context session tv fixtime fudge = (context, 0)) ∧
    ((ntpshm_put F context session tv fixtime fudge).2 = 0 ∨
      (ntpshm_put F context session tv fixtime fudge).2 = 1) := by
  constructor
  · intro h
    by_cases h0 : session.shmindex < 0
    · simp only [ntpshm_put, if_pos h0]
    · have hs : context.shmTime session.shmindex.toNat = none := by
        rcases h with h | h
        · exact absurd h h0
        · exact h
      simp only [ntpshm_put, if_neg h0, hs]
  · by_cases h0 : session.shmindex < 0
    · left
      simp only [ntpshm_put, if_pos h0]
    · cases hs : context.shmTime session.shmindex.toNat with
      | none =>
        left
        simp only [ntpshm_put, if_neg h0, hs]
      | some shm =>
        by_cases hd : shm.clockTimeStampSec = F.toTimeT (F.modf (F.add fixtime fudge)).2
        · left
          rw [ntpshm_put_dup F context session tv fixtime fudge shm hs hd]
        · right
          rw [ntpshm_put_new F context session tv fixtime fudge shm (by omega) hs hd]

/-- C12: after a non-duplicate `ntpshm_put(fixtime, fudge)` on an available segment,
`clockTimeStampSec` is the `time_t` value of the integral part that `modf` gives for
`fixtime + fudge`, `clockTimeStampUSec` is the `int` value of 1000000 times its fractional
part, `receiveTimeStampSec`/`USec` are the wall-clock time sampled in the call, and `leap` is
the `leap_notify` of the context. -/
theorem C12_ntpshm_put_fields {D : Type} (F : FloatOps D) (context : gps_context_t)
    (session : gps_device_t D) (tv : timeval) (fixtime fudge : D) (shm : shmTime)
    (hidx : 0 ≤ session.shmindex)
    (hshm : context.shmTime session.shmindex.toNat = some shm)
    (hnew : shm.clockTimeStampSec ≠ F.toTimeT (F.modf (F.add fixtime fudge)).2)
    (husec : 0 ≤ tv.tv_usec ∧ tv.tv_usec < 1000000) :
    (ntpshm_put F context session tv fixtime fudge).2 = 1 ∧
    ∃ shm2,
      (ntpshm_put F context session tv fixtime fudge).1.shmTime session.shmindex.toNat =
        some shm2 ∧
      shm2.clockTimeStampSec = F.toTimeT (F.modf (F.add fixtime fudge)).2 ∧
      shm2.clockTimeStampUSec =
        F.toInt (F.mul (F.lit 1000000 0) (F.modf (F.add fixtime fudge)).1) ∧
      shm2.receiveTimeStampSec = tv.tv_sec ∧
      shm2.receiveTimeStampUSec = tv.tv_usec ∧
      shm2.leap = context.leap_notify := by
  rw [ntpshm_put_new F context session tv fixtime fudge shm hidx hshm hnew]
  refine ⟨rfl, run_stores shm
    (put_stores (F.toTimeT (F.modf (F.add fixtime fudge)).2)
      (F.toInt (F.mul (F.lit 1000000 0) (F.modf (F.add fixtime fudge)).1)) tv
      context.leap_notify), by simp, ?_⟩
  rw [run_put_stores]
  refine ⟨rfl, rfl, rfl, ?_, rfl⟩
  exact wrap32_of_int_range tv.tv_usec (by omega) (by omega)

/-- Witness of C12: 1700000001.2 s with fudge 0.075 s on a freshly allocated unit 0. -/
theorem C12_ntpshm_put_fields_witness :
    (ntpshm_put microOps (ntpshm_alloc 3 (context_all shm_stale false)).1
        { session0 [] with shmindex := 0 } ⟨1700000002, 5⟩ 1700000001200000 75000).2 = 1 ∧
    ∃ shm2,
      (ntpshm_put microOps (ntpshm_alloc 3 (context_all shm_stale false)).1
        { session0 [] with shmindex := 0 } ⟨1700000002, 5⟩ 1700000001200000 75000).1.shmTime
          ({ session0 [] with shmindex := 0 } : gps_device_t Int).shmindex.toNat = some shm2 ∧
      shm2.clockTimeStampSec =
        microOps.toTimeT (microOps.modf (microOps.add 1700000001200000 75000)).2 ∧
      shm2.clockTimeStampUSec =
        microOps.toInt (microOps.mul (microOps.lit 1000000 0)
          (microOps.modf (microOps.add 1700000001200000 75000)).1) ∧
      shm2.receiveTimeStampSec = (⟨1700000002, 5⟩ : timeval).tv_sec ∧
      shm2.receiveTimeStampUSec = (⟨1700000002, 5⟩ : timeval).tv_usec ∧
      shm2.leap = (ntpshm_alloc 3 (context_all shm_stale false)).1.leap_notify :=
  C12_ntpshm_put_fields microOps (ntpshm_alloc 3 (context_all shm_stale false)).1
    { session0 [] with shmindex := 0 } ⟨1700000002, 5⟩ 1700000001200000 75000 (alloc_reset 3)
    (by decide) (by decide) (by decide) (by decide)

/-- C20: `ntpshm_pps` returns 0 and writes nothing when `shmindex` or `shmTimeP` is negative
or either segment pointer is null.  Otherwise it returns 1 and writes only the segment at
`shmTimeP` (so the segment at `shmindex`, a different unit, is unchanged): the clock timestamp
becomes `actual_tv`, the receive timestamp `ts` in microseconds (`tv_nsec / 1000`), `leap`
the `leap_notify` of the context, `precision` the constant -16, `count` its previous value
plus 2 (modulo 2^32) and `valid` 1.  `TSTOTV`, which the sources do not define, is taken to
copy `tv_sec` and divide `tv_nsec` by 1000. -/
theorem C20_ntpshm_pps {D : Type} (TSTOTV : timespec → timeval) (context : gps_context_t)
    (session : gps_device_t D) (actual_tv : timeval) (ts : timespec)
    (hconv : ∀ t : timespec, TSTOTV t = ⟨t.tv_sec, Int.tdiv t.tv_nsec 1000⟩)
    (husec : 0 ≤ actual_tv.tv_usec ∧ actual_tv.tv_usec < 1000000)
    (hnsec : 0 ≤ ts.tv_nsec ∧ ts.tv_nsec < 1000000000) :
    ((session.shmindex < 0 ∨ session.shmTimeP < 0 ∨
        context.shmTime session.shmindex.toNat = none ∨
        context.shmTime session.shmTimeP.toNat = none) →
      ntpshm_pps TSTOTV context session actual_tv ts = (context, 0)) ∧
    (∀ shm0 shmP : shmTime, 0 ≤ session.shmindex → 0 ≤ session.shmTimeP →
      context.shmTime session.shmindex.toNat = some shm0 →
      context.shmTime session.shmTimeP.toNat = some shmP →
        (ntpshm_pps TSTOTV context session actual_tv ts).2 = 1 ∧
        (∀ j, j ≠ session.shmTimeP.toNat →
          (ntpshm_pps TSTOTV context session actual_tv ts).1.shmTime j = context.shmTime j) ∧
        (session.shmindex ≠ session.shmTimeP →
          (ntpshm_pps TSTOTV context session actual_tv ts).1.shmTime session.shmindex.toNat =
            some shm0) ∧
        (ntpshm_pps TSTOTV context session actual_tv ts).1.shmTimeInuse =
          context.shmTimeInuse ∧
        ∃ shm2,
          (ntpshm_pps TSTOTV context session actual_tv ts).1.shmTime session.shmTimeP.toNat =
            some shm2 ∧
          shm2.clockTimeStampSec = actual_tv.tv_sec ∧
          shm2.clockTimeStampUSec = actual_tv.tv_usec ∧
          shm2.receiveTimeStampSec = ts.tv_sec ∧
          shm2.receiveTimeStampUSec = ts.tv_nsec / 1000 ∧
          shm2.leap = context.leap_notify ∧
          shm2.precision = -16 ∧
          shm2.count = wrap32 (shmP.count + 2) ∧
          (shm2.count - (shmP.count + 2)) % 4294967296 = 0 ∧
          shm2.valid = 1 ∧
          shm2.mode = shmP.mode ∧ shm2.nsamples = shmP.nsamples ∧ shm2.pad = shmP.pad) := by
  constructor
  · intro h
    by_cases h0 : 0 > session.shmindex ∨ 0 > session.shmTimeP
    · simp only [ntpshm_pps, if_pos h0]
    · cases hs0 : context.shmTime session.shmindex.toNat with
      | none => simp only [ntpshm_pps, if_neg h0, hs0]
      | some shm0 =>
        cases hs1 : context.shmTime session.shmTimeP.toNat with
        | none => simp only [ntpshm_pps, if_neg h0, hs0, hs1]
        | some shm1 =>
          exfalso
          rcases h with h | h | h | h
          · omega
          · omega
          · rw [hs0] at h
            cases h
          · rw [hs1] at h
            cases h
  · intro shm0 shmP h0 hP hs0 hsP
    rw [ntpshm_pps_write TSTOTV context session actual_tv ts shm0 shmP h0 hP hs0 hsP]
    refine ⟨rfl, ?_, ?_, rfl, run_stores shmP
      (pps_stores actual_tv (TSTOTV ts) context.leap_notify), by simp, ?_⟩
    · intro j hj
      simp [Function.update_noteq hj]
    · intro hne
      have hj : session.shmindex.toNat ≠ session.shmTimeP.toNat := by omega
      simp [Function.update_noteq hj, hs0]
    · rw [run_pps_stores, hconv ts]
      have h := wrap32_twice shmP.count
      have hdiv : Int.tdiv ts.tv_nsec 1000 = ts.tv_nsec / 1000 :=
        Int.tdiv_eq_ediv hnsec.1 (by decide)
      refine ⟨rfl, ?_, rfl, ?_, rfl, rfl, h.1, ?_, rfl, rfl, rfl, rfl⟩
      · exact wrap32_of_int_range actual_tv.tv_usec (by omega) (by omega)
      · show wrap32 (Int.tdiv ts.tv_nsec 1000) = ts.tv_nsec / 1000
        rw [hdiv]
        exact wrap32_of_int_range _ (by omega) (by omega)
      · show (wrap32 (wrap32 (shmP.count + 1) + 1) - (shmP.count + 2)) % 4294967296 = 0
        rw [h.1]
        exact h.2.1

/-- Witness of C20: a pulse at 1700000002.0 seen at 1700000002.0000015 by a session holding
units 0 and 1. -/
theorem C20_ntpshm_pps_witness :
    ((session_pps 4 (-1)).shmindex < 0 ∨ (session_pps 4 (-1)).shmTimeP < 0 ∨
        (context_all shm_stale true).shmTime (session_pps 4 (-1)).shmindex.toNat = none ∨
        (context_all shm_stale true).shmTime (session_pps 4 (-1)).shmTimeP.toNat = none →
      ntpshm_pps tstotv_usec (context_all shm_stale true) (session_pps 4 (-1))
        ⟨1700000002, 0⟩ ⟨1700000002, 1500⟩ = (context_all shm_stale true, 0)) ∧
    (∀ shm0 shmP : shmTime, 0 ≤ (session_pps 4 (-1)).shmindex →
      0 ≤ (session_pps 4 (-1)).shmTimeP →
      (context_all shm_stale true).shmTime (session_pps 4 (-1)).shmindex.toNat = some shm0 →
      (context_all shm_stale true).shmTime (session_pps 4 (-1)).shmTimeP.toNat = some shmP →
        (ntpshm_pps tstotv_usec (context_all shm_stale true) (session_pps 4 (-1))
          ⟨1700000002, 0⟩ ⟨1700000002, 1500⟩).2 = 1 ∧
        (∀ j, j ≠ (session_pps 4 (-1)).shmTimeP.toNat →
          (ntpshm_pps tstotv_usec (context_all shm_stale true) (session_pps 4 (-1))
            ⟨1700000002, 0⟩ ⟨1700000002, 1500⟩).1.shmTime j =
              (context_all shm_stale true).shmTime j) ∧
        ((session_pps 4 (-1)).shmindex ≠ (session_pps 4 (-1)).shmTimeP →
          (ntpshm_pps tstotv_usec (context_all shm_stale true) (session_pps 4 (-1))
            ⟨1700000002, 0⟩ ⟨1700000002, 1500⟩).1.shmTime
              (session_pps 4 (-1)).shmindex.toNat = some shm0) ∧
        (ntpshm_pps tstotv_usec (context_all shm_stale true) (session_pps 4 (-1))
          ⟨1700000002, 0⟩ ⟨1700000002, 1500⟩).1.shmTimeInuse =
            (context_all shm_stale true).shmTimeInuse ∧
        ∃ shm2,
          (ntpshm_pps tstotv_usec (context_all shm_stale true) (session_pps 4 (-1))
            ⟨1700000002, 0⟩ ⟨1700000002, 1500⟩).1.shmTime
              (session_pps 4 (-1)).shmTimeP.toNat = some shm2 ∧
          shm2.clockTimeStampSec = (⟨1700000002, 0⟩ : timeval).tv_sec ∧
          shm2.clockTimeStampUSec = (⟨1700000002, 0⟩ : timeval).tv_usec ∧
          shm2.receiveTimeStampSec = (⟨1700000002, 1500⟩ : timespec).tv_sec ∧
          shm2.receiveTimeStampUSec = (⟨1700000002, 1500⟩ : timespec).tv_nsec / 1000 ∧
          shm2.leap = (context_all shm_stale true).leap_notify ∧
          shm2.precision = -16 ∧
          shm2.count = wrap32 (shmP.count + 2) ∧
          (shm2.count - (shmP.count + 2)) % 4294967296 = 0 ∧
          shm2.valid = 1 ∧
          shm2.mode = shmP.mode ∧ shm2.nsamples = shmP.nsamples ∧ shm2.pad = shmP.pad) :=
  C20_ntpshm_pps tstotv_usec (context_all shm_stale true) (session_pps 4 (-1))
    ⟨1700000002, 0⟩ ⟨1700000002, 1500⟩ (fun _ => rfl) (by decide) (by decide)

/-! ## Pulse-time publisher -/

/-- C19 as stated fails on the code: with `ship_to_ntpd` set and a fix count that has reached
`PPS_MIN_FIXES = 3`, `report_hook` still reports "no fix", sends nothing and leaves the PPS
segment as it was; "no fix" is therefore not reported exactly when the count is below 3. -/
theorem C19_three_fixes_still_skipped :
    (session_pps 3 5).ship_to_ntpd = true ∧ (session_pps 3 5).fixcnt = PPS_MIN_FIXES ∧
    (report_hook tstotv_usec (context_all shm_stale true) (session_pps 3 5)
      ⟨1700000002, 0⟩ ⟨1700000002, 1500⟩ (0 : Int)).1.shmTime 1 = some shm_stale ∧
    (report_hook tstotv_usec (context_all shm_stale true) (session_pps 3 5)
      ⟨1700000002, 0⟩ ⟨1700000002, 1500⟩ (0 : Int)).2.1.length = 0 ∧
    ¬ ((report_hook tstotv_usec (context_all shm_stale true) (session_pps 3 5)
        ⟨1700000002, 0⟩ ⟨1700000002, 1500⟩ (0 : Int)).2.2 = "no fix" ↔
      (session_pps 3 5).fixcnt < PPS_MIN_FIXES) := by
  decide

/-- C19 amended: for a session with `ship_to_ntpd` set, `report_hook` skips publishing (the
context is unchanged, no datagram is sent) and reports "no fix" exactly when the fix count is
at most `PPS_MIN_FIXES = 3`; once the count exceeds 3 it calls `ntpshm_pps`, sends the
`chrony_send` datagram when `chronyfd` is not negative, and reports acceptance. -/
theorem C19_pulse_gate {D : Type} (TSTOTV : timespec → timeval) (context : gps_context_t)
    (session : gps_device_t D) (actual_tv : timeval) (ts : timespec) (edge_offset : D)
    (hship : session.ship_to_ntpd = true) :
    (session.fixcnt ≤ PPS_MIN_FIXES →
      report_hook TSTOTV context session actual_tv ts edge_offset = (context, [], "no fix")) ∧
    (PPS_MIN_FIXES < session.fixcnt →
      (report_hook TSTOTV context session actual_tv ts edge_offset).1 =
        (ntpshm_pps TSTOTV context session actual_tv ts).1 ∧
      (report_hook TSTOTV context session actual_tv ts edge_offset).2.1 =
        (if 0 ≤ session.chronyfd then [chrony_send context session actual_tv ts edge_offset]
          else []) ∧
      (report_hook TSTOTV context session actual_tv ts edge_offset).2.2 =
        (if 0 ≤ session.chronyfd then "accepted chrony sock" else "accepted")) ∧
    ((report_hook TSTOTV context session actual_tv ts edge_offset).2.2 = "no fix" ↔
      session.fixcnt ≤ PPS_MIN_FIXES) := by
  have hs : ¬ session.ship_to_ntpd = false := by simp [hship]
  refine ⟨?_, ?_, ?_⟩
  · intro h
    simp only [report_hook, if_neg hs, if_pos h]
  · intro h
    have hn : ¬ session.fixcnt ≤ PPS_MIN_FIXES := by omega
    by_cases hc : 0 ≤ session.chronyfd
    · simp only [report_hook, if_neg hs, if_neg hn, if_pos hc]
      exact ⟨trivial, trivial, trivial⟩
    · simp only [report_hook, if_neg hs, if_neg hn, if_neg hc]
      exact ⟨trivial, trivial, trivial⟩
  · by_cases h : session.fixcnt ≤ PPS_MIN_FIXES
    · simp only [report_hook, if_neg hs, if_pos h]
      exact ⟨fun _ => h, fun _ => trivial⟩
    · have h1 : ¬ ("accepted chrony sock" = "no fix") := by decide
      have h2 : ¬ ("accepted" = "no fix") := by decide
      by_cases hc : 0 ≤ session.chronyfd
      · simp only [report_hook, if_neg hs, if_neg h, if_pos hc]
        exact ⟨fun e => absurd e h1, fun e => absurd e h⟩
      · simp only [report_hook, if_neg hs, if_neg h, if_neg hc]
        exact ⟨fun e => absurd e h2, fun e => absurd e h⟩

/-- Witness of C19 amended: a session with four fixes and a chrony socket. -/
theorem C19_pulse_gate_witness :
    ((session_pps 4 5).fixcnt ≤ PPS_MIN_FIXES →
      report_hook tstotv_usec (context_all shm_stale true) (session_pps 4 5)
        ⟨1700000002, 0⟩ ⟨1700000002, 1500⟩ (0 : Int) =
          (context_all shm_stale true, [], "no fix")) ∧
    (PPS_MIN_FIXES < (session_pps 4 5).fixcnt →
      (report_hook tstotv_usec (context_all shm_stale true) (session_pps 4 5)
        ⟨1700000002, 0⟩ ⟨1700000002, 1500⟩ (0 : Int)).1 =
          (ntpshm_pps tstotv_usec (context_all shm_stale true) (session_pps 4 5)
            ⟨1700000002, 0⟩ ⟨1700000002, 1500⟩).1 ∧
      (report_hook tstotv_usec (context_all shm_stale true) (session_pps 4 5)
        ⟨1700000002, 0⟩ ⟨1700000002, 1500⟩ (0 : Int)).2.1 =
          (if 0 ≤ (session_pps 4 5).chronyfd then
            [chrony_send (context_all shm_stale true) (session_pps 4 5) ⟨1700000002, 0⟩
              ⟨1700000002, 1500⟩ (0 : Int)]
          else []) ∧
      (report_hook tstotv_usec (context_all shm_stale true) (session_pps 4 5)
        ⟨1700000002, 0⟩ ⟨1700000002, 1500⟩ (0 : Int)).2.2 =
          (if 0 ≤ (session_pps 4 5).chronyfd then "accepted chrony sock" else "accepted")) ∧
    ((report_hook tstotv_usec (context_all shm_stale true) (session_pps 4 5)
        ⟨1700000002, 0⟩ ⟨1700000002, 1500⟩ (0 : Int)).2.2 = "no fix" ↔
      (session_pps 4 5).fixcnt ≤ PPS_MIN_FIXES) :=
  C19_pulse_gate tstotv_usec (context_all shm_stale true) (session_pps 4 5)
    ⟨1700000002, 0⟩ ⟨1700000002, 1500⟩ (0 : Int) rfl

/-! ## Packet decoder: discarded and decoded records -/

/-- A frame that fails the packet-type, length or lead-byte check changes nothing. -/
theorem tsip_analyze_no_frame {D : Type} (F : FloatOps D) (E : gpsd_h D) (now : Int)
    (session : gps_device_t D) (context : gps_context_t)
    (h : ¬ (session.packet_type = E.TSIP_PACKET ∧ 4 ≤ session.outbuflen ∧
      session.outbuffer 0 = 0x10)) :
    tsip_analyze F E now session context = ⟨session, context, 0, [], []⟩ := by
  by_cases h1 : session.packet_type ≠ E.TSIP_PACKET
  · simp only [tsip_analyze, if_pos h1]
  · have h2 : session.outbuflen < 4 ∨ session.outbuffer 0 ≠ 0x10 := by
      by_contra hc
      apply h
      refine ⟨by simpa using h1, by omega, ?_⟩
      by_contra h0
      exact hc (Or.inr h0)
    simp only [tsip_analyze, if_neg h1, if_pos h2]

/-- After the frame checks, `tsip_analyze` is the switch followed by the request pacing. -/
theorem tsip_analyze_eq {D : Type} (F : FloatOps D) (E : gpsd_h D) (now : Int)
    (session : gps_device_t D) (context : gps_context_t)
    (htype : session.packet_type = E.TSIP_PACKET) (hlen : 4 ≤ session.outbuflen)
    (hlead : session.outbuffer 0 = 0x10) (sw : tsip_result D × (Nat → Nat))
    (hsw : tsip_switch F E (session.outbuffer 1)
      (destuff session.outbuffer session.outbuflen).1
      (destuff session.outbuffer session.outbuflen).2
      { session with
        gpsdata := { session.gpsdata with tag := "ID" ++ hex02 (session.outbuffer 1) } }
      context = sw) :
    tsip_analyze F E now session context =
      if now - sw.1.session.last_request ≥ 5 then
        { sw.1 with
          session := { sw.1.session with last_request := now }
          tsip_write_calls :=
            [(0x24, []), (0x27, []), (0x3c, [(E.putbyte sw.2 0 0x00) 0])] }
      else sw.1 := by
  have h1 : ¬ session.packet_type ≠ E.TSIP_PACKET := by simp [htype]
  have h2 : ¬ (session.outbuflen < 4 ∨ session.outbuffer 0 ≠ 0x10) := by
    simp [hlead]
    omega
  subst hsw
  simp only [tsip_analyze, if_neg h1, if_neg h2]

/-- The switch leaves everything as it was, with mask 0, for a length-checked record whose
length differs from the record size and for a tag that changes no state. -/
theorem tsip_switch_discard {D : Type} (F : FloatOps D) (E : gpsd_h D) (id len : Nat)
    (buf : Nat → Nat) (session : gps_device_t D) (context : gps_context_t)
    (h : (id = 0x41 ∧ len ≠ 10) ∨ (id = 0x4a ∧ len ≠ 20) ∨ (id = 0x56 ∧ len ≠ 20) ∨
      (id = 0x57 ∧ len ≠ 8) ∨ (id = 0x5c ∧ len ≠ 24) ∨ (id = 0x82 ∧ len ≠ 1) ∨
      (id = 0x84 ∧ len ≠ 36) ∨ (id = 0x47 ∧ len ≠ 5 * E.getub buf 0 + 1) ∨
      id ∉ tsip_case_labels) :
    (tsip_switch F E id len buf session context).1 = ⟨session, context, 0, [], []⟩ := by
  rcases h with ⟨hid, hl⟩ | ⟨hid, hl⟩ | ⟨hid, hl⟩ | ⟨hid, hl⟩ | ⟨hid, hl⟩ | ⟨hid, hl⟩ |
    ⟨hid, hl⟩ | ⟨hid, hl⟩ | hid
  · subst hid; simp [tsip_switch, hl]
  · subst hid; simp [tsip_switch, hl]
  · subst hid; simp [tsip_switch, hl]
  · subst hid; simp [tsip_switch, hl]
  · subst hid; simp [tsip_switch, hl]
  · subst hid; simp [tsip_switch, hl]
  · subst hid; simp [tsip_switch, hl]
  · subst hid; simp [tsip_switch, hl]
  · simp only [tsip_case_labels, List.mem_cons, List.mem_singleton, List.not_mem_nil,
      or_false, not_or] at hid
    obtain ⟨_, h41, _, _, _, _, h47, h48, h4a, _, _, h56, h57, _, _, _, h5c, h6d, _, _, _,
      _, h82, _, h84, _⟩ := hid
    simp [tsip_switch, h41, h47, h48, h4a, h56, h57, h5c, h6d, h82, h84]

/-- C13: for a packet whose tag is one of the length-checked records and whose destuffed
payload length differs from the record size (0x41: 10, 0x4a: 20, 0x56: 20, 0x57: 8, 0x5c: 24,
0x82: 1, 0x84: 36, 0x47: 5*count+1 with count the first payload byte), and for a packet whose
tag has no case in the switch, `tsip_analyze` returns mask 0 and leaves `gps_week`, the leap
state, the fix, `sentence_time`, the status, the satellite arrays and counts and the DOP
values unchanged. -/
theorem C13_discard_leaves_state {D : Type} (F : FloatOps D) (E : gpsd_h D) (now : Int)
    (session : gps_device_t D) (context : gps_context_t)
    (h : (session.outbuffer 1 = 0x41 ∧ (destuff session.outbuffer session.outbuflen).1 ≠ 10) ∨
      (session.outbuffer 1 = 0x4a ∧ (destuff session.outbuffer session.outbuflen).1 ≠ 20) ∨
      (session.outbuffer 1 = 0x56 ∧ (destuff session.outbuffer session.outbuflen).1 ≠ 20) ∨
      (session.outbuffer 1 = 0x57 ∧ (destuff session.outbuffer session.outbuflen).1 ≠ 8) ∨
      (session.outbuffer 1 = 0x5c ∧ (destuff session.outbuffer session.outbuflen).1 ≠ 24) ∨
      (session.outbuffer 1 = 0x82 ∧ (destuff session.outbuffer session.outbuflen).1 ≠ 1) ∨
      (session.outbuffer 1 = 0x84 ∧ (destuff session.outbuffer session.outbuflen).1 ≠ 36) ∨
      (session.outbuffer 1 = 0x47 ∧ (destuff session.outbuffer session.outbuflen).1 ≠
        5 * E.getub (destuff session.outbuffer session.outbuflen).2 0 + 1) ∨
      session.outbuffer 1 ∉ tsip_case_labels) :
    let r := tsip_analyze F E now session context
    let S := session
    let C := context
    r.mask = 0 ∧
    r.session.gps_week = S.gps_week ∧
    r.context.leap_seconds = C.leap_seconds ∧ r.context.valid = C.valid ∧
    r.session.gpsdata.fix = S.gpsdata.fix ∧
    r.session.gpsdata.sentence_time = S.gpsdata.sentence_time ∧
    r.session.gpsdata.status = S.gpsdata.status ∧
    r.session.gpsdata.PRN = S.gpsdata.PRN ∧ r.session.gpsdata.ss = S.gpsdata.ss ∧
    r.session.gpsdata.elevation = S.gpsdata.elevation ∧
    r.session.gpsdata.azimuth = S.gpsdata.azimuth ∧
    r.session.gpsdata.used = S.gpsdata.used ∧
    r.session.gpsdata.satellites = S.gpsdata.satellites ∧
    r.session.gpsdata.satellites_used = S.gpsdata.satellites_used ∧
    r.session.gpsdata.pdop = S.gpsdata.pdop ∧ r.session.gpsdata.hdop = S.gpsdata.hdop ∧
    r.session.gpsdata.vdop = S.gpsdata.vdop ∧ r.session.gpsdata.tdop = S.gpsdata.tdop ∧
    r.session.gpsdata.gdop = S.gpsdata.gdop := by
  intro r S C
  by_cases hf : session.packet_type = E.TSIP_PACKET ∧ 4 ≤ session.outbuflen ∧
      session.outbuffer 0 = 0x10
  · have hr := tsip_analyze_eq F E now session context hf.1 hf.2.1 hf.2.2 _ rfl
    rw [tsip_switch_discard F E _ _ _ _ context h] at hr
    have hr2 : r = _ := hr
    rw [hr2]
    split <;> exact ⟨rfl, rfl, rfl, rfl, rfl, rfl, rfl, rfl, rfl, rfl, rfl, rfl, rfl, rfl, rfl,
      rfl, rfl, rfl, rfl⟩
  · have hr : r = _ := tsip_analyze_no_frame F E now session context hf
    rw [hr]
    exact ⟨rfl, rfl, rfl, rfl, rfl, rfl, rfl, rfl, rfl, rfl, rfl, rfl, rfl, rfl, rfl, rfl, rfl,
      rfl, rfl⟩

/-- Witness of C13: a geodetic position packet with 4 payload bytes instead of 20. -/
theorem C13_discard_leaves_state_witness :
    let r := tsip_analyze microOps microHeader 100 (session0 pkt_lla_short) context0
    let S := session0 pkt_lla_short
    let C := context0
    r.mask = 0 ∧
    r.session.gps_week = S.gps_week ∧
    r.context.leap_seconds = C.leap_seconds ∧ r.context.valid = C.valid ∧
    r.session.gpsdata.fix = S.gpsdata.fix ∧
    r.session.gpsdata.sentence_time = S.gpsdata.sentence_time ∧
    r.session.gpsdata.status = S.gpsdata.status ∧
    r.session.gpsdata.PRN = S.gpsdata.PRN ∧ r.session.gpsdata.ss = S.gpsdata.ss ∧
    r.session.gpsdata.elevation = S.gpsdata.elevation ∧
    r.session.gpsdata.azimuth = S.gpsdata.azimuth ∧
    r.session.gpsdata.used = S.gpsdata.used ∧
    r.session.gpsdata.satellites = S.gpsdata.satellites ∧
    r.session.gpsdata.satellites_used = S.gpsdata.satellites_used ∧
    r.session.gpsdata.pdop = S.gpsdata.pdop ∧ r.session.gpsdata.hdop = S.gpsdata.hdop ∧
    r.session.gpsdata.vdop = S.gpsdata.vdop ∧ r.session.gpsdata.tdop = S.gpsdata.tdop ∧
    r.session.gpsdata.gdop = S.gpsdata.gdop :=
  C13_discard_leaves_state microOps microHeader 100 (session0 pkt_lla_short) context0
    (Or.inr (Or.inl (by decide)))

/-- The fields of the result of `tsip_analyze` that the request pacing does not touch. -/
theorem tsip_analyze_fields {D : Type} (F : FloatOps D) (E : gpsd_h D) (now : Int)
    (session : gps_device_t D) (context : gps_context_t)
    (htype : session.packet_type = E.TSIP_PACKET) (hlen : 4 ≤ session.outbuflen)
    (hlead : session.outbuffer 0 = 0x10) (sw : tsip_result D × (Nat → Nat))
    (hsw : tsip_switch F E (session.outbuffer 1)
      (destuff session.outbuffer session.outbuflen).1
      (destuff session.outbuffer session.outbuflen).2
      { session with
        gpsdata := { session.gpsdata with tag := "ID" ++ hex02 (session.outbuffer 1) } }
      context = sw) :
    (tsip_analyze F E now session context).session.gpsdata = sw.1.session.gpsdata ∧
    (tsip_analyze F E now session context).session.gps_week = sw.1.session.gps_week ∧
    (tsip_analyze F E now session context).context = sw.1.context ∧
    (tsip_analyze F E now session context).mask = sw.1.mask ∧
    (tsip_analyze F E now session context).ntpshm_put_calls = sw.1.ntpshm_put_calls := by
  rw [tsip_analyze_eq F E now session context htype hlen hlead sw hsw]
  split <;> exact ⟨rfl, rfl, rfl, rfl, rfl⟩

/-- Case 0x4a of the switch on a payload of 20 bytes. -/
theorem tsip_switch_lla {D : Type} (F : FloatOps D) (E : gpsd_h D) (buf : Nat → Nat)
    (session : gps_device_t D) (context : gps_context_t) :
    let t := F.sub (E.gpstime_to_unix session.gps_week (E.getf buf 16))
      (F.ofInt context.leap_seconds)
    let sw := (tsip_switch F E 0x4a 20 buf session context).1
    sw.session.gpsdata.fix.latitude = F.mul (E.getf buf 0) E.RAD_2_DEG ∧
    sw.session.gpsdata.fix.longitude = F.mul (E.getf buf 4) E.RAD_2_DEG ∧
    sw.session.gpsdata.fix.altitude = E.getf buf 8 ∧
    sw.session.gpsdata.status = E.STATUS_FIX ∧
    sw.mask = E.LATLON_SET ||| E.ALTITUDE_SET ∧
    (session.gps_week ≠ 0 →
      sw.session.gpsdata.fix.time = t ∧ sw.session.gpsdata.sentence_time = t) ∧
    (session.gps_week = 0 →
      sw.session.gpsdata.fix.time = session.gpsdata.fix.time ∧
      sw.session.gpsdata.sentence_time = session.gpsdata.sentence_time) := by
  intro t sw
  by_cases hw : session.gps_week = 0
  · simp [sw, tsip_switch, hw]
  · simp [sw, t, tsip_switch, hw]

/-- Case 0x84 of the switch on a payload of 36 bytes. -/
theorem tsip_switch_lla_double {D : Type} (F : FloatOps D) (E : gpsd_h D) (buf : Nat → Nat)
    (session : gps_device_t D) (context : gps_context_t) :
    let t := F.sub (E.gpstime_to_unix session.gps_week (E.getf buf 32))
      (F.ofInt context.leap_seconds)
    let sw := (tsip_switch F E 0x84 36 buf session context).1
    sw.session.gpsdata.fix.latitude = F.mul (E.getd buf 0) E.RAD_2_DEG ∧
    sw.session.gpsdata.fix.longitude = F.mul (E.getd buf 8) E.RAD_2_DEG ∧
    sw.session.gpsdata.fix.altitude = E.getd buf 16 ∧
    sw.session.gpsdata.status = E.STATUS_FIX ∧
    sw.mask = E.LATLON_SET ||| E.ALTITUDE_SET ∧
    (session.gps_week ≠ 0 →
      sw.session.gpsdata.fix.time = t ∧ sw.session.gpsdata.sentence_time = t) ∧
    (session.gps_week = 0 →
      sw.session.gpsdata.fix.time = session.gpsdata.fix.time ∧
      sw.session.gpsdata.sentence_time = session.gpsdata.sentence_time) := by
  intro t sw
  by_cases hw : session.gps_week = 0
  · simp [sw, tsip_switch, hw]
  · simp [sw, t, tsip_switch, hw]

/-- C15: for a geodetic position packet of correct length (0x4a with 20 bytes, 0x84 with 36
bytes) `tsip_analyze` sets latitude and longitude to the payload radians times `RAD_2_DEG`
and altitude to the payload value, sets the status to `STATUS_FIX`, returns exactly
`LATLON_SET | ALTITUDE_SET`, and sets `fix.time` and `sentence_time` to
`gpstime_to_unix(gps_week, time-of-fix) - leap_seconds` if `gps_week` is non-zero and leaves
both unchanged if it is zero. -/
theorem C15_geodetic_position {D : Type} (F : FloatOps D) (E : gpsd_h D) (now : Int)
    (session : gps_device_t D) (context : gps_context_t)
    (htype : session.packet_type = E.TSIP_PACKET) (hlen : 4 ≤ session.outbuflen)
    (hlead : session.outbuffer 0 = 0x10) :
    let len := (destuff session.outbuffer session.outbuflen).1
    let buf := (destuff session.outbuffer session.outbuflen).2
    let r := tsip_analyze F E now session context
    (session.outbuffer 1 = 0x4a → len = 20 →
      r.session.gpsdata.fix.latitude = F.mul (E.getf buf 0) E.RAD_2_DEG ∧
      r.session.gpsdata.fix.longitude = F.mul (E.getf buf 4) E.RAD_2_DEG ∧
      r.session.gpsdata.fix.altitude = E.getf buf 8 ∧
      r.session.gpsdata.status = E.STATUS_FIX ∧
      r.mask = E.LATLON_SET ||| E.ALTITUDE_SET ∧
      (session.gps_week ≠ 0 →
        r.session.gpsdata.fix.time =
          F.sub (E.gpstime_to_unix session.gps_week (E.getf buf 16))
            (F.ofInt context.leap_seconds) ∧
        r.session.gpsdata.sentence_time =
          F.sub (E.gpstime_to_unix session.gps_week (E.getf buf 16))
            (F.ofInt context.leap_seconds)) ∧
      (session.gps_week = 0 →
        r.session.gpsdata.fix.time = session.gpsdata.fix.time ∧
        r.session.gpsdata.sentence_time = session.gpsdata.sentence_time)) ∧
    (session.outbuffer 1 = 0x84 → len = 36 →
      r.session.gpsdata.fix.latitude = F.mul (E.getd buf 0) E.RAD_2_DEG ∧
      r.session.gpsdata.fix.longitude = F.mul (E.getd buf 8) E.RAD_2_DEG ∧
      r.session.gpsdata.fix.altitude = E.getd buf 16 ∧
      r.session.gpsdata.status = E.STATUS_FIX ∧
      r.mask = E.LATLON_SET ||| E.ALTITUDE_SET ∧
      (session.gps_week ≠ 0 →
        r.session.gpsdata.fix.time =
          F.sub (E.gpstime_to_unix session.gps_week (E.getf buf 32))
            (F.ofInt context.leap_seconds) ∧
        r.session.gpsdata.sentence_time =
          F.sub (E.gpstime_to_unix session.gps_week (E.getf buf 32))
            (F.ofInt context.leap_seconds)) ∧
      (session.gps_week = 0 →
        r.session.gpsdata.fix.time = session.gpsdata.fix.time ∧
        r.session.gpsdata.sentence_time = session.gpsdata.sentence_time)) := by
  intro len buf r
  constructor
  · intro htag hl
    have hl2 : (destuff session.outbuffer session.outbuflen).1 = 20 := hl
    obtain ⟨hg, _, _, hm, _⟩ :=
      tsip_analyze_fields F E now session context htype hlen hlead _ rfl
    rw [htag, hl2] at hg hm
    have hsw := tsip_switch_lla F E (destuff session.outbuffer session.outbuflen).2
      { session with gpsdata := { session.gpsdata with tag := "ID" ++ hex02 0x4a } } context
    have hg2 : r.session.gpsdata = _ := hg
    have hm2 : r.mask = _ := hm
    rw [hg2, hm2]
    exact hsw
  · intro htag hl
    have hl2 : (destuff session.outbuffer session.outbuflen).1 = 36 := hl
    obtain ⟨hg, _, _, hm, _⟩ :=
      tsip_analyze_fields F E now session context htype hlen hlead _ rfl
    rw [htag, hl2] at hg hm
    have hsw := tsip_switch_lla_double F E (destuff session.outbuffer session.outbuflen).2
      { session with gpsdata := { session.gpsdata with tag := "ID" ++ hex02 0x84 } } context
    have hg2 : r.session.gpsdata = _ := hg
    have hm2 : r.mask = _ := hm
    rw [hg2, hm2]
    exact hsw

/-- Witness of C15: a single-precision LLA packet in GPS week 2190. -/
theorem C15_geodetic_position_witness :
    let len := (destuff ({ session0 pkt_lla with gps_week := 2190 } : gps_device_t Int).outbuffer ({ session0 pkt_lla with gps_week := 2190 } : gps_device_t Int).outbuflen).1
    let buf := (destuff ({ session0 pkt_lla with gps_week := 2190 } : gps_device_t Int).outbuffer ({ session0 pkt_lla with gps_week := 2190 } : gps_device_t Int).outbuflen).2
    let r := tsip_analyze microOps microHeader 100 ({ session0 pkt_lla with gps_week := 2190 } : gps_device_t Int) context0
    (({ session0 pkt_lla with gps_week := 2190 } : gps_device_t Int).outbuffer 1 = 0x4a → len = 20 →
      r.session.gpsdata.fix.latitude = microOps.mul (microHeader.getf buf 0) microHeader.RAD_2_DEG ∧
      r.session.gpsdata.fix.longitude = microOps.mul (microHeader.getf buf 4) microHeader.RAD_2_DEG ∧
      r.session.gpsdata.fix.altitude = microHeader.getf buf 8 ∧
      r.session.gpsdata.status = microHeader.STATUS_FIX ∧
      r.mask = microHeader.LATLON_SET ||| microHeader.ALTITUDE_SET ∧
      (({ session0 pkt_lla with gps_week := 2190 } : gps_device_t Int).gps_week ≠ 0 →
        r.session.gpsdata.fix.time =
          microOps.sub (microHeader.gpstime_to_unix ({ session0 pkt_lla with gps_week := 2190 } : gps_device_t Int).gps_week (microHeader.getf buf 16))
            (microOps.ofInt context0.leap_seconds) ∧
        r.session.gpsdata.sentence_time =
          microOps.sub (microHeader.gpstime_to_unix ({ session0 pkt_lla with gps_week := 2190 } : gps_device_t Int).gps_week (microHeader.getf buf 16))
            (microOps.ofInt context0.leap_seconds)) ∧
      (({ session0 pkt_lla with gps_week := 2190 } : gps_device_t Int).gps_week = 0 →
        r.session.gpsdata.fix.time = ({ session0 pkt_lla with gps_week := 2190 } : gps_device_t Int).gpsdata.fix.time ∧
        r.session.gpsdata.sentence_time = ({ session0 pkt_lla with gps_week := 2190 } : gps_device_t Int).gpsdata.sentence_time)) ∧
    (({ session0 pkt_lla with gps_week := 2190 } : gps_device_t Int).outbuffer 1 = 0x84 → len = 36 →
      r.session.gpsdata.fix.latitude = microOps.mul (microHeader.getd buf 0) microHeader.RAD_2_DEG ∧
      r.session.gpsdata.fix.longitude = microOps.mul (microHeader.getd buf 8) microHeader.RAD_2_DEG ∧
      r.session.gpsdata.fix.altitude = microHeader.getd buf 16 ∧
      r.session.gpsdata.status = microHeader.STATUS_FIX ∧
      r.mask = microHeader.LATLON_SET ||| microHeader.ALTITUDE_SET ∧
      (({ session0 pkt_lla with gps_week := 2190 } : gps_device_t Int).gps_week ≠ 0 →
        r.session.gpsdata.fix.time =
          microOps.sub (microHeader.gpstime_to_unix ({ session0 pkt_lla with gps_week := 2190 } : gps_device_t Int).gps_week (microHeader.getf buf 32))
            (microOps.ofInt context0.leap_seconds) ∧
        r.session.gpsdata.sentence_time =
          microOps.sub (microHeader.gpstime_to_unix ({ session0 pkt_lla with gps_week := 2190 } : gps_device_t Int).gps_week (microHeader.getf buf 32))
            (microOps.ofInt context0.leap_seconds)) ∧
      (({ session0 pkt_lla with gps_week := 2190 } : gps_device_t Int).gps_week = 0 →
        r.session.gpsdata.fix.time = ({ session0 pkt_lla with gps_week := 2190 } : gps_device_t Int).gpsdata.fix.time ∧
        r.session.gpsdata.sentence_time = ({ session0 pkt_lla with gps_week := 2190 } : gps_device_t Int).gpsdata.sentence_time)) :=
  C15_geodetic_position microOps microHeader 100 { session0 pkt_lla with gps_week := 2190 }
    context0 (by decide) (by decide) (by decide)

/-- C16: for every 0x6d packet that reaches the switch, with first payload byte `b`, the fix
mode becomes `MODE_2D` if `b & 7` is 3, `MODE_3D` if it is 4 and `MODE_NO_FIX` otherwise,
`satellites_used` becomes `(b >> 4) & 0x0f`, and the mask returned is exactly
`HDOP_SET | VDOP_SET | PDOP_SET | MODE_SET`. -/
theorem C16_selection_mode {D : Type} (F : FloatOps D) (E : gpsd_h D) (now : Int)
    (session : gps_device_t D) (context : gps_context_t)
    (htype : session.packet_type = E.TSIP_PACKET) (hlen : 4 ≤ session.outbuflen)
    (hlead : session.outbuffer 0 = 0x10) (htag : session.outbuffer 1 = 0x6d) :
    let b := E.getub (destuff session.outbuffer session.outbuflen).2 0 % 256
    let r := tsip_analyze F E now session context
    (b &&& 7 = 3 → r.session.gpsdata.fix.mode = E.MODE_2D) ∧
    (b &&& 7 = 4 → r.session.gpsdata.fix.mode = E.MODE_3D) ∧
    (b &&& 7 ≠ 3 → b &&& 7 ≠ 4 → r.session.gpsdata.fix.mode = E.MODE_NO_FIX) ∧
    r.session.gpsdata.satellites_used = (((b >>> 4) &&& 0x0f : Nat) : Int) ∧
    r.mask = E.HDOP_SET ||| E.VDOP_SET ||| E.PDOP_SET ||| E.MODE_SET := by
  intro b r
  obtain ⟨hg, _, _, hm, _⟩ :=
    tsip_analyze_fields F E now session context htype hlen hlead _ rfl
  rw [htag] at hg hm
  have hg2 : r.session.gpsdata = _ := hg
  have hm2 : r.mask = _ := hm
  rw [hg2, hm2]
  refine ⟨?_, ?_, ?_, ?_, ?_⟩
  · intro h3
    have h3b : E.getub (destuff session.outbuffer session.outbuflen).2 0 % 256 &&& 7 = 3 := h3
    simp [tsip_switch, h3b]
  · intro h4
    have h4b : E.getub (destuff session.outbuffer session.outbuflen).2 0 % 256 &&& 7 = 4 := h4
    simp [tsip_switch, h4b]
  · intro h3 h4
    have h3b : ¬ E.getub (destuff session.outbuffer session.outbuflen).2 0 % 256 &&& 7 = 3 :=
      h3
    have h4b : ¬ E.getub (destuff session.outbuffer session.outbuflen).2 0 % 256 &&& 7 = 4 :=
      h4
    simp [tsip_switch, h3b, h4b]
  · simp [tsip_switch, b]
  · simp [tsip_switch]

/-- Witness of C16: a selection packet with dimension code 4 and three satellites used. -/
theorem C16_selection_mode_witness :
    let b := microHeader.getub
      (destuff (session0 pkt_selection).outbuffer (session0 pkt_selection).outbuflen).2 0 % 256
    let r := tsip_analyze microOps microHeader 100 (session0 pkt_selection) context0
    (b &&& 7 = 3 → r.session.gpsdata.fix.mode = microHeader.MODE_2D) ∧
    (b &&& 7 = 4 → r.session.gpsdata.fix.mode = microHeader.MODE_3D) ∧
    (b &&& 7 ≠ 3 → b &&& 7 ≠ 4 → r.session.gpsdata.fix.mode = microHeader.MODE_NO_FIX) ∧
    r.session.gpsdata.satellites_used = (((b >>> 4) &&& 0x0f : Nat) : Int) ∧
    r.mask = microHeader.HDOP_SET ||| microHeader.VDOP_SET ||| microHeader.PDOP_SET |||
      microHeader.MODE_SET :=
  C16_selection_mode microOps microHeader 100 (session0 pkt_selection) context0
    (by decide) (by decide) (by decide) (by decide)

/-- C14 fails on the code: case 0x6d has no length check.  A selection packet whose first
payload byte announces three used satellites, hence 17 + 3 = 20 payload bytes, but which
carries 1 payload byte, is decoded all the same: the mask returned is
`HDOP_SET | VDOP_SET | PDOP_SET | MODE_SET`, the fix mode and `satellites_used` change. -/
theorem C14_short_selection_is_decoded :
    (destuff (session0 pkt_selection_short).outbuffer
      (session0 pkt_selection_short).outbuflen).1 = 1 ∧
    17 + ((microHeader.getub (destuff (session0 pkt_selection_short).outbuffer
      (session0 pkt_selection_short).outbuflen).2 0 % 256) >>> 4) = 20 ∧
    (tsip_analyze microOps microHeader 100 (session0 pkt_selection_short) context0).mask =
      microHeader.HDOP_SET ||| microHeader.VDOP_SET ||| microHeader.PDOP_SET |||
        microHeader.MODE_SET ∧
    (tsip_analyze microOps microHeader 100 (session0 pkt_selection_short) context0).mask ≠ 0 ∧
    (session0 pkt_selection_short).gpsdata.fix.mode = 0 ∧
    (tsip_analyze microOps microHeader 100 (session0 pkt_selection_short)
      context0).session.gpsdata.fix.mode = microHeader.MODE_3D ∧
    (session0 pkt_selection_short).gpsdata.satellites_used = 0 ∧
    (tsip_analyze microOps microHeader 100 (session0 pkt_selection_short)
      context0).session.gpsdata.satellites_used = 3 := by
  decide

/-- C17 as stated fails on the code: a 0x82 packet of payload length 1 that arrives 5 seconds
or more after the last request also changes `last_request`, a field of the receiver state. -/
theorem C17_last_request_changes :
    (session0 pkt_dgps).outbuffer 1 = 0x82 ∧
    (destuff (session0 pkt_dgps).outbuffer (session0 pkt_dgps).outbuflen).1 = 1 ∧
    (session0 pkt_dgps).last_request = 0 ∧
    (tsip_analyze microOps microHeader 100 (session0 pkt_dgps) context0).session.last_request
      = 100 ∧
    ¬ ((tsip_analyze microOps microHeader 100 (session0 pkt_dgps)
        context0).session.last_request = (session0 pkt_dgps).last_request) := by
  decide

/-- Case 0x82 of the switch on a payload of 1 byte, status upgraded. -/
theorem tsip_switch_dgps_upgrade {D : Type} (F : FloatOps D) (E : gpsd_h D) (buf : Nat → Nat)
    (session : gps_device_t D) (context : gps_context_t)
    (hc : session.gpsdata.status = E.STATUS_FIX ∧ E.getub buf 0 &&& 0x01 ≠ 0) :
    (tsip_switch F E 0x82 1 buf session context).1 =
      ⟨{ session with gpsdata := { session.gpsdata with status := E.STATUS_DGPS_FIX } },
        context, 0, [], []⟩ := by
  unfold tsip_switch
  rw [if_neg (by decide : ¬ (0x82 = 0x41)), if_neg (by decide : ¬ (0x82 = 0x47)),
    if_neg (by decide : ¬ (0x82 = 0x48)), if_neg (by decide : ¬ (0x82 = 0x4a)),
    if_neg (by decide : ¬ (0x82 = 0x56)), if_neg (by decide : ¬ (0x82 = 0x57)),
    if_neg (by decide : ¬ (0x82 = 0x5c)), if_neg (by decide : ¬ (0x82 = 0x6d)),
    if_pos rfl, if_neg (by decide : ¬ (1 ≠ 1)), if_pos hc]

/-- Case 0x82 of the switch on a payload of 1 byte, status kept. -/
theorem tsip_switch_dgps_keep {D : Type} (F : FloatOps D) (E : gpsd_h D) (buf : Nat → Nat)
    (session : gps_device_t D) (context : gps_context_t)
    (hc : ¬ (session.gpsdata.status = E.STATUS_FIX ∧ E.getub buf 0 &&& 0x01 ≠ 0)) :
    (tsip_switch F E 0x82 1 buf session context).1 = ⟨session, context, 0, [], []⟩ := by
  unfold tsip_switch
  rw [if_neg (by decide : ¬ (0x82 = 0x41)), if_neg (by decide : ¬ (0x82 = 0x47)),
    if_neg (by decide : ¬ (0x82 = 0x48)), if_neg (by decide : ¬ (0x82 = 0x4a)),
    if_neg (by decide : ¬ (0x82 = 0x56)), if_neg (by decide : ¬ (0x82 = 0x57)),
    if_neg (by decide : ¬ (0x82 = 0x5c)), if_neg (by decide : ¬ (0x82 = 0x6d)),
    if_pos rfl, if_neg (by decide : ¬ (1 ≠ 1)), if_neg hc]

/-- C17 amended: for a Differential Position Fix Mode packet (tag 0x82, payload length 1) the
status after `tsip_analyze` is `STATUS_DGPS_FIX` if the status before was `STATUS_FIX` and
bit 0 of the payload byte is set, and otherwise the status before; the mask is 0, the context
is unchanged, nothing is handed to `ntpshm_put`, and of the session only the status, the
packet tag and, when 5 seconds or more have passed since the last request, `last_request`
(set to the current time) change. -/
theorem C17_dgps_status {D : Type} (F : FloatOps D) (E : gpsd_h D) (now : Int)
    (session : gps_device_t D) (context : gps_context_t)
    (htype : session.packet_type = E.TSIP_PACKET) (hlen : 4 ≤ session.outbuflen)
    (hlead : session.outbuffer 0 = 0x10) (htag : session.outbuffer 1 = 0x82)
    (hl : (destuff session.outbuffer session.outbuflen).1 = 1) :
    let b := E.getub (destuff session.outbuffer session.outbuflen).2 0
    let r := tsip_analyze F E now session context
    (session.gpsdata.status = E.STATUS_FIX ∧ b &&& 0x01 ≠ 0 →
      r.session.gpsdata.status = E.STATUS_DGPS_FIX) ∧
    (¬ (session.gpsdata.status = E.STATUS_FIX ∧ b &&& 0x01 ≠ 0) →
      r.session.gpsdata.status = session.gpsdata.status) ∧
    r.session =
      { session with
        gpsdata := { session.gpsdata with
          tag := "ID" ++ hex02 0x82
          status := r.session.gpsdata.status }
        last_request := if now - session.last_request ≥ 5 then now else session.last_request } ∧
    r.context = context ∧ r.mask = 0 ∧ r.ntpshm_put_calls = [] := by
  intro b r
  have hr := tsip_analyze_eq F E now session context htype hlen hlead _ rfl
  rw [htag, hl] at hr
  have hr2 : r = _ := hr
  by_cases hc : session.gpsdata.status = E.STATUS_FIX ∧
      E.getub (destuff session.outbuffer session.outbuflen).2 0 &&& 0x01 ≠ 0
  · rw [tsip_switch_dgps_upgrade F E _
      { session with gpsdata := { session.gpsdata with tag := "ID" ++ hex02 0x82 } }
      context hc] at hr2
    rw [hr2]
    by_cases hp : now - session.last_request ≥ 5
    · rw [if_pos hp]
      refine ⟨fun _ => rfl, fun h => absurd hc h, ?_, rfl, rfl, rfl⟩
      simp only [if_pos hp]
    · rw [if_neg hp]
      refine ⟨fun _ => rfl, fun h => absurd hc h, ?_, rfl, rfl, rfl⟩
      simp only [if_neg hp]
  · rw [tsip_switch_dgps_keep F E _
      { session with gpsdata := { session.gpsdata with tag := "ID" ++ hex02 0x82 } }
      context hc] at hr2
    rw [hr2]
    by_cases hp : now - session.last_request ≥ 5
    · rw [if_pos hp]
      refine ⟨fun h => absurd h hc, fun _ => rfl, ?_, rfl, rfl, rfl⟩
      simp only [if_pos hp]
    · rw [if_neg hp]
      refine ⟨fun h => absurd h hc, fun _ => rfl, ?_, rfl, rfl, rfl⟩
      simp only [if_neg hp]

/-- Witness of C17 amended: a session with a fix receives a packet with the differential
bit set. -/
theorem C17_dgps_status_witness :
    let S : gps_device_t Int :=
      { session0 pkt_dgps with gpsdata := { (session0 pkt_dgps).gpsdata with status := 1 } }
    let b := microHeader.getub (destuff S.outbuffer S.outbuflen).2 0
    let r := tsip_analyze microOps microHeader 100 S context0
    (S.gpsdata.status = microHeader.STATUS_FIX ∧ b &&& 0x01 ≠ 0 →
      r.session.gpsdata.status = microHeader.STATUS_DGPS_FIX) ∧
    (¬ (S.gpsdata.status = microHeader.STATUS_FIX ∧ b &&& 0x01 ≠ 0) →
      r.session.gpsdata.status = S.gpsdata.status) ∧
    r.session =
      { S with
        gpsdata := { S.gpsdata with
          tag := "ID" ++ hex02 0x82
          status := r.session.gpsdata.status }
        last_request := if (100 : Int) - S.last_request ≥ 5 then 100 else S.last_request } ∧
    r.context = context0 ∧ r.mask = 0 ∧ r.ntpshm_put_calls = [] :=
  C17_dgps_status microOps microHeader 100
    { session0 pkt_dgps with gpsdata := { (session0 pkt_dgps).gpsdata with status := 1 } }
    context0 (by decide) (by decide) (by decide) (by decide) (by decide)

/-- Case 0x5c of the switch on a payload of 24 bytes: the PRN of the channel is stored and
the mask is 0. -/
theorem tsip_switch_tracking {D : Type} (F : FloatOps D) (E : gpsd_h D) (buf : Nat → Nat)
    (session : gps_device_t D) (context : gps_context_t) :
    (tsip_switch F E 0x5c 24 buf session context).1.mask = 0 ∧
    (tsip_switch F E 0x5c 24 buf session context).1.session.gpsdata.PRN =
      Function.update session.gpsdata.PRN ((E.getub buf 1 % 256) >>> 3)
        ((E.getub buf 0 % 256 : Nat) : Int) := by
  simp [tsip_switch]

/-- C18 fails on the code, for every interpretation of the floating-point operations and of
the header.  A Satellite Tracking Status packet (tag 0x5c, 24 payload bytes) that passes the
frame checks stores its first payload byte as the PRN of the channel given by its second
payload byte (shifted right by 3), and `tsip_analyze` returns mask 0: whenever that byte
differs from the PRN the channel had, the satellite array `PRN` has changed and
`SATELLITE_SET` is not in the returned mask. -/
theorem C18_changes_without_mask_bit {D : Type} (F : FloatOps D) (E : gpsd_h D) (now : Int)
    (session : gps_device_t D) (context : gps_context_t)
    (htype : session.packet_type = E.TSIP_PACKET) (hlen : 4 ≤ session.outbuflen)
    (hlead : session.outbuffer 0 = 0x10) (htag : session.outbuffer 1 = 0x5c)
    (hl : (destuff session.outbuffer session.outbuflen).1 = 24)
    (hchg : session.gpsdata.PRN
        ((E.getub (destuff session.outbuffer session.outbuflen).2 1 % 256) >>> 3) ≠
      ((E.getub (destuff session.outbuffer session.outbuflen).2 0 % 256 : Nat) : Int)) :
    (tsip_analyze F E now session context).session.gpsdata.PRN
        ((E.getub (destuff session.outbuffer session.outbuflen).2 1 % 256) >>> 3) =
      ((E.getub (destuff session.outbuffer session.outbuflen).2 0 % 256 : Nat) : Int) ∧
    (tsip_analyze F E now session context).session.gpsdata.PRN
        ((E.getub (destuff session.outbuffer session.outbuflen).2 1 % 256) >>> 3) ≠
      session.gpsdata.PRN
        ((E.getub (destuff session.outbuffer session.outbuflen).2 1 % 256) >>> 3) ∧
    (tsip_analyze F E now session context).mask = 0 ∧
    (tsip_analyze F E now session context).mask &&& E.SATELLITE_SET = 0 := by
  obtain ⟨hg, _, _, hm, _⟩ :=
    tsip_analyze_fields F E now session context htype hlen hlead _ rfl
  rw [htag, hl] at hg hm
  obtain ⟨sm, sp⟩ := tsip_switch_tracking F E (destuff session.outbuffer session.outbuflen).2
    { session with gpsdata := { session.gpsdata with tag := "ID" ++ hex02 0x5c } } context
  rw [sm] at hm
  have hp : (tsip_analyze F E now session context).session.gpsdata.PRN
        ((E.getub (destuff session.outbuffer session.outbuflen).2 1 % 256) >>> 3) =
      ((E.getub (destuff session.outbuffer session.outbuflen).2 0 % 256 : Nat) : Int) := by
    rw [hg, sp, Function.update_same]
  refine ⟨hp, ?_, hm, ?_⟩
  · rw [hp]
    exact fun h => hchg h.symm
  · rw [hm]
    exact Nat.zero_and _

/-- Witness of the C18 failure: the packet 10 5c 05 08 ... 10 03 (PRN 5, channel byte 0x08,
that is channel 1) on a session whose satellite arrays are all zero.  The PRN of channel 1
goes from 0 to 5 and the mask returned is 0. -/
theorem C18_changes_without_mask_bit_witness :
    ((session0 pkt_tracking).gpsdata.PRN 1 = 0 ∧
      (tsip_analyze microOps microHeader 100 (session0 pkt_tracking)
        context0).session.gpsdata.PRN 1 = 5 ∧
      (tsip_analyze microOps microHeader 100 (session0 pkt_tracking) context0).mask = 0) ∧
    ((tsip_analyze microOps microHeader 100 (session0 pkt_tracking)
        context0).session.gpsdata.PRN
        ((microHeader.getub (destuff (session0 pkt_tracking).outbuffer
          (session0 pkt_tracking).outbuflen).2 1 % 256) >>> 3) =
      ((microHeader.getub (destuff (session0 pkt_tracking).outbuffer
          (session0 pkt_tracking).outbuflen).2 0 % 256 : Nat) : Int) ∧
    (tsip_analyze microOps microHeader 100 (session0 pkt_tracking)
        context0).session.gpsdata.PRN
        ((microHeader.getub (destuff (session0 pkt_tracking).outbuffer
          (session0 pkt_tracking).outbuflen).2 1 % 256) >>> 3) ≠
      (session0 pkt_tracking).gpsdata.PRN
        ((microHeader.getub (destuff (session0 pkt_tracking).outbuffer
          (session0 pkt_tracking).outbuflen).2 1 % 256) >>> 3) ∧
    (tsip_analyze microOps microHeader 100 (session0 pkt_tracking) context0).mask = 0 ∧
    (tsip_analyze microOps microHeader 100 (session0 pkt_tracking) context0).mask &&&
      microHeader.SATELLITE_SET = 0) :=
  ⟨by decide,
    C18_changes_without_mask_bit microOps microHeader 100 (session0 pkt_tracking) context0
      (by decide) (by decide) (by decide) (by decide) (by decide) (by decide)⟩

/-! ## Frame of the fix-time publisher, datagram record, initialisation -/

/-- C26: frame of `ntpshm_put`.  No segment other than the one at `session->shmindex` is
modified, the in-use table, the segment pointers and the other context fields are unchanged,
and within the target segment `mode`, `precision`, `nsamples` and `pad` are unchanged. -/
theorem C26_ntpshm_put_frame {D : Type} (F : FloatOps D) (context : gps_context_t)
    (session : gps_device_t D) (tv : timeval) (fixtime fudge : D) :
    (∀ j, (session.shmindex < 0 ∨ j ≠ session.shmindex.toNat) →
      (ntpshm_put F context session tv fixtime fudge).1.shmTime j = context.shmTime j) ∧
    (ntpshm_put F context session tv fixtime fudge).1.shmTimeInuse = context.shmTimeInuse ∧
    (∀ j, ((ntpshm_put F context session tv fixtime fudge).1.shmTime j).isSome =
      (context.shmTime j).isSome) ∧
    (∀ shm, context.shmTime session.shmindex.toNat = some shm →
      ∃ shm2,
        (ntpshm_put F context session tv fixtime fudge).1.shmTime session.shmindex.toNat =
          some shm2 ∧
        shm2.mode = shm.mode ∧ shm2.precision = shm.precision ∧
        shm2.nsamples = shm.nsamples ∧ shm2.pad = shm.pad) ∧
    (ntpshm_put F context session tv fixtime fudge).1.enable_ntpshm = context.enable_ntpshm ∧
    (ntpshm_put F context session tv fixtime fudge).1.leap_notify = context.leap_notify ∧
    (ntpshm_put F context session tv fixtime fudge).1.leap_seconds = context.leap_seconds ∧
    (ntpshm_put F context session tv fixtime fudge).1.valid = context.valid := by
  by_cases h0 : session.shmindex < 0
  · have hr : ntpshm_put F context session tv fixtime fudge = (context, 0) := by
      simp only [ntpshm_put, if_pos h0]
    rw [hr]
    exact ⟨fun _ _ => rfl, rfl, fun _ => rfl, fun shm h => ⟨shm, h, rfl, rfl, rfl, rfl⟩, rfl,
      rfl, rfl, rfl⟩
  · cases hs : context.shmTime session.shmindex.toNat with
    | none =>
      have hr : ntpshm_put F context session tv fixtime fudge = (context, 0) := by
        simp only [ntpshm_put, if_neg h0, hs]
      rw [hr]
      exact ⟨fun _ _ => rfl, rfl, fun _ => rfl, fun shm h => (by cases h), rfl, rfl, rfl,
        rfl⟩
    | some shm1 =>
      by_cases hd : shm1.clockTimeStampSec = F.toTimeT (F.modf (F.add fixtime fudge)).2
      · rw [ntpshm_put_dup F context session tv fixtime fudge shm1 hs hd]
        exact ⟨fun _ _ => rfl, rfl, fun _ => rfl,
          fun shm h => ⟨shm1, hs, (by cases h; exact ⟨rfl, rfl, rfl, rfl⟩)⟩, rfl, rfl, rfl,
          rfl⟩
      · rw [ntpshm_put_new F context session tv fixtime fudge shm1 (by omega) hs hd]
        refine ⟨?_, rfl, ?_, ?_, rfl, rfl, rfl, rfl⟩
        · intro j hj
          have hne : j ≠ session.shmindex.toNat := by
            rcases hj with h | h
            · exact absurd h h0
            · exact h
          simp [Function.update_noteq hne]
        · intro j
          by_cases hj : j = session.shmindex.toNat
          · subst hj
            simp [hs]
          · simp [Function.update_noteq hj]
        · intro shm h
          cases h
          refine ⟨run_stores shm1
            (put_stores (F.toTimeT (F.modf (F.add fixtime fudge)).2)
              (F.toInt (F.mul (F.lit 1000000 0) (F.modf (F.add fixtime fudge)).1)) tv
              context.leap_notify), by simp, ?_⟩
          rw [run_put_stores]
          exact ⟨rfl, rfl, rfl, rfl⟩

/-- C21 fails on the code: `chrony_send` copies `*actual_tv`, the time the pulse is thought
to have happened, into the `tv` member and never reads `ts`, the local time at which the
pulse was seen.  For a pulse asserted at 1700000002.000000 s and seen at
1700000001.999998500 s the record carries 1700000002.000000, not 1700000001.999998; the
members `offset`, `pulse`, `leap` and `magic` are as the claim says. -/
theorem C21_datagram_carries_actual_tv :
    (chrony_send (context_all shm_stale true) (session_pps 4 5) ⟨1700000002, 0⟩
      ⟨1700000001, 999998500⟩ (-1500 : Int)).2.tv = ⟨1700000002, 0⟩ ∧
    tstotv_usec ⟨1700000001, 999998500⟩ = ⟨1700000001, 999998⟩ ∧
    (chrony_send (context_all shm_stale true) (session_pps 4 5) ⟨1700000002, 0⟩
      ⟨1700000001, 999998500⟩ (-1500 : Int)).2.tv ≠ tstotv_usec ⟨1700000001, 999998500⟩ ∧
    (chrony_send (context_all shm_stale true) (session_pps 4 5) ⟨1700000002, 0⟩
      ⟨1700000001, 999998500⟩ (-1500 : Int)).2.offset = -1500 ∧
    (chrony_send (context_all shm_stale true) (session_pps 4 5) ⟨1700000002, 0⟩
      ⟨1700000001, 999998500⟩ (-1500 : Int)).2.pulse = 0 ∧
    (chrony_send (context_all shm_stale true) (session_pps 4 5) ⟨1700000002, 0⟩
      ⟨1700000001, 999998500⟩ (-1500 : Int)).2.leap =
        (context_all shm_stale true).leap_notify ∧
    (chrony_send (context_all shm_stale true) (session_pps 4 5) ⟨1700000002, 0⟩
      ⟨1700000001, 999998500⟩ (-1500 : Int)).2.magic = 0x534f434b := by
  decide

/-- The segment table after the attach loop of `ntpshm_init`: a unit in the range of the loop
is attached anew if it is unit 2 or above or the process is root, and kept otherwise. -/
theorem ntpshm_init_loop_spec (os : os_t) (n : Nat) :
    ∀ (i : Nat) (tbl : Nat → Option shmTime) (j : Nat),
      ntpshm_init_loop os n i tbl j =
        if i ≤ j ∧ j < i + n ∧ (2 ≤ j ∨ os.uid = 0) then getShmTime os j else tbl j := by
  induction n with
  | zero =>
    intro i tbl j
    have h : ¬ (i ≤ j ∧ j < i + 0 ∧ (2 ≤ j ∨ os.uid = 0)) := by omega
    simp only [ntpshm_init_loop, if_neg h]
  | succ n ih =>
    intro i tbl j
    by_cases hc : 2 ≤ i ∨ os.uid = 0
    · simp only [ntpshm_init_loop, if_pos hc]
      rw [ih]
      by_cases hj : j = i
      · subst hj
        have h1 : ¬ (j + 1 ≤ j ∧ j < j + 1 + n ∧ (2 ≤ j ∨ os.uid = 0)) := by omega
        have h2 : j ≤ j ∧ j < j + (n + 1) ∧ (2 ≤ j ∨ os.uid = 0) := ⟨le_refl j, by omega, hc⟩
        rw [if_neg h1, if_pos h2]
        simp
      · by_cases h1 : i + 1 ≤ j ∧ j < i + 1 + n ∧ (2 ≤ j ∨ os.uid = 0)
        · have h2 : i ≤ j ∧ j < i + (n + 1) ∧ (2 ≤ j ∨ os.uid = 0) :=
            ⟨by omega, by omega, h1.2.2⟩
          rw [if_pos h1, if_pos h2]
        · have h2 : ¬ (i ≤ j ∧ j < i + (n + 1) ∧ (2 ≤ j ∨ os.uid = 0)) := by
            intro h
            apply h1
            exact ⟨by omega, by omega, h.2.2⟩
          rw [if_neg h1, if_neg h2]
          simp [Function.update_noteq hj]
    · simp only [ntpshm_init_loop, if_neg hc]
      rw [ih]
      by_cases h1 : i + 1 ≤ j ∧ j < i + 1 + n ∧ (2 ≤ j ∨ os.uid = 0)
      · have h2 : i ≤ j ∧ j < i + (n + 1) ∧ (2 ≤ j ∨ os.uid = 0) :=
          ⟨by omega, by omega, h1.2.2⟩
        rw [if_pos h1, if_pos h2]
      · have h2 : ¬ (i ≤ j ∧ j < i + (n + 1) ∧ (2 ≤ j ∨ os.uid = 0)) := by
          intro h
          apply h1
          refine ⟨?_, by omega, h.2.2⟩
          by_contra hlt
          have hji : j = i := by omega
          subst hji
          exact hc h.2.2
        rw [if_neg h1, if_neg h2]

/-- `ntpshm_alloc` takes the smallest attached, unused unit, marks and resets it. -/
theorem ntpshm_alloc_least (L : Int) (context : gps_context_t) (k : Nat)
    (hk : k < NTPSHMSEGS)
    (hav : context.shmTime k ≠ none ∧ context.shmTimeInuse k = false)
    (hmin : ∀ j, j < k → ¬ (context.shmTime j ≠ none ∧ context.shmTimeInuse j = false)) :
    ntpshm_alloc L context =
      ({ context with
          shmTimeInuse := Function.update context.shmTimeInuse k true
          shmTime := Function.update context.shmTime k (some (alloc_reset L)) },
        (k : Int)) := by
  unfold ntpshm_alloc
  rcases ntpshm_alloc_loop_spec L context NTPSHMSEGS 0 with
    ⟨m, _, _, hm3, hm4, hm5⟩ | ⟨hn, _⟩
  · have hmk : m = k := by
      rcases Nat.lt_trichotomy m k with h | h | h
      · exact absurd hm3 (hmin m h)
      · exact h
      · exact absurd hav (hm4 k (Nat.zero_le k) h)
    subst hmk
    exact hm5
  · exact absurd hav (hn k (Nat.zero_le k) (by omega))

/-- With the segment store enabled and both allocations successful, `ntpd_link_activate`
leaves the two segment numbers in `shmindex` and `shmTimeP`. -/
theorem ntpd_link_activate_pair {D : Type} (L : Int) (context c1 c2 : gps_context_t)
    (session : gps_device_t D) (k1 k2 : Nat)
    (hen : context.enable_ntpshm = true)
    (h1 : ntpshm_alloc L context = (c1, (k1 : Int)))
    (h2 : ntpshm_alloc L c1 = (c2, (k2 : Int))) :
    (ntpd_link_activate L context session).1 = c2 ∧
    (ntpd_link_activate L context session).2.shmindex = (k1 : Int) ∧
    (ntpd_link_activate L context session).2.shmTimeP = (k2 : Int) := by
  have hk1 : ¬ (0 > (k1 : Int)) := by omega
  have hk2 : ¬ ((k2 : Int) < 0) := by omega
  simp only [ntpd_link_activate, hen, if_true, h1, h2, if_neg hk1, if_neg hk2]
  exact ⟨trivial, trivial, trivial⟩

/-- C22: privilege split and pairing.  Starting from a context whose segment table is all
null, `ntpshm_init` leaves the in-use table all false.  Run as root with every attach
succeeding, all units are attached and the first `ntpd_link_activate` gives `shmindex = 0`
and `shmTimeP = 1`; run as non-root, units 0 and 1 stay null, units 2 and 3 are attached and
the first `ntpd_link_activate` gives `shmindex = 2` and `shmTimeP = 3`. -/
theorem C22_privilege_split {D : Type} (L : Int) (os : os_t) (context : gps_context_t)
    (session : gps_device_t D)
    (hnull : ∀ i, i < NTPSHMSEGS → context.shmTime i = none) :
    (∀ i, i < NTPSHMSEGS → (ntpshm_init os context).shmTimeInuse i = false) ∧
    (os.uid = 0 → (∀ i, i < NTPSHMSEGS → os.shm i ≠ none) →
      (∀ i, i < NTPSHMSEGS → (ntpshm_init os context).shmTime i = os.shm i) ∧
      (ntpd_link_activate L (ntpshm_init os context) session).2.shmindex = 0 ∧
      (ntpd_link_activate L (ntpshm_init os context) session).2.shmTimeP = 1) ∧
    (os.uid ≠ 0 → os.shm 2 ≠ none → os.shm 3 ≠ none →
      (ntpshm_init os context).shmTime 0 = none ∧
      (ntpshm_init os context).shmTime 1 = none ∧
      (ntpshm_init os context).shmTime 2 = os.shm 2 ∧
      (ntpshm_init os context).shmTime 3 = os.shm 3 ∧
      (ntpd_link_activate L (ntpshm_init os context) session).2.shmindex = 2 ∧
      (ntpd_link_activate L (ntpshm_init os context) session).2.shmTimeP = 3) := by
  have hN : NTPSHMSEGS = 4 := rfl
  have htbl : ∀ j, (ntpshm_init os context).shmTime j =
      if 0 ≤ j ∧ j < 0 + NTPSHMSEGS ∧ (2 ≤ j ∨ os.uid = 0) then getShmTime os j
      else context.shmTime j := fun j => ntpshm_init_loop_spec os NTPSHMSEGS 0 _ j
  have huse : ∀ i, i < NTPSHMSEGS → (ntpshm_init os context).shmTimeInuse i = false := by
    intro i hi
    simp only [ntpshm_init, if_pos hi]
  have hen : (ntpshm_init os context).enable_ntpshm = true := rfl
  refine ⟨huse, ?_, ?_⟩
  · intro hroot hatt
    have hall : ∀ i, i < NTPSHMSEGS → (ntpshm_init os context).shmTime i = os.shm i := by
      intro i hi
      rw [htbl i, if_pos ⟨Nat.zero_le i, by omega, Or.inr hroot⟩]
      rfl
    have a1 := ntpshm_alloc_least L (ntpshm_init os context) 0 (by omega)
      ⟨by rw [hall 0 (by omega)]; exact hatt 0 (by omega), huse 0 (by omega)⟩
      (fun j hj => by omega)
    have a2 := ntpshm_alloc_least L
      { ntpshm_init os context with
        shmTimeInuse := Function.update (ntpshm_init os context).shmTimeInuse 0 true
        shmTime := Function.update (ntpshm_init os context).shmTime 0 (some (alloc_reset L)) }
      1 (by omega)
      ⟨by
          show Function.update (ntpshm_init os context).shmTime 0 (some (alloc_reset L)) 1 ≠ none
          rw [Function.update_noteq (by decide), hall 1 (by omega)]
          exact hatt 1 (by omega),
        by
          show Function.update (ntpshm_init os context).shmTimeInuse 0 true 1 = false
          rw [Function.update_noteq (by decide)]
          exact huse 1 (by omega)⟩
      (fun j hj => by
        have hj0 : j = 0 := by omega
        subst hj0
        intro h
        have h2 := h.2
        simp at h2)
    have hp := ntpd_link_activate_pair L (ntpshm_init os context) _ _ session 0 1 hen a1 a2
    exact ⟨hall, hp.2.1, hp.2.2⟩
  · intro huser h2 h3
    have t0 : (ntpshm_init os context).shmTime 0 = none := by
      rw [htbl 0, if_neg (by omega)]
      exact hnull 0 (by omega)
    have t1 : (ntpshm_init os context).shmTime 1 = none := by
      rw [htbl 1, if_neg (by omega)]
      exact hnull 1 (by omega)
    have t2 : (ntpshm_init os context).shmTime 2 = os.shm 2 := by
      rw [htbl 2, if_pos ⟨by omega, by omega, Or.inl (le_refl 2)⟩]
      rfl
    have t3 : (ntpshm_init os context).shmTime 3 = os.shm 3 := by
      rw [htbl 3, if_pos ⟨by omega, by omega, Or.inl (by omega)⟩]
      rfl
    have a1 := ntpshm_alloc_least L (ntpshm_init os context) 2 (by omega)
      ⟨by rw [t2]; exact h2, huse 2 (by omega)⟩
      (fun j hj => by
        intro h
        have hj01 : j = 0 ∨ j = 1 := by omega
        rcases hj01 with e | e
        · subst e
          exact h.1 t0
        · subst e
          exact h.1 t1)
    have a2 := ntpshm_alloc_least L
      { ntpshm_init os context with
        shmTimeInuse := Function.update (ntpshm_init os context).shmTimeInuse 2 true
        shmTime := Function.update (ntpshm_init os context).shmTime 2 (some (alloc_reset L)) }
      3 (by omega)
      ⟨by
          show Function.update (ntpshm_init os context).shmTime 2 (some (alloc_reset L)) 3 ≠ none
          rw [Function.update_noteq (by decide), t3]
          exact h3,
        by
          show Function.update (ntpshm_init os context).shmTimeInuse 2 true 3 = false
          rw [Function.update_noteq (by decide)]
          exact huse 3 (by omega)⟩
      (fun j hj => by
        intro h
        have hj012 : j = 0 ∨ j = 1 ∨ j = 2 := by omega
        rcases hj012 with e | e | e
        · subst e
          apply h.1
          show Function.update (ntpshm_init os context).shmTime 2 (some (alloc_reset L)) 0 = none
          rw [Function.update_noteq (by decide)]
          exact t0
        · subst e
          apply h.1
          show Function.update (ntpshm_init os context).shmTime 2 (some (alloc_reset L)) 1 = none
          rw [Function.update_noteq (by decide)]
          exact t1
        · subst e
          have h2 := h.2
          simp at h2)
    have hp := ntpd_link_activate_pair L (ntpshm_init os context) _ _ session 2 3 hen a1 a2
    exact ⟨t0, t1, t2, t3, hp.2.1, hp.2.2⟩

/-- Witness of C22: a fresh context, every segment attachable. -/
theorem C22_privilege_split_witness :
    (∀ i, i < NTPSHMSEGS → (ntpshm_init (os_root shm_stale) context0).shmTimeInuse i = false) ∧
    ((os_root shm_stale).uid = 0 → (∀ i, i < NTPSHMSEGS → (os_root shm_stale).shm i ≠ none) →
      (∀ i, i < NTPSHMSEGS →
        (ntpshm_init (os_root shm_stale) context0).shmTime i = (os_root shm_stale).shm i) ∧
      (ntpd_link_activate 3 (ntpshm_init (os_root shm_stale) context0)
        (session0 [])).2.shmindex = 0 ∧
      (ntpd_link_activate 3 (ntpshm_init (os_root shm_stale) context0)
        (session0 [])).2.shmTimeP = 1) ∧
    ((os_root shm_stale).uid ≠ 0 → (os_root shm_stale).shm 2 ≠ none →
      (os_root shm_stale).shm 3 ≠ none →
      (ntpshm_init (os_root shm_stale) context0).shmTime 0 = none ∧
      (ntpshm_init (os_root shm_stale) context0).shmTime 1 = none ∧
      (ntpshm_init (os_root shm_stale) context0).shmTime 2 = (os_root shm_stale).shm 2 ∧
      (ntpshm_init (os_root shm_stale) context0).shmTime 3 = (os_root shm_stale).shm 3 ∧
      (ntpd_link_activate 3 (ntpshm_init (os_root shm_stale) context0)
        (session0 [])).2.shmindex = 2 ∧
      (ntpd_link_activate 3 (ntpshm_init (os_root shm_stale) context0)
        (session0 [])).2.shmTimeP = 3) :=
  C22_privilege_split 3 (os_root shm_stale) context0 (session0 []) (fun _ _ => rfl)

/-! ## Request pacing and framing -/

/-- A property of both branches of a conditional holds of the conditional. -/
theorem ite_keeps {α : Type} (P : α → Prop) (c : Prop) [Decidable c] (a b : α)
    (ha : P a) (hb : P b) : P (if c then a else b) := by
  split
  · exact ha
  · exact hb

/-- No case of the switch touches `last_request` or writes a request packet. -/
theorem tsip_switch_last_request {D : Type} (F : FloatOps D) (E : gpsd_h D) (id len : Nat)
    (buf : Nat → Nat) (session : gps_device_t D) (context : gps_context_t) :
    (tsip_switch F E id len buf session context).1.session.last_request =
      session.last_request ∧
    (tsip_switch F E id len buf session context).1.tsip_write_calls = [] := by
  unfold tsip_switch
  dsimp only
  repeat' first
    | refine ite_keeps
        (fun r : tsip_result D × (Nat → Nat) =>
          r.1.session.last_request = session.last_request ∧ r.1.tsip_write_calls = [])
        _ _ _ ?_ ?_
    | exact ⟨rfl, rfl⟩

/-- C25: auxiliary-request pacing.  For every packet that passes the frame checks, whatever
its tag and whether or not its length was valid, if the current time minus `last_request` is
at least 5 seconds `tsip_analyze` writes exactly the three requests 0x24 (empty), 0x27
(empty) and 0x3c (payload 0x00), in that order, and sets `last_request` to the current time;
otherwise it writes no request and leaves `last_request` unchanged.  `putbyte`, which the
sources do not define, is taken to store the byte at the offset. -/
theorem C25_request_pacing {D : Type} (F : FloatOps D) (E : gpsd_h D) (now : Int)
    (session : gps_device_t D) (context : gps_context_t)
    (htype : session.packet_type = E.TSIP_PACKET) (hlen : 4 ≤ session.outbuflen)
    (hlead : session.outbuffer 0 = 0x10)
    (hput : ∀ buf : Nat → Nat, (E.putbyte buf 0 0x00) 0 = 0x00) :
    (now - session.last_request ≥ 5 →
      (tsip_analyze F E now session context).tsip_write_calls =
        [(0x24, []), (0x27, []), (0x3c, [0x00])] ∧
      (tsip_analyze F E now session context).session.last_request = now) ∧
    (¬ (now - session.last_request ≥ 5) →
      (tsip_analyze F E now session context).tsip_write_calls = [] ∧
      (tsip_analyze F E now session context).session.last_request =
        session.last_request) := by
  have hr := tsip_analyze_eq F E now session context htype hlen hlead _ rfl
  obtain ⟨hl, hw⟩ := tsip_switch_last_request F E (session.outbuffer 1)
    (destuff session.outbuffer session.outbuflen).1
    (destuff session.outbuffer session.outbuflen).2
    { session with
      gpsdata := { session.gpsdata with tag := "ID" ++ hex02 (session.outbuffer 1) } }
    context
  rw [hr, hl]
  constructor
  · intro h
    rw [if_pos h]
    refine ⟨?_, rfl⟩
    show [(0x24, []), (0x27, []), (0x3c, [(E.putbyte _ 0 0x00) 0])] = _
    rw [hput]
  · intro h
    rw [if_neg h]
    exact ⟨hw, hl⟩

/-- Witness of C25: a time packet received 100 seconds after the last request. -/
theorem C25_request_pacing_witness :
    ((100 : Int) - (session0 pkt_time).last_request ≥ 5 →
      (tsip_analyze microOps microHeader 100 (session0 pkt_time) context0).tsip_write_calls =
        [(0x24, []), (0x27, []), (0x3c, [0x00])] ∧
      (tsip_analyze microOps microHeader 100 (session0 pkt_time) context0).session.last_request
        = 100) ∧
    (¬ ((100 : Int) - (session0 pkt_time).last_request ≥ 5) →
      (tsip_analyze microOps microHeader 100 (session0 pkt_time) context0).tsip_write_calls =
        [] ∧
      (tsip_analyze microOps microHeader 100 (session0 pkt_time) context0).session.last_request
        = (session0 pkt_time).last_request) :=
  C25_request_pacing microOps microHeader 100 (session0 pkt_time) context0
    (by decide) (by decide) (by decide) (fun _ => rfl)

/-- A `write` that delivered appended its bytes. -/
theorem sys_write_out (fd : fd_t) (bytes : List Nat) (h : (sys_write fd bytes).2 ≠ false) :
    (sys_write fd bytes).1.out = fd.out ++ bytes := by
  unfold sys_write at h ⊢
  split
  · rename_i hb
    rw [if_pos hb] at h
    exact absurd rfl h
  · rfl

/-- When every `write` of the payload loop of `tsip_write` delivers, the loop has appended
the payload with every 0x10 doubled. -/
theorem tsip_write_loop_out (buf : Nat → Nat) (p : List Nat) :
    ∀ (i : Nat) (fd : fd_t), (∀ t, t < p.length → buf (i + t) = p.getD t 0) →
      (tsip_write_loop buf p.length i fd).2 ≠ false →
      (tsip_write_loop buf p.length i fd).1.out = fd.out ++ dle_stuffed p := by
  induction p with
  | nil =>
    intro i fd _ _
    simp [tsip_write_loop, dle_stuffed]
  | cons b rest ih =>
    intro i fd hbuf hok
    have hb : buf i = b := by
      have := hbuf 0 (by simp)
      simpa using this
    have hrest : ∀ t, t < rest.length → buf (i + 1 + t) = rest.getD t 0 := by
      intro t ht
      have := hbuf (t + 1) (by simp; omega)
      rw [show i + 1 + t = i + (t + 1) by omega, this]
      simp
    simp only [List.length_cons, tsip_write_loop] at hok ⊢
    by_cases h10 : buf i = 0x10
    · rw [if_pos h10] at hok ⊢
      by_cases hw1 : (sys_write fd [0x10]).2 = false
      · rw [if_pos hw1] at hok
        exact absurd rfl hok
      · rw [if_neg hw1] at hok ⊢
        by_cases hw2 : (sys_write (sys_write fd [0x10]).1 [buf i]).2 = false
        · rw [if_pos hw2] at hok
          exact absurd rfl hok
        · rw [if_neg hw2] at hok ⊢
          rw [ih (i + 1) _ hrest hok, sys_write_out _ _ hw2, sys_write_out _ _ hw1]
          have hb10 : b = 0x10 := by rw [← hb]; exact h10
          simp [dle_stuffed, hb10, h10]
    · rw [if_neg h10] at hok ⊢
      by_cases hw1 : (sys_write fd [buf i]).2 = false
      · rw [if_pos hw1] at hok
        exact absurd rfl hok
      · rw [if_neg hw1] at hok ⊢
        rw [ih (i + 1) _ hrest hok, sys_write_out _ _ hw1]
        have hb10 : ¬ b = 0x10 := by rw [← hb]; exact h10
        simp [dle_stuffed, hb10, hb]

/-- When `tsip_write` returns 0 it has appended the lead byte, the tag, the payload with
every 0x10 doubled, and the trailer 0x10 0x03. -/
theorem tsip_write_out (fd : fd_t) (id : Nat) (buf : Nat → Nat) (p : List Nat)
    (hbuf : ∀ t, t < p.length → buf t = p.getD t 0)
    (hok : (tsip_write fd id buf p.length).2 = 0) :
    (tsip_write fd id buf p.length).1.out =
      fd.out ++ [0x10, id % 256] ++ dle_stuffed p ++ [0x10, 0x03] := by
  unfold tsip_write at hok ⊢
  by_cases h1 : (sys_write fd [0x10, id % 256]).2 = false
  · rw [if_pos h1] at hok
    exact absurd (show (-1 : Int) = 0 from hok) (by decide)
  · rw [if_neg h1] at hok ⊢
    by_cases h2 : (tsip_write_loop buf p.length 0 (sys_write fd [0x10, id % 256]).1).2 = false
    · rw [if_pos h2] at hok
      exact absurd (show (-1 : Int) = 0 from hok) (by decide)
    · rw [if_neg h2] at hok ⊢
      by_cases h3 : (sys_write (tsip_write_loop buf p.length 0
          (sys_write fd [0x10, id % 256]).1).1 [0x10, 0x03]).2 = false
      · rw [if_pos h3] at hok
        exact absurd (show (-1 : Int) = 0 from hok) (by decide)
      · rw [if_neg h3]
        show (sys_write _ _).1.out = _
        rw [sys_write_out _ _ h3,
          tsip_write_loop_out buf p 0 _ (fun t ht => by rw [Nat.zero_add]; exact hbuf t ht) h2,
          sys_write_out _ _ h1]

/-- The destuffing loop, entered at the first stuffed payload byte of a frame that ends in
0x10 0x03, appends exactly the payload to the decode buffer and stops at the trailer. -/
theorem destuff_loop_stuffed (ob : Nat → Nat) (n : Nat) (p : List Nat) :
    ∀ (i len fuel : Nat) (buf : Nat → Nat),
      (∀ t, t < (dle_stuffed p).length + 2 →
        ob (i + t) = (dle_stuffed p ++ [0x10, 0x03]).getD t 0) →
      n = i + (dle_stuffed p).length + 2 →
      (dle_stuffed p).length + 1 ≤ fuel →
      (destuff_loop ob n fuel i len buf).1 = len + p.length ∧
      ∀ x, (destuff_loop ob n fuel i len buf).2 x =
        if len ≤ x ∧ x < len + p.length then p.getD (x - len) 0 else buf x := by
  induction p with
  | nil =>
    intro i len fuel buf hob hn hfuel
    obtain ⟨f, rfl⟩ : ∃ f, fuel = f + 1 := ⟨fuel - 1, by omega⟩
    have h0 : ob i = 0x10 := by
      have := hob 0 (by simp [dle_stuffed])
      simpa [dle_stuffed] using this
    have h1 : ob (i + 1) = 0x03 := by
      have := hob 1 (by simp [dle_stuffed])
      simpa [dle_stuffed] using this
    have hi : i < n := by
      simp [dle_stuffed] at hn
      omega
    simp only [destuff_loop, if_pos hi, if_pos h0, if_pos h1]
    refine ⟨by simp, ?_⟩
    intro x
    have hx : ¬ (len ≤ x ∧ x < len + ([] : List Nat).length) := by
      simp
    rw [if_neg hx]
  | cons b rest ih =>
    intro i len fuel buf hob hn hfuel
    obtain ⟨f, rfl⟩ : ∃ f, fuel = f + 1 := ⟨fuel - 1, by omega⟩
    by_cases hb : b = 0x10
    · have hst : dle_stuffed (b :: rest) = 0x10 :: 0x10 :: dle_stuffed rest := by
        simp [dle_stuffed, hb]
      rw [hst] at hob hn hfuel
      simp only [List.length_cons] at hob hn hfuel
      have h0 : ob i = 0x10 := by
        have := hob 0 (by omega)
        simpa using this
      have h1 : ob (i + 1) = 0x10 := by
        have := hob 1 (by omega)
        simpa using this
      have h13 : ¬ ob (i + 1) = 0x03 := by
        rw [h1]
        decide
      have hi : i < n := by omega
      have hob2 : ∀ t, t < (dle_stuffed rest).length + 2 →
          ob (i + 2 + t) = (dle_stuffed rest ++ [0x10, 0x03]).getD t 0 := by
        intro t ht
        have := hob (t + 2) (by omega)
        rw [show i + 2 + t = i + (t + 2) by omega, this]
        simp
      obtain ⟨e1, e2⟩ := ih (i + 2) (len + 1) f (Function.update buf len (ob (i + 1))) hob2
        (by omega) (by omega)
      simp only [destuff_loop, if_pos hi, if_pos h0, if_neg h13]
      refine ⟨by rw [e1]; simp; omega, ?_⟩
      intro x
      rw [e2 x]
      by_cases hx1 : len + 1 ≤ x ∧ x < len + 1 + rest.length
      · have hx2 : len ≤ x ∧ x < len + (b :: rest).length := by
          simp only [List.length_cons]
          omega
        rw [if_pos hx1, if_pos hx2]
        obtain ⟨d, hd⟩ : ∃ d, x - len = d + 1 := ⟨x - len - 1, by omega⟩
        rw [hd, List.getD_cons_succ]
        congr 1
        omega
      · rw [if_neg hx1]
        by_cases hxl : x = len
        · subst hxl
          have hx2 : x ≤ x ∧ x < x + (b :: rest).length := by
            simp only [List.length_cons]
            omega
          rw [if_pos hx2]
          simp [h1, hb]
        · have hx2 : ¬ (len ≤ x ∧ x < len + (b :: rest).length) := by
            simp only [List.length_cons]
            omega
          rw [if_neg hx2, Function.update_noteq hxl]
    · have hst : dle_stuffed (b :: rest) = b :: dle_stuffed rest := by
        simp [dle_stuffed, hb]
      rw [hst] at hob hn hfuel
      simp only [List.length_cons] at hob hn hfuel
      have h0 : ob i = b := by
        have := hob 0 (by omega)
        simpa using this
      have h010 : ¬ ob i = 0x10 := by
        rw [h0]
        exact hb
      have hi : i < n := by omega
      have hob2 : ∀ t, t < (dle_stuffed rest).length + 2 →
          ob (i + 1 + t) = (dle_stuffed rest ++ [0x10, 0x03]).getD t 0 := by
        intro t ht
        have := hob (t + 1) (by omega)
        rw [show i + 1 + t = i + (t + 1) by omega, this]
        simp
      obtain ⟨e1, e2⟩ := ih (i + 1) (len + 1) f (Function.update buf len (ob i)) hob2
        (by omega) (by omega)
      simp only [destuff_loop, if_pos hi, if_neg h010]
      refine ⟨by rw [e1]; simp; omega, ?_⟩
      intro x
      rw [e2 x]
      by_cases hx1 : len + 1 ≤ x ∧ x < len + 1 + rest.length
      · have hx2 : len ≤ x ∧ x < len + (b :: rest).length := by
          simp only [List.length_cons]
          omega
        rw [if_pos hx1, if_pos hx2]
        obtain ⟨d, hd⟩ : ∃ d, x - len = d + 1 := ⟨x - len - 1, by omega⟩
        rw [hd, List.getD_cons_succ]
        congr 1
        omega
      · rw [if_neg hx1]
        by_cases hxl : x = len
        · subst hxl
          have hx2 : x ≤ x ∧ x < x + (b :: rest).length := by
            simp only [List.length_cons]
            omega
          rw [if_pos hx2]
          simp [h0]
        · have hx2 : ¬ (len ≤ x ∧ x < len + (b :: rest).length) := by
            simp only [List.length_cons]
            omega
          rw [if_neg hx2, Function.update_noteq hxl]

/-- C24: framing round trip.  For every tag byte `id` and every payload, the byte sequence
that a successful `tsip_write` emits is 0x10, `id`, the payload with each 0x10 doubled, 0x10,
0x03; presented as the packet buffer to `tsip_analyze` it passes the length and lead-byte
checks, the tag recovered is `id`, and the destuffing loop yields exactly the original
payload with the original length, whatever bytes the payload contains. -/
theorem C24_framing_round_trip {D : Type} (fd : fd_t) (id : Nat) (payload : List Nat)
    (session : gps_device_t D)
    (hid : id < 256)
    (hfresh : fd.out = [])
    (hok : (tsip_write fd id (fun i => payload.getD i 0) payload.length).2 = 0)
    (hbuflen : session.outbuflen =
      (tsip_write fd id (fun i => payload.getD i 0) payload.length).1.out.length)
    (hbuf : ∀ t, t < session.outbuflen → session.outbuffer t =
      (tsip_write fd id (fun i => payload.getD i 0) payload.length).1.out.getD t 0) :
    (tsip_write fd id (fun i => payload.getD i 0) payload.length).1.out =
      [0x10, id] ++ dle_stuffed payload ++ [0x10, 0x03] ∧
    4 ≤ session.outbuflen ∧ session.outbuffer 0 = 0x10 ∧ session.outbuffer 1 = id ∧
    (destuff session.outbuffer session.outbuflen).1 = payload.length ∧
    ∀ i, i < payload.length →
      (destuff session.outbuffer session.outbuflen).2 i = payload.getD i 0 := by
  have hout := tsip_write_out fd id (fun i => payload.getD i 0) payload (fun _ _ => rfl) hok
  rw [hfresh, Nat.mod_eq_of_lt hid] at hout
  simp only [List.nil_append] at hout
  rw [hout] at hbuflen hbuf
  have hlen : session.outbuflen = 2 + (dle_stuffed payload).length + 2 := by
    rw [hbuflen]
    simp
    omega
  have h0 : session.outbuffer 0 = 0x10 := by
    rw [hbuf 0 (by omega)]
    simp
  have h1 : session.outbuffer 1 = id := by
    rw [hbuf 1 (by omega)]
    simp
  have hob : ∀ t, t < (dle_stuffed payload).length + 2 →
      session.outbuffer (2 + t) = (dle_stuffed payload ++ [0x10, 0x03]).getD t 0 := by
    intro t ht
    rw [hbuf (2 + t) (by omega)]
    have e : [0x10, id] ++ dle_stuffed payload ++ [0x10, 0x03] =
        0x10 :: id :: (dle_stuffed payload ++ [0x10, 0x03]) := by simp
    rw [e, show 2 + t = (t + 1) + 1 by omega, List.getD_cons_succ, List.getD_cons_succ]
  obtain ⟨e1, e2⟩ := destuff_loop_stuffed session.outbuffer session.outbuflen payload 2 0
    session.outbuflen (fun _ => 0) hob (by omega) (by omega)
  refine ⟨hout, by omega, h0, h1, ?_, ?_⟩
  · show (destuff_loop session.outbuffer session.outbuflen session.outbuflen 2 0
      (fun _ => 0)).1 = payload.length
    rw [e1]
    omega
  · intro i hi
    show (destuff_loop session.outbuffer session.outbuflen session.outbuflen 2 0
      (fun _ => 0)).2 i = payload.getD i 0
    rw [e2 i, if_pos ⟨Nat.zero_le i, by omega⟩]
    simp

/-- Witness of C24: tag 0x3c and a payload that contains 0x10 immediately followed by 0x03
and ends in 0x10. -/
theorem C24_framing_round_trip_witness :
    (tsip_write ⟨[], 100⟩ 0x3c (fun i => payload_dle.getD i 0) payload_dle.length).1.out =
      [0x10, 0x3c] ++ dle_stuffed payload_dle ++ [0x10, 0x03] ∧
    4 ≤ session_echo.outbuflen ∧ session_echo.outbuffer 0 = 0x10 ∧
    session_echo.outbuffer 1 = 0x3c ∧
    (destuff session_echo.outbuffer session_echo.outbuflen).1 = payload_dle.length ∧
    ∀ i, i < payload_dle.length →
      (destuff session_echo.outbuffer session_echo.outbuflen).2 i = payload_dle.getD i 0 :=
  C24_framing_round_trip ⟨[], 100⟩ 0x3c payload_dle session_echo (by decide) rfl (by decide)
    rfl (fun _ _ => rfl)

/-! ## Reader consistency -/

/-- The counter after one complete write. -/
theorem run_write_count (shm : shmTime) (wr : seg_write) :
    (run_stores shm wr.stores).count = wrap32 (wrap32 (shm.count + 1) + 1) := by
  cases wr <;> rfl

/-- After `k` complete writes the counter is `2 * k` modulo 2^32. -/
theorem slot_after_count (L : Int) (w : Nat → seg_write) (k : Nat) :
    (slot_after L w k).count = wrap32 (2 * (k : Int)) := by
  induction k with
  | zero => rfl
  | succ n ih =>
    show (run_stores (slot_after L w n) (w n).stores).count = _
    rw [run_write_count, ih]
    unfold wrap32
    push_cast
    omega

/-- At every point of the writer's execution the counter is the number of increments
performed, modulo 2^32; and when that number is even the clock timestamp, the receive
timestamp and the leap field are those of the segment after that many half-increments, that
is after a whole number of complete writes. -/
theorem slot_at_gen (L : Int) (w : Nat → seg_write) (k j : Nat) :
    (slot_at L w k j).count = wrap32 (point_gen w k j : Nat) ∧
    (point_gen w k j % 2 = 0 →
      same_sample (slot_at L w k j) (slot_after L w (point_gen w k j / 2))) := by
  have hk := slot_after_count L w k
  have e0 : wrap32 (slot_after L w k).count = wrap32 (2 * (k : Int)) := by
    rw [hk]
    unfold wrap32
    omega
  have e1 : wrap32 ((slot_after L w k).count + 1) = wrap32 (2 * (k : Int) + 1) := by
    rw [hk]
    unfold wrap32
    omega
  have e2 : wrap32 (wrap32 ((slot_after L w k).count + 1) + 1) = wrap32 (2 * (k : Int) + 2) := by
    rw [hk]
    unfold wrap32
    omega
  have hS : slot_after L w (k + 1) = run_stores (slot_after L w k) (w k).stores := rfl
  have hdiv0 : (2 * k + 0) / 2 = k := by omega
  have hdiv2 : (2 * k + 2) / 2 = k + 1 := by omega
  unfold slot_at point_gen
  cases hw : w k with
  | put seconds microseconds tv leap_notify =>
    rw [hw] at hS
    have hlen : (seg_write.put seconds microseconds tv leap_notify).stores.length = 9 := rfl
    rw [hlen]
    by_cases hj : j ≤ 8
    · interval_cases j
      · exact ⟨by
          simp only [write_phase]
          rw [if_pos (by omega), show ((2 * k + 0 : Nat) : Int) = 2 * (k : Int) by push_cast; ring]
          exact hk, fun _ => by
          simp only [write_phase]; rw [if_pos (by omega), hdiv0]; exact ⟨rfl, rfl, rfl, rfl, rfl⟩⟩
      · exact ⟨by
          simp only [write_phase]
          rw [if_pos (by omega), show ((2 * k + 0 : Nat) : Int) = 2 * (k : Int) by push_cast; ring]
          exact hk, fun _ => by
          simp only [write_phase]; rw [if_pos (by omega), hdiv0]; exact ⟨rfl, rfl, rfl, rfl, rfl⟩⟩
      all_goals
        first
        | refine ⟨?_, fun h => ?_⟩
          · simp only [write_phase]
            rw [if_neg (by omega), if_pos (by omega)]
            push_cast
            exact e1
          · simp only [write_phase] at h
            rw [if_neg (by omega), if_pos (by omega)] at h
            omega
        | refine ⟨?_, fun _ => ?_⟩
          · simp only [write_phase]
            rw [if_neg (by omega), if_neg (by omega)]
            push_cast
            exact e2
          · simp only [write_phase]
            rw [if_neg (by omega), if_neg (by omega), hdiv2, hS]
            exact ⟨rfl, rfl, rfl, rfl, rfl⟩
    · have htake : (seg_write.put seconds microseconds tv leap_notify).stores.take j =
          (seg_write.put seconds microseconds tv leap_notify).stores :=
        List.take_of_length_le (by rw [hlen]; omega)
      rw [htake]
      refine ⟨?_, fun _ => ?_⟩
      · simp only [write_phase]
        rw [if_neg (by omega), if_neg (by omega)]
        push_cast
        rw [run_write_count]
        exact e2
      · simp only [write_phase]
        rw [if_neg (by omega), if_neg (by omega), hdiv2, hS]
        exact ⟨rfl, rfl, rfl, rfl, rfl⟩
  | pps actual_tv tv leap_notify =>
    rw [hw] at hS
    have hlen : (seg_write.pps actual_tv tv leap_notify).stores.length = 10 := rfl
    rw [hlen]
    by_cases hj : j ≤ 9
    · interval_cases j
      · exact ⟨by
          simp only [write_phase]
          rw [if_pos (by omega), show ((2 * k + 0 : Nat) : Int) = 2 * (k : Int) by push_cast; ring]
          exact hk, fun _ => by
          simp only [write_phase]; rw [if_pos (by omega), hdiv0]; exact ⟨rfl, rfl, rfl, rfl, rfl⟩⟩
      · exact ⟨by
          simp only [write_phase]
          rw [if_pos (by omega), show ((2 * k + 0 : Nat) : Int) = 2 * (k : Int) by push_cast; ring]
          exact hk, fun _ => by
          simp only [write_phase]; rw [if_pos (by omega), hdiv0]; exact ⟨rfl, rfl, rfl, rfl, rfl⟩⟩
      all_goals
        first
        | refine ⟨?_, fun h => ?_⟩
          · simp only [write_phase]
            rw [if_neg (by omega), if_pos (by omega)]
            push_cast
            exact e1
          · simp only [write_phase] at h
            rw [if_neg (by omega), if_pos (by omega)] at h
            omega
        | refine ⟨?_, fun _ => ?_⟩
          · simp only [write_phase]
            rw [if_neg (by omega), if_neg (by omega)]
            push_cast
            exact e2
          · simp only [write_phase]
            rw [if_neg (by omega), if_neg (by omega), hdiv2, hS]
            exact ⟨rfl, rfl, rfl, rfl, rfl⟩
    · have htake : (seg_write.pps actual_tv tv leap_notify).stores.take j =
          (seg_write.pps actual_tv tv leap_notify).stores :=
        List.take_of_length_le (by rw [hlen]; omega)
      rw [htake]
      refine ⟨?_, fun _ => ?_⟩
      · simp only [write_phase]
        rw [if_neg (by omega), if_neg (by omega)]
        push_cast
        rw [run_write_count]
        exact e2
      · simp only [write_phase]
        rw [if_neg (by omega), if_neg (by omega), hdiv2, hS]
        exact ⟨rfl, rfl, rfl, rfl, rfl⟩

/-- A later point of the writer's execution has seen at least as many counter increments. -/
theorem point_gen_mono (w : Nat → seg_write) (k j k2 j2 : Nat) (h : point_le k j k2 j2) :
    point_gen w k j ≤ point_gen w k2 j2 := by
  unfold point_le at h
  unfold point_gen write_phase
  rcases h with h | ⟨h, hj⟩
  · split_ifs <;> omega
  · subst h
    split_ifs <;> omega

/-- At the point `(k, j)` between `2 * k` and `2 * k + 2` increments have been performed. -/
theorem point_gen_bounds (w : Nat → seg_write) (k j : Nat) :
    2 * k ≤ point_gen w k j ∧ point_gen w k j ≤ 2 * k + 2 := by
  unfold point_gen write_phase
  split_ifs <;> omega

/-- C23 amended: reader consistency under the generation protocol.  A single writer performs
the store sequences of `ntpshm_put` and `ntpshm_pps` on a segment obtained from
`ntpshm_alloc`; a reader reads `count`, then `clockTimeStampSec`, `clockTimeStampUSec`,
`receiveTimeStampSec`, `receiveTimeStampUSec`, then `count` again, each at an arbitrary point
of the writer's stores, in this order.  If fewer than 2^31 - 1 writes lie between the two
reads of `count` and the two values read are equal and even, the four timestamp values all
belong to the segment as it was after one and the same number `m` of complete writes
(`m = 0`: the reset state). -/
theorem C23_reader_consistency (L : Int) (w : Nat → seg_write)
    (k0 j0 k1 j1 k2 j2 k3 j3 k4 j4 k5 j5 : Nat)
    (h01 : point_le k0 j0 k1 j1) (h12 : point_le k1 j1 k2 j2) (h23 : point_le k2 j2 k3 j3)
    (h34 : point_le k3 j3 k4 j4) (h45 : point_le k4 j4 k5 j5)
    (hwindow : k5 < k0 + 2147483647)
    (heq : (slot_at L w k0 j0).count = (slot_at L w k5 j5).count)
    (heven : (slot_at L w k0 j0).count % 2 = 0) :
    ∃ m,
      (slot_at L w k1 j1).clockTimeStampSec = (slot_after L w m).clockTimeStampSec ∧
      (slot_at L w k2 j2).clockTimeStampUSec = (slot_after L w m).clockTimeStampUSec ∧
      (slot_at L w k3 j3).receiveTimeStampSec = (slot_after L w m).receiveTimeStampSec ∧
      (slot_at L w k4 j4).receiveTimeStampUSec = (slot_after L w m).receiveTimeStampUSec := by
  obtain ⟨c0, _⟩ := slot_at_gen L w k0 j0
  obtain ⟨_, d1⟩ := slot_at_gen L w k1 j1
  obtain ⟨_, d2⟩ := slot_at_gen L w k2 j2
  obtain ⟨_, d3⟩ := slot_at_gen L w k3 j3
  obtain ⟨_, d4⟩ := slot_at_gen L w k4 j4
  obtain ⟨c5, _⟩ := slot_at_gen L w k5 j5
  have m01 := point_gen_mono w _ _ _ _ h01
  have m12 := point_gen_mono w _ _ _ _ h12
  have m23 := point_gen_mono w _ _ _ _ h23
  have m34 := point_gen_mono w _ _ _ _ h34
  have m45 := point_gen_mono w _ _ _ _ h45
  have b0 := (point_gen_bounds w k0 j0).1
  have b5 := (point_gen_bounds w k5 j5).2
  rw [c0, c5] at heq
  rw [c0] at heven
  generalize point_gen w k0 j0 = g0 at *
  generalize point_gen w k1 j1 = g1 at *
  generalize point_gen w k2 j2 = g2 at *
  generalize point_gen w k3 j3 = g3 at *
  generalize point_gen w k4 j4 = g4 at *
  generalize point_gen w k5 j5 = g5 at *
  unfold wrap32 at heq heven
  have e05 : g5 = g0 := by omega
  have ev : g0 % 2 = 0 := by omega
  have e1 : g1 = g0 := by omega
  have e2 : g2 = g0 := by omega
  have e3 : g3 = g0 := by omega
  have e4 : g4 = g0 := by omega
  rw [e1] at d1
  rw [e2] at d2
  rw [e3] at d3
  rw [e4] at d4
  exact ⟨g0 / 2, (d1 ev).1, (d2 ev).2.1, (d3 ev).2.2.1, (d4 ev).2.2.2.1⟩

/-- Witness of C23 amended: the reader starts after the second increment of the first write
and ends before the first increment of the second write. -/
theorem C23_reader_consistency_witness :
    ∃ m,
      (slot_at 3 writer_seconds 0 9).clockTimeStampSec = (slot_after 3 writer_seconds m).clockTimeStampSec ∧
      (slot_at 3 writer_seconds 1 0).clockTimeStampUSec = (slot_after 3 writer_seconds m).clockTimeStampUSec ∧
      (slot_at 3 writer_seconds 1 0).receiveTimeStampSec = (slot_after 3 writer_seconds m).receiveTimeStampSec ∧
      (slot_at 3 writer_seconds 1 1).receiveTimeStampUSec = (slot_after 3 writer_seconds m).receiveTimeStampUSec :=
  C23_reader_consistency 3 writer_seconds 0 8 0 9 1 0 1 0 1 1 1 1
    (by unfold point_le; omega) (by unfold point_le; omega) (by unfold point_le; omega)
    (by unfold point_le; omega) (by unfold point_le; omega) (by omega) (by decide) (by decide)

/-- The clock second of the segment after `m` writes of `writer_seconds` is `m`, and the
receive second after none of them is 0. -/
theorem writer_seconds_slot (L : Int) (m : Nat) :
    (slot_after L writer_seconds m).clockTimeStampSec = (m : Int) ∧
    (m = 0 → (slot_after L writer_seconds m).receiveTimeStampSec = 0) := by
  cases m with
  | zero => exact ⟨rfl, fun _ => rfl⟩
  | succ n =>
    refine ⟨?_, fun h => by omega⟩
    show (run_stores (slot_after L writer_seconds n) (writer_seconds n).stores).clockTimeStampSec
      = _
    show (run_stores (slot_after L writer_seconds n)
      (put_stores ((n : Int) + 1) 0 ⟨(n : Int) + 7, 0⟩ 0)).clockTimeStampSec = _
    rw [run_put_stores]
    push_cast
    rfl

/-- C23 as stated fails on the code, whose counter is a 32-bit `int`: when 2^31 writes
complete between the two reads of `count`, the counter has come back to the value first read.
The reader below reads `count` and the clock timestamp before the first write, the receive
timestamp after the first write and `count` again after 2^31 writes: the two counts are equal
and even, yet no single state of the segment has both the clock second and the receive
second that were read. -/
theorem C23_counter_wraps :
    point_le 0 0 0 0 ∧ point_le 0 0 1 0 ∧ point_le 1 0 2147483648 0 ∧
    (slot_at 3 writer_seconds 0 0).count = (slot_at 3 writer_seconds 2147483648 0).count ∧
    (slot_at 3 writer_seconds 0 0).count % 2 = 0 ∧
    ¬ ∃ m,
      (slot_at 3 writer_seconds 0 0).clockTimeStampSec =
        (slot_after 3 writer_seconds m).clockTimeStampSec ∧
      (slot_at 3 writer_seconds 0 0).clockTimeStampUSec =
        (slot_after 3 writer_seconds m).clockTimeStampUSec ∧
      (slot_at 3 writer_seconds 1 0).receiveTimeStampSec =
        (slot_after 3 writer_seconds m).receiveTimeStampSec ∧
      (slot_at 3 writer_seconds 1 0).receiveTimeStampUSec =
        (slot_after 3 writer_seconds m).receiveTimeStampUSec := by
  have hg0 : point_gen writer_seconds 0 0 = 0 := by
    simp [point_gen, write_phase]
  have hg5 : point_gen writer_seconds 2147483648 0 = 4294967296 := by
    simp [point_gen, write_phase]
  have hc0 : (slot_at 3 writer_seconds 0 0).count = 0 := by decide
  have hc5 : (slot_at 3 writer_seconds 2147483648 0).count = 0 := by
    rw [(slot_at_gen 3 writer_seconds 2147483648 0).1, hg5]
    unfold wrap32
    norm_num
  refine ⟨by unfold point_le; omega, by unfold point_le; omega, by unfold point_le; omega,
    by rw [hc0, hc5], by rw [hc0]; decide, ?_⟩
  rintro ⟨m, h1, _, h3, _⟩
  have hm := writer_seconds_slot 3 m
  rw [hm.1] at h1
  have h10 : (slot_at 3 writer_seconds 0 0).clockTimeStampSec = 0 := by decide
  rw [h10] at h1
  have hm0 : m = 0 := by omega
  rw [hm.2 hm0] at h3
  have h37 : (slot_at 3 writer_seconds 1 0).receiveTimeStampSec = 7 := by decide
  rw [h37] at h3
  omega

end Gpsd
